import Mathlib

/-!
# Analytics front end: endpoint wrappers and data hooks

A shallow embedding of `src/api/analyticsService.js`,
`src/hooks/analytics/useMetrics.js`,
`src/hooks/analytics/useAdvancedAnalytics.js`,
`src/components/analytics/ReportsList.jsx`,
`src/components/analytics/PredictionsList.jsx` and
`src/pages/provider/ProviderAnalyticsPage.jsx`.

* JavaScript values are the inductive type `JsVal`.
* An `async` function is a state-passing computation `Async σ α`: it reads the
  shared HTTP client, threads the hook state `σ` (the `useState` slots) and a
  log of the HTTP requests issued so far, and completes normally or by
  throwing.  One invocation runs alone from start to finish.
* The shared HTTP client (`./httpClient`, not among the sources) is a
  parameter: the `k`-th request issued settles as `client k request`.
* An event handler of a component is a computation `Handler σ α` of the same
  shape over the component state; the functions it calls that come from hooks
  outside the sources, and the browser dialogs, are a parameter too.
-/

namespace Analytics

/-! ## JavaScript values -/

/-- JavaScript values. `num` holds the finite numbers that are integers, `nan`
is `NaN`, and `infinity` holds `Infinity` and, when `negative`, `-Infinity`. -/
inductive JsVal where
  | undefined
  | null
  | bool (b : Bool)
  | num (n : Int)
  | nan
  | infinity (negative : Bool)
  | str (s : String)
  | arr (items : List JsVal)
  | obj (fields : List (String × JsVal))

namespace JsVal

/-- JavaScript `ToBoolean`. -/
def truthy : JsVal → Bool
  | undefined => false
  | null => false
  | bool b => b
  | num n => n != 0
  | nan => false
  | infinity _ => true
  | str s => s != ""
  | arr _ => true
  | obj _ => true

/-- The value is `null` or `undefined`. -/
def isNullish : JsVal → Bool
  | undefined => true
  | null => true
  | _ => false

/-- The value is an array. -/
def isArray : JsVal → Bool
  | arr _ => true
  | _ => false

/-- JavaScript `a || b`. -/
def or (a b : JsVal) : JsVal := if a.truthy then a else b

/-- JavaScript `a && b`. -/
def and (a b : JsVal) : JsVal := if a.truthy then b else a

/-- Own-property lookup in the field list of an object; `undefined` when the
key is missing. -/
def lookup (k : String) : List (String × JsVal) → JsVal
  | [] => undefined
  | (k2, v) :: rest => if k2 = k then v else lookup k rest

/-- Property read `v[k]` on a value that is not nullish, for a key `k` that no
prototype supplies (`data`, `content`, `totalPages`, `message`, `params`, ...):
the own property of an object, `undefined` on anything else. -/
def field (v : JsVal) (k : String) : JsVal :=
  match v with
  | obj fields => lookup k fields
  | _ => undefined

end JsVal

/-- Piece of a template literal: literal text, or a substitution whose value
the template converts to a string. -/
inductive Piece where
  | lit (s : String)
  | sub (v : JsVal)

/-- Template literal before string conversion of its substitutions. -/
abbrev Template := List Piece

/-! ## The execution model of `async` functions -/

/-- How an evaluation ends: a value (a resolved promise) or a thrown reason
(a rejected promise). -/
inductive Completion (α : Type) where
  | normal (value : α)
  | thrown (reason : JsVal)

/-- The HTTP verbs of the shared client. -/
inductive Method where
  | get
  | post
  | put
  | patch
  | delete

/-- One call of the shared HTTP client: the method called, the URL and the
remaining arguments exactly as passed. -/
structure Request where
  method : Method
  url : Template
  args : List JsVal

/-- The shared HTTP client, a parameter of the model: the `k`-th request issued
settles as `client k request`. -/
abbrev HttpClient := Nat → Request → Completion JsVal

/-- Result of running a computation: its completion, the final hook state and
the log of requests issued, each with the hook state at the moment of issue. -/
structure Run (σ α : Type) where
  result : Completion α
  state : σ
  log : List (Request × σ)

/-- An `async` function over hook state `σ`. -/
def Async (σ α : Type) := HttpClient → σ → List (Request × σ) → Run σ α

namespace Async

/-- Returning a value. -/
def pure {σ α : Type} (a : α) : Async σ α := fun _ s l => ⟨.normal a, s, l⟩

/-- Sequencing; a throw skips the rest. -/
def bind {σ α β : Type} (m : Async σ α) (f : α → Async σ β) : Async σ β := fun c s l =>
  match m c s l with
  | ⟨.normal a, s1, l1⟩ => f a c s1 l1
  | ⟨.thrown e, s1, l1⟩ => ⟨.thrown e, s1, l1⟩

/-- JavaScript `throw e`. -/
def throw {σ α : Type} (e : JsVal) : Async σ α := fun _ s l => ⟨.thrown e, s, l⟩

/-- JavaScript `try { body } catch (e) { handler e }`. -/
def tryCatch {σ α : Type} (body : Async σ α) (handler : JsVal → Async σ α) : Async σ α :=
  fun c s l =>
    match body c s l with
    | ⟨.normal a, s1, l1⟩ => ⟨.normal a, s1, l1⟩
    | ⟨.thrown e, s1, l1⟩ => handler e c s1 l1

/-- JavaScript `try { body } finally { fin }`: `fin` runs on both exits and the
completion of `body` is kept unless `fin` itself throws. -/
def tryFinally {σ α β : Type} (body : Async σ α) (fin : Option α → Async σ β) :
    Async σ (α × β) := fun c s l =>
  match body c s l with
  | ⟨.normal a, s1, l1⟩ =>
    match fin (some a) c s1 l1 with
    | ⟨.normal b, s2, l2⟩ => ⟨.normal (a, b), s2, l2⟩
    | ⟨.thrown e, s2, l2⟩ => ⟨.thrown e, s2, l2⟩
  | ⟨.thrown e, s1, l1⟩ =>
    match fin none c s1 l1 with
    | ⟨.normal _, s2, l2⟩ => ⟨.thrown e, s2, l2⟩
    | ⟨.thrown e2, s2, l2⟩ => ⟨.thrown e2, s2, l2⟩

instance instMonad {σ : Type} : Monad (Async σ) where
  pure := Async.pure
  bind := Async.bind

instance instMonadExcept {σ : Type} : MonadExcept JsVal (Async σ) where
  throw := Async.throw
  tryCatch := Async.tryCatch

instance instMonadFinally {σ : Type} : MonadFinally (Async σ) where
  tryFinally' := Async.tryFinally

/-- State setter call: `setX(v)` as an update of the hook state. -/
def modify {σ : Type} (f : σ → σ) : Async σ Unit := fun _ s l => ⟨.normal (), f s, l⟩

/-- Issue one request to the shared client and await it: the request is logged
with the current hook state and the completion is the client's. -/
def send {σ : Type} (r : Request) : Async σ JsVal := fun c s l =>
  ⟨c l.length r, s, l ++ [(r, s)]⟩

/-- The `TypeError` raised by a property read on `null` or `undefined`. -/
def typeError : JsVal :=
  .obj [("name", .str "TypeError"), ("message", .str "Cannot read properties of undefined")]

/-- Property read `v.k` inside an `async` body: throws a `TypeError` on `null`
and `undefined`, otherwise yields `JsVal.field v k`. -/
def prop {σ : Type} (v : JsVal) (k : String) : Async σ JsVal :=
  match v with
  | .undefined => throw typeError
  | .null => throw typeError
  | w => pure (w.field k)

/-- JavaScript `console.error(label, err)`: no effect on the modelled state. -/
def consoleError {σ : Type} (_label : String) (_err : JsVal) : Async σ Unit := pure ()

end Async

/-- Positional parameter binding: the `i`-th argument of a call, `undefined`
when the caller passed fewer; arguments beyond the parameters are ignored. -/
def arg (args : List JsVal) (i : Nat) : JsVal := args.getD i .undefined

/-- Parameter with a default value (`(p = d) => ...`): the default applies when
the argument is `undefined`. -/
def argOr (args : List JsVal) (i : Nat) (d : JsVal) : JsVal :=
  match arg args i with
  | .undefined => d
  | v => v

/-! ## The shared HTTP client -/

namespace httpClient

/-- The call `httpClient.get(url, ...rest)`. -/
def get {σ : Type} (url : Template) (rest : List JsVal) : Async σ JsVal :=
  Async.send ⟨.get, url, rest⟩

/-- The call `httpClient.post(url, ...rest)`. -/
def post {σ : Type} (url : Template) (rest : List JsVal) : Async σ JsVal :=
  Async.send ⟨.post, url, rest⟩

/-- The call `httpClient.put(url, ...rest)`. -/
def put {σ : Type} (url : Template) (rest : List JsVal) : Async σ JsVal :=
  Async.send ⟨.put, url, rest⟩

/-- The call `httpClient.patch(url, ...rest)`. -/
def patch {σ : Type} (url : Template) (rest : List JsVal) : Async σ JsVal :=
  Async.send ⟨.patch, url, rest⟩

/-- The call `httpClient.delete(url, ...rest)`. -/
def delete {σ : Type} (url : Template) (rest : List JsVal) : Async σ JsVal :=
  Async.send ⟨.delete, url, rest⟩

end httpClient

/-- Modelled from the spec: the module `./httpClient` is missing; by the
convention of the shared client the request configuration is the second
argument of `get` and `delete` and the third of `post`, `put` and `patch`. -/
def Request.config (r : Request) : JsVal :=
  match r.method with
  | .get => arg r.args 0
  | .delete => arg r.args 0
  | _ => arg r.args 1

/-- Modelled from the spec: the module `./httpClient` is missing; the request
body is the second argument of `post`, `put` and `patch`, and `get` and
`delete` carry none. -/
def Request.body (r : Request) : JsVal :=
  match r.method with
  | .get => .undefined
  | .delete => .undefined
  | _ => arg r.args 0

/-- Query parameter `k` of a request: the entry `k` of `config.params`,
`undefined` when the request carries no such parameter. -/
def Request.param (r : Request) (k : String) : JsVal :=
  (r.config.field "params").field k

/-! ## `src/api/analyticsService.js` -/

/-- The constant `BASE_URL`. -/
def BASE_URL : String := "/analytics/api"

namespace analyticsService

/-! ### Analysis reports -/

/-- The wrapper `createReport(reportData)`. -/
def createReport {σ : Type} (args : List JsVal) : Async σ JsVal :=
  let reportData := arg args 0
  httpClient.post [.lit BASE_URL, .lit "/reports"] [reportData]

/-- The wrapper `getMyReports()`. -/
def getMyReports {σ : Type} (_args : List JsVal) : Async σ JsVal :=
  httpClient.get [.lit BASE_URL, .lit "/reports/my-reports"] []

/-- The wrapper `getReportById(reportId)`. -/
def getReportById {σ : Type} (args : List JsVal) : Async σ JsVal :=
  let reportId := arg args 0
  httpClient.get [.lit BASE_URL, .lit "/reports/", .sub reportId] []

/-- The wrapper `deleteReport(reportId)`. -/
def deleteReport {σ : Type} (args : List JsVal) : Async σ JsVal :=
  let reportId := arg args 0
  httpClient.delete [.lit BASE_URL, .lit "/reports/", .sub reportId] []

/-! ### Dashboards -/

/-- The wrapper `createDashboard(dashboardData)`. -/
def createDashboard {σ : Type} (args : List JsVal) : Async σ JsVal :=
  let dashboardData := arg args 0
  httpClient.post [.lit BASE_URL, .lit "/dashboards"] [dashboardData]

/-- The wrapper `updateDashboard(dashboardId, dashboardData)`. -/
def updateDashboard {σ : Type} (args : List JsVal) : Async σ JsVal :=
  let dashboardId := arg args 0
  let dashboardData := arg args 1
  httpClient.put [.lit BASE_URL, .lit "/dashboards/", .sub dashboardId] [dashboardData]

/-- The wrapper `getMyDashboards()`. -/
def getMyDashboards {σ : Type} (_args : List JsVal) : Async σ JsVal :=
  httpClient.get [.lit BASE_URL, .lit "/dashboards/my-dashboards"] []

/-- The wrapper `getPublicDashboards()`. -/
def getPublicDashboards {σ : Type} (_args : List JsVal) : Async σ JsVal :=
  httpClient.get [.lit BASE_URL, .lit "/dashboards/public"] []

/-- The wrapper `getDashboardById(dashboardId)`. -/
def getDashboardById {σ : Type} (args : List JsVal) : Async σ JsVal :=
  let dashboardId := arg args 0
  httpClient.get [.lit BASE_URL, .lit "/dashboards/", .sub dashboardId] []

/-- The wrapper `deleteDashboard(dashboardId)`. -/
def deleteDashboard {σ : Type} (args : List JsVal) : Async σ JsVal :=
  let dashboardId := arg args 0
  httpClient.delete [.lit BASE_URL, .lit "/dashboards/", .sub dashboardId] []

/-! ### AI predictions -/

/-- The wrapper `createPrediction(predictionData)`. -/
def createPrediction {σ : Type} (args : List JsVal) : Async σ JsVal :=
  let predictionData := arg args 0
  httpClient.post [.lit BASE_URL, .lit "/predictions"] [predictionData]

/-- The wrapper `getMyPredictions()`. -/
def getMyPredictions {σ : Type} (_args : List JsVal) : Async σ JsVal :=
  httpClient.get [.lit BASE_URL, .lit "/predictions/my-predictions"] []

/-- The wrapper `getPredictionById(predictionId)`. -/
def getPredictionById {σ : Type} (args : List JsVal) : Async σ JsVal :=
  let predictionId := arg args 0
  httpClient.get [.lit BASE_URL, .lit "/predictions/", .sub predictionId] []

/-! ### Insights -/

/-- The wrapper `getActiveInsights()`. -/
def getActiveInsights {σ : Type} (_args : List JsVal) : Async σ JsVal :=
  httpClient.get [.lit BASE_URL, .lit "/insights/active"] []

/-- The wrapper `getInsightsByDataset(datasetId)`. -/
def getInsightsByDataset {σ : Type} (args : List JsVal) : Async σ JsVal :=
  let datasetId := arg args 0
  httpClient.get [.lit BASE_URL, .lit "/insights/dataset/", .sub datasetId] []

/-- The wrapper `deactivateInsight(insightId)`. -/
def deactivateInsight {σ : Type} (args : List JsVal) : Async σ JsVal :=
  let insightId := arg args 0
  httpClient.post [.lit BASE_URL, .lit "/insights/", .sub insightId, .lit "/deactivate"] []

/-- The wrapper `getInsightsBySeverity(severity)`. -/
def getInsightsBySeverity {σ : Type} (args : List JsVal) : Async σ JsVal :=
  let severity := arg args 0
  httpClient.get [.lit BASE_URL, .lit "/insights/severity/", .sub severity] []

/-- The wrapper `getInsightsByCategory(category)`. -/
def getInsightsByCategory {σ : Type} (args : List JsVal) : Async σ JsVal :=
  let category := arg args 0
  httpClient.get [.lit BASE_URL, .lit "/insights/category/", .sub category] []

/-- The wrapper `getInsightsByType(type)`. -/
def getInsightsByType {σ : Type} (args : List JsVal) : Async σ JsVal :=
  let type := arg args 0
  httpClient.get [.lit BASE_URL, .lit "/insights/type/", .sub type] []

/-- The wrapper `getInsightById(insightId)`. -/
def getInsightById {σ : Type} (args : List JsVal) : Async σ JsVal :=
  let insightId := arg args 0
  httpClient.get [.lit BASE_URL, .lit "/insights/", .sub insightId] []

/-- The wrapper `getInsightsSummary()`. -/
def getInsightsSummary {σ : Type} (_args : List JsVal) : Async σ JsVal :=
  httpClient.get [.lit BASE_URL, .lit "/insights/summary"] []

/-- The wrapper `createInsight(insightData)`. -/
def createInsight {σ : Type} (args : List JsVal) : Async σ JsVal :=
  let insightData := arg args 0
  httpClient.post [.lit BASE_URL, .lit "/insights/create"] [insightData]

/-- The wrapper `generateInsightsFromReport(reportId)`. -/
def generateInsightsFromReport {σ : Type} (args : List JsVal) : Async σ JsVal :=
  let reportId := arg args 0
  httpClient.post [.lit BASE_URL, .lit "/insights/generate-auto/", .sub reportId] []

/-- The wrapper `activateInsight(insightId)`. -/
def activateInsight {σ : Type} (args : List JsVal) : Async σ JsVal :=
  let insightId := arg args 0
  httpClient.post [.lit BASE_URL, .lit "/insights/", .sub insightId, .lit "/activate"] []

/-- The wrapper `deleteInsight(insightId)`. -/
def deleteInsight {σ : Type} (args : List JsVal) : Async σ JsVal :=
  let insightId := arg args 0
  httpClient.delete [.lit BASE_URL, .lit "/insights/", .sub insightId] []

/-! ### Analytics metrics -/

/-- The wrapper `recordMetric(metricData)`. -/
def recordMetric {σ : Type} (args : List JsVal) : Async σ JsVal :=
  let metricData := arg args 0
  httpClient.post [.lit BASE_URL, .lit "/metrics/record"] [metricData]

/-- The wrapper `recordBatchMetrics(metricsData)`. -/
def recordBatchMetrics {σ : Type} (args : List JsVal) : Async σ JsVal :=
  let metricsData := arg args 0
  httpClient.post [.lit BASE_URL, .lit "/metrics/batch-record"] [metricsData]

/-- The wrapper `getMetricsByEntity(entityType, entityId)`. -/
def getMetricsByEntity {σ : Type} (args : List JsVal) : Async σ JsVal :=
  let entityType := arg args 0
  let entityId := arg args 1
  httpClient.get [.lit BASE_URL, .lit "/metrics/entity/", .sub entityType, .lit "/", .sub entityId] []

/-- The wrapper `getMetricsByPeriod(entityType, entityId, startDate, endDate)`. -/
def getMetricsByPeriod {σ : Type} (args : List JsVal) : Async σ JsVal :=
  let entityType := arg args 0
  let entityId := arg args 1
  let startDate := arg args 2
  let endDate := arg args 3
  httpClient.get [.lit BASE_URL, .lit "/metrics/period/", .sub entityType, .lit "/", .sub entityId]
    [.obj [("params", .obj [("startDate", startDate), ("endDate", endDate)])]]

/-- The wrapper `getAverageMetric(entityType, metricName, startDate, endDate)`. -/
def getAverageMetric {σ : Type} (args : List JsVal) : Async σ JsVal :=
  let entityType := arg args 0
  let metricName := arg args 1
  let startDate := arg args 2
  let endDate := arg args 3
  httpClient.get [.lit BASE_URL, .lit "/metrics/average/", .sub entityType, .lit "/", .sub metricName]
    [.obj [("params", .obj [("startDate", startDate), ("endDate", endDate)])]]

/-- The wrapper `getMetricsSummary(entityType, entityId, startDate, endDate)`. -/
def getMetricsSummary {σ : Type} (args : List JsVal) : Async σ JsVal :=
  let entityType := arg args 0
  let entityId := arg args 1
  let startDate := arg args 2
  let endDate := arg args 3
  httpClient.get [.lit BASE_URL, .lit "/metrics/summary/", .sub entityType, .lit "/", .sub entityId]
    [.obj [("params", .obj [("startDate", startDate), ("endDate", endDate)])]]

/-- The wrapper `getMetricsByType(metricType)`. -/
def getMetricsByType {σ : Type} (args : List JsVal) : Async σ JsVal :=
  let metricType := arg args 0
  httpClient.get [.lit BASE_URL, .lit "/metrics/type/", .sub metricType] []

/-! ### Advanced analytics -/

/-- The wrapper `exportReportPDF(reportId)`. -/
def exportReportPDF {σ : Type} (args : List JsVal) : Async σ JsVal :=
  let reportId := arg args 0
  httpClient.get [.lit BASE_URL, .lit "/advanced/reports/", .sub reportId, .lit "/export/pdf"]
    [.obj [("responseType", .str "blob")]]

/-- The wrapper `exportReportExcel(reportId)`. -/
def exportReportExcel {σ : Type} (args : List JsVal) : Async σ JsVal :=
  let reportId := arg args 0
  httpClient.get [.lit BASE_URL, .lit "/advanced/reports/", .sub reportId, .lit "/export/excel"]
    [.obj [("responseType", .str "blob")]]

/-- The wrapper `exportReportCSV(reportId)`. -/
def exportReportCSV {σ : Type} (args : List JsVal) : Async σ JsVal :=
  let reportId := arg args 0
  httpClient.get [.lit BASE_URL, .lit "/advanced/reports/", .sub reportId, .lit "/export/csv"]
    [.obj [("responseType", .str "blob")]]

/-- The wrapper `compareReports(reportIds)`. -/
def compareReports {σ : Type} (args : List JsVal) : Async σ JsVal :=
  let reportIds := arg args 0
  httpClient.post [.lit BASE_URL, .lit "/advanced/reports/compare"] [.obj [("reportIds", reportIds)]]

/-- The wrapper `scheduleAnalysis(scheduleData)`. -/
def scheduleAnalysis {σ : Type} (args : List JsVal) : Async σ JsVal :=
  let scheduleData := arg args 0
  httpClient.post [.lit BASE_URL, .lit "/advanced/schedule"] [scheduleData]

/-- The wrapper `getMySchedules()`. -/
def getMySchedules {σ : Type} (_args : List JsVal) : Async σ JsVal :=
  httpClient.get [.lit BASE_URL, .lit "/advanced/schedule/my-schedules"] []

/-- The wrapper `updateSchedule(scheduleId, scheduleData)`. -/
def updateSchedule {σ : Type} (args : List JsVal) : Async σ JsVal :=
  let scheduleId := arg args 0
  let scheduleData := arg args 1
  httpClient.put [.lit BASE_URL, .lit "/advanced/schedule/", .sub scheduleId] [scheduleData]

/-- The wrapper `toggleSchedule(scheduleId)`. -/
def toggleSchedule {σ : Type} (args : List JsVal) : Async σ JsVal :=
  let scheduleId := arg args 0
  httpClient.patch [.lit BASE_URL, .lit "/advanced/schedule/", .sub scheduleId, .lit "/toggle"] []

/-- The wrapper `deleteSchedule(scheduleId)`. -/
def deleteSchedule {σ : Type} (args : List JsVal) : Async σ JsVal :=
  let scheduleId := arg args 0
  httpClient.delete [.lit BASE_URL, .lit "/advanced/schedule/", .sub scheduleId] []

/-- The wrapper `getTrendingInsights(days = 7)`. -/
def getTrendingInsights {σ : Type} (args : List JsVal) : Async σ JsVal :=
  let days := argOr args 0 (.num 7)
  httpClient.get [.lit BASE_URL, .lit "/advanced/insights/trending"]
    [.obj [("params", .obj [("days", days)])]]

/-- The wrapper `getPerformanceBenchmarks(datasetId)`. -/
def getPerformanceBenchmarks {σ : Type} (args : List JsVal) : Async σ JsVal :=
  let datasetId := arg args 0
  httpClient.get [.lit BASE_URL, .lit "/advanced/benchmarks/", .sub datasetId] []

/-! ### Data quality -/

/-- The wrapper `assessDataQuality(datasetId, datasetMetrics)`. -/
def assessDataQuality {σ : Type} (args : List JsVal) : Async σ JsVal :=
  let datasetId := arg args 0
  let datasetMetrics := arg args 1
  httpClient.post [.lit BASE_URL, .lit "/data-quality/assess/", .sub datasetId] [datasetMetrics]

/-- The wrapper `getLatestQuality(datasetId)`. -/
def getLatestQuality {σ : Type} (args : List JsVal) : Async σ JsVal :=
  let datasetId := arg args 0
  httpClient.get [.lit BASE_URL, .lit "/data-quality/dataset/", .sub datasetId, .lit "/latest"] []

/-- The wrapper `getLowQualityDatasets(threshold = 80.0)`. -/
def getLowQualityDatasets {σ : Type} (args : List JsVal) : Async σ JsVal :=
  let threshold := argOr args 0 (.num 80)
  httpClient.get [.lit BASE_URL, .lit "/data-quality/low-quality"]
    [.obj [("params", .obj [("threshold", threshold)])]]

/-! ### Admin analytics -/

/-- The wrapper `getAnalyticsStats()`. -/
def getAnalyticsStats {σ : Type} (_args : List JsVal) : Async σ JsVal :=
  httpClient.get [.lit BASE_URL, .lit "/admin/analytics/stats"] []

end analyticsService

/-- The names exported by `analyticsService.js` (its default export). -/
inductive Endpoint where
  | createReport | getMyReports | getReportById | deleteReport
  | createDashboard | updateDashboard | getMyDashboards | getPublicDashboards
  | getDashboardById | deleteDashboard
  | createPrediction | getMyPredictions | getPredictionById
  | getActiveInsights | getInsightsByDataset | getInsightsBySeverity | getInsightsByCategory
  | getInsightsByType | getInsightById | getInsightsSummary | createInsight
  | generateInsightsFromReport | deactivateInsight | activateInsight | deleteInsight
  | recordMetric | recordBatchMetrics | getMetricsByEntity | getMetricsByPeriod
  | getAverageMetric | getMetricsSummary | getMetricsByType
  | exportReportPDF | exportReportExcel | exportReportCSV | compareReports
  | scheduleAnalysis | getMySchedules | updateSchedule | toggleSchedule | deleteSchedule
  | getTrendingInsights | getPerformanceBenchmarks
  | assessDataQuality | getLatestQuality | getLowQualityDatasets
  | getAnalyticsStats

/-- The default export of `analyticsService.js`: each exported name bound to
its wrapper. -/
def exported {σ : Type} : Endpoint → List JsVal → Async σ JsVal
  | .createReport => analyticsService.createReport
  | .getMyReports => analyticsService.getMyReports
  | .getReportById => analyticsService.getReportById
  | .deleteReport => analyticsService.deleteReport
  | .createDashboard => analyticsService.createDashboard
  | .updateDashboard => analyticsService.updateDashboard
  | .getMyDashboards => analyticsService.getMyDashboards
  | .getPublicDashboards => analyticsService.getPublicDashboards
  | .getDashboardById => analyticsService.getDashboardById
  | .deleteDashboard => analyticsService.deleteDashboard
  | .createPrediction => analyticsService.createPrediction
  | .getMyPredictions => analyticsService.getMyPredictions
  | .getPredictionById => analyticsService.getPredictionById
  | .getActiveInsights => analyticsService.getActiveInsights
  | .getInsightsByDataset => analyticsService.getInsightsByDataset
  | .getInsightsBySeverity => analyticsService.getInsightsBySeverity
  | .getInsightsByCategory => analyticsService.getInsightsByCategory
  | .getInsightsByType => analyticsService.getInsightsByType
  | .getInsightById => analyticsService.getInsightById
  | .getInsightsSummary => analyticsService.getInsightsSummary
  | .createInsight => analyticsService.createInsight
  | .generateInsightsFromReport => analyticsService.generateInsightsFromReport
  | .deactivateInsight => analyticsService.deactivateInsight
  | .activateInsight => analyticsService.activateInsight
  | .deleteInsight => analyticsService.deleteInsight
  | .recordMetric => analyticsService.recordMetric
  | .recordBatchMetrics => analyticsService.recordBatchMetrics
  | .getMetricsByEntity => analyticsService.getMetricsByEntity
  | .getMetricsByPeriod => analyticsService.getMetricsByPeriod
  | .getAverageMetric => analyticsService.getAverageMetric
  | .getMetricsSummary => analyticsService.getMetricsSummary
  | .getMetricsByType => analyticsService.getMetricsByType
  | .exportReportPDF => analyticsService.exportReportPDF
  | .exportReportExcel => analyticsService.exportReportExcel
  | .exportReportCSV => analyticsService.exportReportCSV
  | .compareReports => analyticsService.compareReports
  | .scheduleAnalysis => analyticsService.scheduleAnalysis
  | .getMySchedules => analyticsService.getMySchedules
  | .updateSchedule => analyticsService.updateSchedule
  | .toggleSchedule => analyticsService.toggleSchedule
  | .deleteSchedule => analyticsService.deleteSchedule
  | .getTrendingInsights => analyticsService.getTrendingInsights
  | .getPerformanceBenchmarks => analyticsService.getPerformanceBenchmarks
  | .assessDataQuality => analyticsService.assessDataQuality
  | .getLatestQuality => analyticsService.getLatestQuality
  | .getLowQualityDatasets => analyticsService.getLowQualityDatasets
  | .getAnalyticsStats => analyticsService.getAnalyticsStats


/-! ## `src/hooks/analytics/useMetrics.js` -/

namespace useRecordMetric

/-- The `useState` slots of `useRecordMetric`. -/
structure State where
  loading : Bool
  error : JsVal

/-- The initial values given to `useState`. -/
def init : State := { loading := false, error := .null }

/-- The setter `setLoading`. -/
def setLoading (v : Bool) : Async State Unit := Async.modify fun s => { s with loading := v }

/-- The setter `setError`. -/
def setError (v : JsVal) : Async State Unit := Async.modify fun s => { s with error := v }

/-- The function `recordMetric(metricData)`. -/
def recordMetric (metricData : JsVal) : Async State JsVal := do
  try
    setLoading true
    setError .null
    let response ← analyticsService.recordMetric [metricData]
    Async.prop response "data"
  catch err =>
    Async.consoleError "Failed to record metric:" err
    setError ((← Async.prop err "message").or (.str "Failed to record metric"))
    throw err
  finally
    setLoading false

/-- The function `recordBatch(metricsList)`. -/
def recordBatch (metricsList : JsVal) : Async State JsVal := do
  try
    setLoading true
    setError .null
    let response ← analyticsService.recordBatchMetrics [metricsList]
    Async.prop response "data"
  catch err =>
    Async.consoleError "Failed to record batch metrics:" err
    setError ((← Async.prop err "message").or (.str "Failed to record metrics"))
    throw err
  finally
    setLoading false

end useRecordMetric

namespace useMetricsByEntity

/-- The `useState` slots of `useMetricsByEntity`. -/
structure State where
  metrics : JsVal
  loading : Bool
  error : JsVal
  totalPages : JsVal

/-- The initial values given to `useState`. -/
def init : State := { metrics := .arr [], loading := false, error := .null, totalPages := .num 0 }

/-- The setter `setMetrics`. -/
def setMetrics (v : JsVal) : Async State Unit := Async.modify fun s => { s with metrics := v }

/-- The setter `setLoading`. -/
def setLoading (v : Bool) : Async State Unit := Async.modify fun s => { s with loading := v }

/-- The setter `setError`. -/
def setError (v : JsVal) : Async State Unit := Async.modify fun s => { s with error := v }

/-- The setter `setTotalPages`. -/
def setTotalPages (v : JsVal) : Async State Unit := Async.modify fun s => { s with totalPages := v }

/-- The function `loadMetrics` of
`useMetricsByEntity(entityType, entityId, metricType, page = 0, size = 20)`. -/
def loadMetrics (hookArgs : List JsVal) : Async State Unit :=
  let entityType := arg hookArgs 0
  let entityId := arg hookArgs 1
  let metricType := arg hookArgs 2
  let page := argOr hookArgs 3 (.num 0)
  let size := argOr hookArgs 4 (.num 20)
  do
    try
      setLoading true
      setError .null
      let response ← analyticsService.getMetricsByEntity [entityType, entityId, metricType, page, size]
      setMetrics ((← Async.prop (← Async.prop response "data") "content").or (.arr []))
      setTotalPages ((← Async.prop (← Async.prop response "data") "totalPages").or (.num 0))
    catch err =>
      Async.consoleError "Failed to load metrics:" err
      setError ((← Async.prop err "message").or (.str "Failed to load metrics"))
    finally
      setLoading false

/-- The `useEffect` callback: `if (entityType && entityId) loadMetrics()`. -/
def effect (hookArgs : List JsVal) : Async State Unit :=
  let entityType := arg hookArgs 0
  let entityId := arg hookArgs 1
  if (entityType.and entityId).truthy then loadMetrics hookArgs else Async.pure ()

end useMetricsByEntity

namespace useMetricsByPeriod

/-- The `useState` slots of `useMetricsByPeriod`. -/
structure State where
  metrics : JsVal
  loading : Bool
  error : JsVal
  totalPages : JsVal

/-- The initial values given to `useState`. -/
def init : State := { metrics := .arr [], loading := false, error := .null, totalPages := .num 0 }

/-- The setter `setMetrics`. -/
def setMetrics (v : JsVal) : Async State Unit := Async.modify fun s => { s with metrics := v }

/-- The setter `setLoading`. -/
def setLoading (v : Bool) : Async State Unit := Async.modify fun s => { s with loading := v }

/-- The setter `setError`. -/
def setError (v : JsVal) : Async State Unit := Async.modify fun s => { s with error := v }

/-- The setter `setTotalPages`. -/
def setTotalPages (v : JsVal) : Async State Unit := Async.modify fun s => { s with totalPages := v }

/-- The function `loadMetrics` of
`useMetricsByPeriod(startDate, endDate, metricType, aggregationPeriod, page = 0, size = 50)`. -/
def loadMetrics (hookArgs : List JsVal) : Async State Unit :=
  let startDate := arg hookArgs 0
  let endDate := arg hookArgs 1
  let metricType := arg hookArgs 2
  let aggregationPeriod := arg hookArgs 3
  let page := argOr hookArgs 4 (.num 0)
  let size := argOr hookArgs 5 (.num 50)
  do
    try
      setLoading true
      setError .null
      let response ← analyticsService.getMetricsByPeriod
        [startDate, endDate, metricType, aggregationPeriod, page, size]
      setMetrics ((← Async.prop (← Async.prop response "data") "content").or (.arr []))
      setTotalPages ((← Async.prop (← Async.prop response "data") "totalPages").or (.num 0))
    catch err =>
      Async.consoleError "Failed to load metrics by period:" err
      setError ((← Async.prop err "message").or (.str "Failed to load metrics"))
    finally
      setLoading false

/-- The `useEffect` callback: `if (startDate && endDate) loadMetrics()`. -/
def effect (hookArgs : List JsVal) : Async State Unit :=
  let startDate := arg hookArgs 0
  let endDate := arg hookArgs 1
  if (startDate.and endDate).truthy then loadMetrics hookArgs else Async.pure ()

end useMetricsByPeriod


namespace useAverageMetric

/-- The `useState` slots of `useAverageMetric`. -/
structure State where
  average : JsVal
  loading : Bool
  error : JsVal

/-- The initial values given to `useState`. -/
def init : State := { average := .null, loading := false, error := .null }

/-- The setter `setAverage`. -/
def setAverage (v : JsVal) : Async State Unit := Async.modify fun s => { s with average := v }

/-- The setter `setLoading`. -/
def setLoading (v : Bool) : Async State Unit := Async.modify fun s => { s with loading := v }

/-- The setter `setError`. -/
def setError (v : JsVal) : Async State Unit := Async.modify fun s => { s with error := v }

/-- The function `loadAverage` of
`useAverageMetric(entityType, entityId, metricType, startDate, endDate)`. -/
def loadAverage (hookArgs : List JsVal) : Async State Unit :=
  let entityType := arg hookArgs 0
  let entityId := arg hookArgs 1
  let metricType := arg hookArgs 2
  let startDate := arg hookArgs 3
  let endDate := arg hookArgs 4
  do
    try
      setLoading true
      setError .null
      let response ← analyticsService.getAverageMetric
        [entityType, entityId, metricType, startDate, endDate]
      setAverage (← Async.prop response "data")
    catch err =>
      Async.consoleError "Failed to load average metric:" err
      setError ((← Async.prop err "message").or (.str "Failed to load average"))
    finally
      setLoading false

/-- The `useEffect` callback:
`if (entityType && entityId && metricType && startDate && endDate) loadAverage()`. -/
def effect (hookArgs : List JsVal) : Async State Unit :=
  let entityType := arg hookArgs 0
  let entityId := arg hookArgs 1
  let metricType := arg hookArgs 2
  let startDate := arg hookArgs 3
  let endDate := arg hookArgs 4
  if ((((entityType.and entityId).and metricType).and startDate).and endDate).truthy then
    loadAverage hookArgs
  else Async.pure ()

end useAverageMetric

namespace useMetricsSummary

/-- The `useState` slots of `useMetricsSummary`. -/
structure State where
  summary : JsVal
  loading : Bool
  error : JsVal

/-- The initial values given to `useState`. -/
def init : State := { summary := .null, loading := false, error := .null }

/-- The setter `setSummary`. -/
def setSummary (v : JsVal) : Async State Unit := Async.modify fun s => { s with summary := v }

/-- The setter `setLoading`. -/
def setLoading (v : Bool) : Async State Unit := Async.modify fun s => { s with loading := v }

/-- The setter `setError`. -/
def setError (v : JsVal) : Async State Unit := Async.modify fun s => { s with error := v }

/-- The function `loadSummary` of `useMetricsSummary(entityType, entityId)`. -/
def loadSummary (hookArgs : List JsVal) : Async State Unit :=
  let entityType := arg hookArgs 0
  let entityId := arg hookArgs 1
  do
    try
      setLoading true
      setError .null
      let response ← analyticsService.getMetricsSummary [entityType, entityId]
      setSummary (← Async.prop response "data")
    catch err =>
      Async.consoleError "Failed to load metrics summary:" err
      setError ((← Async.prop err "message").or (.str "Failed to load summary"))
    finally
      setLoading false

/-- The `useEffect` callback: `if (entityType && entityId) loadSummary()`. -/
def effect (hookArgs : List JsVal) : Async State Unit :=
  let entityType := arg hookArgs 0
  let entityId := arg hookArgs 1
  if (entityType.and entityId).truthy then loadSummary hookArgs else Async.pure ()

end useMetricsSummary

namespace useMetricsByType

/-- The `useState` slots of `useMetricsByType`. -/
structure State where
  metrics : JsVal
  loading : Bool
  error : JsVal
  totalPages : JsVal

/-- The initial values given to `useState`. -/
def init : State := { metrics := .arr [], loading := false, error := .null, totalPages := .num 0 }

/-- The setter `setMetrics`. -/
def setMetrics (v : JsVal) : Async State Unit := Async.modify fun s => { s with metrics := v }

/-- The setter `setLoading`. -/
def setLoading (v : Bool) : Async State Unit := Async.modify fun s => { s with loading := v }

/-- The setter `setError`. -/
def setError (v : JsVal) : Async State Unit := Async.modify fun s => { s with error := v }

/-- The setter `setTotalPages`. -/
def setTotalPages (v : JsVal) : Async State Unit := Async.modify fun s => { s with totalPages := v }

/-- The function `loadMetrics` of `useMetricsByType(metricType, page = 0, size = 20)`. -/
def loadMetrics (hookArgs : List JsVal) : Async State Unit :=
  let metricType := arg hookArgs 0
  let page := argOr hookArgs 1 (.num 0)
  let size := argOr hookArgs 2 (.num 20)
  do
    try
      setLoading true
      setError .null
      let response ← analyticsService.getMetricsByType [metricType, page, size]
      setMetrics ((← Async.prop (← Async.prop response "data") "content").or (.arr []))
      setTotalPages ((← Async.prop (← Async.prop response "data") "totalPages").or (.num 0))
    catch err =>
      Async.consoleError "Failed to load metrics by type:" err
      setError ((← Async.prop err "message").or (.str "Failed to load metrics"))
    finally
      setLoading false

/-- The `useEffect` callback: `if (metricType) loadMetrics()`. -/
def effect (hookArgs : List JsVal) : Async State Unit :=
  let metricType := arg hookArgs 0
  if metricType.truthy then loadMetrics hookArgs else Async.pure ()

end useMetricsByType

/-! ## `src/hooks/analytics/useAdvancedAnalytics.js` -/

/-- The browser download sequence of the export functions (object URL, anchor
element, click, clean-up) for the given data and file name: it touches the
document only, not the modelled state. -/
def browserDownload {σ : Type} (_data : JsVal) (_fileName : Template) : Async σ Unit :=
  Async.pure ()

namespace useExportReport

/-- The `useState` slots of `useExportReport`. -/
structure State where
  loading : Bool
  error : JsVal

/-- The initial values given to `useState`. -/
def init : State := { loading := false, error := .null }

/-- The setter `setLoading`. -/
def setLoading (v : Bool) : Async State Unit := Async.modify fun s => { s with loading := v }

/-- The setter `setError`. -/
def setError (v : JsVal) : Async State Unit := Async.modify fun s => { s with error := v }

/-- The function `exportPDF(reportId)`. -/
def exportPDF (reportId : JsVal) : Async State JsVal := do
  try
    setLoading true
    setError .null
    let response ← analyticsService.exportReportPDF [reportId]
    browserDownload (← Async.prop response "data") [.lit "report-", .sub reportId, .lit ".pdf"]
    Async.pure (.bool true)
  catch err =>
    Async.consoleError "Failed to export PDF:" err
    setError ((← Async.prop err "message").or (.str "Failed to export PDF"))
    throw err
  finally
    setLoading false

/-- The function `exportExcel(reportId)`. -/
def exportExcel (reportId : JsVal) : Async State JsVal := do
  try
    setLoading true
    setError .null
    let response ← analyticsService.exportReportExcel [reportId]
    browserDownload (← Async.prop response "data") [.lit "report-", .sub reportId, .lit ".xlsx"]
    Async.pure (.bool true)
  catch err =>
    Async.consoleError "Failed to export Excel:" err
    setError ((← Async.prop err "message").or (.str "Failed to export Excel"))
    throw err
  finally
    setLoading false

/-- The function `exportCSV(reportId)`. -/
def exportCSV (reportId : JsVal) : Async State JsVal := do
  try
    setLoading true
    setError .null
    let response ← analyticsService.exportReportCSV [reportId]
    browserDownload (← Async.prop response "data") [.lit "report-", .sub reportId, .lit ".csv"]
    Async.pure (.bool true)
  catch err =>
    Async.consoleError "Failed to export CSV:" err
    setError ((← Async.prop err "message").or (.str "Failed to export CSV"))
    throw err
  finally
    setLoading false

end useExportReport


namespace useCompareReports

/-- The `useState` slots of `useCompareReports`. -/
structure State where
  comparison : JsVal
  loading : Bool
  error : JsVal

/-- The initial values given to `useState`. -/
def init : State := { comparison := .null, loading := false, error := .null }

/-- The setter `setComparison`. -/
def setComparison (v : JsVal) : Async State Unit := Async.modify fun s => { s with comparison := v }

/-- The setter `setLoading`. -/
def setLoading (v : Bool) : Async State Unit := Async.modify fun s => { s with loading := v }

/-- The setter `setError`. -/
def setError (v : JsVal) : Async State Unit := Async.modify fun s => { s with error := v }

/-- The function `compareReports(reportId1, reportId2)`. -/
def compareReports (reportId1 reportId2 : JsVal) : Async State JsVal := do
  try
    setLoading true
    setError .null
    let response ← analyticsService.compareReports [reportId1, reportId2]
    setComparison (← Async.prop response "data")
    Async.prop response "data"
  catch err =>
    Async.consoleError "Failed to compare reports:" err
    setError ((← Async.prop err "message").or (.str "Failed to compare reports"))
    throw err
  finally
    setLoading false

end useCompareReports

namespace useScheduleManagement

/-- The `useState` slots of `useScheduleManagement`. -/
structure State where
  schedules : JsVal
  loading : Bool
  error : JsVal

/-- The initial values given to `useState`. -/
def init : State := { schedules := .arr [], loading := false, error := .null }

/-- The setter `setSchedules`. -/
def setSchedules (v : JsVal) : Async State Unit := Async.modify fun s => { s with schedules := v }

/-- The setter `setLoading`. -/
def setLoading (v : Bool) : Async State Unit := Async.modify fun s => { s with loading := v }

/-- The setter `setError`. -/
def setError (v : JsVal) : Async State Unit := Async.modify fun s => { s with error := v }

/-- The function `loadSchedules()`. -/
def loadSchedules : Async State Unit := do
  try
    setLoading true
    setError .null
    let response ← analyticsService.getMySchedules []
    setSchedules ((← Async.prop response "data").or (.arr []))
  catch err =>
    Async.consoleError "Failed to load schedules:" err
    setError ((← Async.prop err "message").or (.str "Failed to load schedules"))
  finally
    setLoading false

/-- The function `createSchedule(scheduleData)`. -/
def createSchedule (scheduleData : JsVal) : Async State JsVal := do
  try
    setLoading true
    setError .null
    let response ← analyticsService.scheduleAnalysis [scheduleData]
    loadSchedules
    Async.prop response "data"
  catch err =>
    Async.consoleError "Failed to create schedule:" err
    setError ((← Async.prop err "message").or (.str "Failed to create schedule"))
    throw err
  finally
    setLoading false

/-- The function `updateSchedule(scheduleId, updateData)`. -/
def updateSchedule (scheduleId updateData : JsVal) : Async State JsVal := do
  try
    setLoading true
    setError .null
    let response ← analyticsService.updateSchedule [scheduleId, updateData]
    loadSchedules
    Async.prop response "data"
  catch err =>
    Async.consoleError "Failed to update schedule:" err
    setError ((← Async.prop err "message").or (.str "Failed to update schedule"))
    throw err
  finally
    setLoading false

/-- The function `toggleSchedule(scheduleId)`. -/
def toggleSchedule (scheduleId : JsVal) : Async State JsVal := do
  try
    setLoading true
    setError .null
    let response ← analyticsService.toggleSchedule [scheduleId]
    loadSchedules
    Async.prop response "data"
  catch err =>
    Async.consoleError "Failed to toggle schedule:" err
    setError ((← Async.prop err "message").or (.str "Failed to toggle schedule"))
    throw err
  finally
    setLoading false

/-- The function `deleteSchedule(scheduleId)`. -/
def deleteSchedule (scheduleId : JsVal) : Async State Unit := do
  try
    setLoading true
    setError .null
    let _ ← analyticsService.deleteSchedule [scheduleId]
    loadSchedules
  catch err =>
    Async.consoleError "Failed to delete schedule:" err
    setError ((← Async.prop err "message").or (.str "Failed to delete schedule"))
    throw err
  finally
    setLoading false

/-- The `useEffect` callback: `loadSchedules()`. -/
def effect : Async State Unit := loadSchedules

end useScheduleManagement

namespace useTrendingInsights

/-- The `useState` slots of `useTrendingInsights`. -/
structure State where
  insights : JsVal
  loading : Bool
  error : JsVal
  totalPages : JsVal

/-- The initial values given to `useState`. -/
def init : State := { insights := .arr [], loading := false, error := .null, totalPages := .num 0 }

/-- The setter `setInsights`. -/
def setInsights (v : JsVal) : Async State Unit := Async.modify fun s => { s with insights := v }

/-- The setter `setLoading`. -/
def setLoading (v : Bool) : Async State Unit := Async.modify fun s => { s with loading := v }

/-- The setter `setError`. -/
def setError (v : JsVal) : Async State Unit := Async.modify fun s => { s with error := v }

/-- The setter `setTotalPages`. -/
def setTotalPages (v : JsVal) : Async State Unit := Async.modify fun s => { s with totalPages := v }

/-- The function `loadTrending` of `useTrendingInsights(days = 7, page = 0, size = 10)`. -/
def loadTrending (hookArgs : List JsVal) : Async State Unit :=
  let days := argOr hookArgs 0 (.num 7)
  let page := argOr hookArgs 1 (.num 0)
  let size := argOr hookArgs 2 (.num 10)
  do
    try
      setLoading true
      setError .null
      let response ← analyticsService.getTrendingInsights [days, page, size]
      setInsights ((← Async.prop (← Async.prop response "data") "content").or (.arr []))
      setTotalPages ((← Async.prop (← Async.prop response "data") "totalPages").or (.num 0))
    catch err =>
      Async.consoleError "Failed to load trending insights:" err
      setError ((← Async.prop err "message").or (.str "Failed to load trending insights"))
    finally
      setLoading false

/-- The `useEffect` callback: `loadTrending()`. -/
def effect (hookArgs : List JsVal) : Async State Unit := loadTrending hookArgs

end useTrendingInsights

namespace usePerformanceBenchmarks

/-- The `useState` slots of `usePerformanceBenchmarks`. -/
structure State where
  benchmarks : JsVal
  loading : Bool
  error : JsVal

/-- The initial values given to `useState`. -/
def init : State := { benchmarks := .null, loading := false, error := .null }

/-- The setter `setBenchmarks`. -/
def setBenchmarks (v : JsVal) : Async State Unit := Async.modify fun s => { s with benchmarks := v }

/-- The setter `setLoading`. -/
def setLoading (v : Bool) : Async State Unit := Async.modify fun s => { s with loading := v }

/-- The setter `setError`. -/
def setError (v : JsVal) : Async State Unit := Async.modify fun s => { s with error := v }

/-- The function `loadBenchmarks` of `usePerformanceBenchmarks(metricType)`. -/
def loadBenchmarks (hookArgs : List JsVal) : Async State Unit :=
  let metricType := arg hookArgs 0
  do
    try
      setLoading true
      setError .null
      let response ← analyticsService.getPerformanceBenchmarks [metricType]
      setBenchmarks (← Async.prop response "data")
    catch err =>
      Async.consoleError "Failed to load benchmarks:" err
      setError ((← Async.prop err "message").or (.str "Failed to load benchmarks"))
    finally
      setLoading false

/-- The `useEffect` callback: `if (metricType) loadBenchmarks()`. -/
def effect (hookArgs : List JsVal) : Async State Unit :=
  let metricType := arg hookArgs 0
  if metricType.truthy then loadBenchmarks hookArgs else Async.pure ()

end usePerformanceBenchmarks


/-! ## Overlapping invocations

An `async` function runs synchronously up to its `await`, and the rest runs when
the awaited promise settles. Two invocations overlap when the second is called
while the promise of the first is pending; the order in which the two promises
settle is the order in which the two rests run. -/

/-- Call of an `async` wrapper without awaiting it: the request is issued and
logged at the call, and the value is the promise returned, given by the
completion it settles with. -/
def Async.call {σ : Type} (m : Async σ JsVal) : Async σ (Completion JsVal) := fun c s l =>
  ⟨.normal (m c s l).result, (m c s l).state, (m c s l).log⟩

/-- The expression `await promise` at the moment the promise has settled: its
value when fulfilled, a throw of its reason when rejected. -/
def Async.settled {σ : Type} (promise : Completion JsVal) : Async σ JsVal :=
  match promise with
  | .normal v => Async.pure v
  | .thrown e => Async.throw e

/-- An `async` function with one `await`, split at it: `start` is the part run
at the call, ending in the promise that is awaited, and `resume` is the rest,
run when that promise has settled. -/
structure AwaitSplit (σ α : Type) where
  start : Async σ (Completion JsVal)
  resume : Completion JsVal → Async σ α

namespace AwaitSplit

/-- An invocation alone: the rest runs on the state left by the start. -/
def run {σ α : Type} (f : AwaitSplit σ α) : Async σ α := Async.bind f.start f.resume

/-- The rest of an invocation, given the completion of its start: nothing is
left to run when the start itself threw. -/
def finish {σ α : Type} (f : AwaitSplit σ α) (started : Completion (Completion JsVal)) :
    Async σ α :=
  match started with
  | .normal promise => f.resume promise
  | .thrown e => Async.throw e

/-- Two overlapping invocations: `a` is called, then `b` is called while the
promise of `a` is pending, and the rests run in the order in which the promises
settle, the one of `a` last when `aSettlesLast`. The state and the log pass
through the four segments in their order in time; the result is the pair of the
completions of `a` and of `b`. -/
def overlap {σ α : Type} (a b : AwaitSplit σ α) (aSettlesLast : Bool) :
    Async σ (Completion α × Completion α) := fun c s l =>
  let startA := a.start c s l
  let startB := b.start c startA.state startA.log
  if aSettlesLast then
    let restB := b.finish startB.result c startB.state startB.log
    let restA := a.finish startA.result c restB.state restB.log
    ⟨.normal (restA.result, restB.result), restA.state, restA.log⟩
  else
    let restA := a.finish startA.result c startB.state startB.log
    let restB := b.finish startB.result c restA.state restA.log
    ⟨.normal (restA.result, restB.result), restB.state, restB.log⟩

end AwaitSplit

namespace useMetricsByEntity

/-- The function `loadMetrics` split at its `await`: the statements of the `try`
before it with the wrapper call, then the rest of the `try` with the `catch` and
the `finally`. -/
def loadMetricsSplit (hookArgs : List JsVal) : AwaitSplit State Unit where
  start :=
    let entityType := arg hookArgs 0
    let entityId := arg hookArgs 1
    let metricType := arg hookArgs 2
    let page := argOr hookArgs 3 (.num 0)
    let size := argOr hookArgs 4 (.num 20)
    do
      setLoading true
      setError .null
      Async.call (analyticsService.getMetricsByEntity
        [entityType, entityId, metricType, page, size])
  resume := fun promise => do
    try
      let response ← Async.settled promise
      setMetrics ((← Async.prop (← Async.prop response "data") "content").or (.arr []))
      setTotalPages ((← Async.prop (← Async.prop response "data") "totalPages").or (.num 0))
    catch err =>
      Async.consoleError "Failed to load metrics:" err
      setError ((← Async.prop err "message").or (.str "Failed to load metrics"))
    finally
      setLoading false

end useMetricsByEntity

namespace useMetricsByPeriod

/-- The function `loadMetrics` split at its `await`: the statements of the `try`
before it with the wrapper call, then the rest of the `try` with the `catch` and
the `finally`. -/
def loadMetricsSplit (hookArgs : List JsVal) : AwaitSplit State Unit where
  start :=
    let startDate := arg hookArgs 0
    let endDate := arg hookArgs 1
    let metricType := arg hookArgs 2
    let aggregationPeriod := arg hookArgs 3
    let page := argOr hookArgs 4 (.num 0)
    let size := argOr hookArgs 5 (.num 50)
    do
      setLoading true
      setError .null
      Async.call (analyticsService.getMetricsByPeriod
        [startDate, endDate, metricType, aggregationPeriod, page, size])
  resume := fun promise => do
    try
      let response ← Async.settled promise
      setMetrics ((← Async.prop (← Async.prop response "data") "content").or (.arr []))
      setTotalPages ((← Async.prop (← Async.prop response "data") "totalPages").or (.num 0))
    catch err =>
      Async.consoleError "Failed to load metrics by period:" err
      setError ((← Async.prop err "message").or (.str "Failed to load metrics"))
    finally
      setLoading false

end useMetricsByPeriod

namespace useMetricsByType

/-- The function `loadMetrics` split at its `await`: the statements of the `try`
before it with the wrapper call, then the rest of the `try` with the `catch` and
the `finally`. -/
def loadMetricsSplit (hookArgs : List JsVal) : AwaitSplit State Unit where
  start :=
    let metricType := arg hookArgs 0
    let page := argOr hookArgs 1 (.num 0)
    let size := argOr hookArgs 2 (.num 20)
    do
      setLoading true
      setError .null
      Async.call (analyticsService.getMetricsByType [metricType, page, size])
  resume := fun promise => do
    try
      let response ← Async.settled promise
      setMetrics ((← Async.prop (← Async.prop response "data") "content").or (.arr []))
      setTotalPages ((← Async.prop (← Async.prop response "data") "totalPages").or (.num 0))
    catch err =>
      Async.consoleError "Failed to load metrics by type:" err
      setError ((← Async.prop err "message").or (.str "Failed to load metrics"))
    finally
      setLoading false

end useMetricsByType

namespace useTrendingInsights

/-- The function `loadTrending` split at its `await`: the statements of the `try`
before it with the wrapper call, then the rest of the `try` with the `catch` and
the `finally`. -/
def loadTrendingSplit (hookArgs : List JsVal) : AwaitSplit State Unit where
  start :=
    let days := argOr hookArgs 0 (.num 7)
    let page := argOr hookArgs 1 (.num 0)
    let size := argOr hookArgs 2 (.num 10)
    do
      setLoading true
      setError .null
      Async.call (analyticsService.getTrendingInsights [days, page, size])
  resume := fun promise => do
    try
      let response ← Async.settled promise
      setInsights ((← Async.prop (← Async.prop response "data") "content").or (.arr []))
      setTotalPages ((← Async.prop (← Async.prop response "data") "totalPages").or (.num 0))
    catch err =>
      Async.consoleError "Failed to load trending insights:" err
      setError ((← Async.prop err "message").or (.str "Failed to load trending insights"))
    finally
      setLoading false

end useTrendingInsights

namespace useAverageMetric

/-- The function `loadAverage` split at its `await`: the statements of the `try`
before it with the wrapper call, then the rest of the `try` with the `catch` and
the `finally`. -/
def loadAverageSplit (hookArgs : List JsVal) : AwaitSplit State Unit where
  start :=
    let entityType := arg hookArgs 0
    let entityId := arg hookArgs 1
    let metricType := arg hookArgs 2
    let startDate := arg hookArgs 3
    let endDate := arg hookArgs 4
    do
      setLoading true
      setError .null
      Async.call (analyticsService.getAverageMetric
        [entityType, entityId, metricType, startDate, endDate])
  resume := fun promise => do
    try
      let response ← Async.settled promise
      setAverage (← Async.prop response "data")
    catch err =>
      Async.consoleError "Failed to load average metric:" err
      setError ((← Async.prop err "message").or (.str "Failed to load average"))
    finally
      setLoading false

end useAverageMetric

namespace useMetricsSummary

/-- The function `loadSummary` split at its `await`: the statements of the `try`
before it with the wrapper call, then the rest of the `try` with the `catch` and
the `finally`. -/
def loadSummarySplit (hookArgs : List JsVal) : AwaitSplit State Unit where
  start :=
    let entityType := arg hookArgs 0
    let entityId := arg hookArgs 1
    do
      setLoading true
      setError .null
      Async.call (analyticsService.getMetricsSummary [entityType, entityId])
  resume := fun promise => do
    try
      let response ← Async.settled promise
      setSummary (← Async.prop response "data")
    catch err =>
      Async.consoleError "Failed to load metrics summary:" err
      setError ((← Async.prop err "message").or (.str "Failed to load summary"))
    finally
      setLoading false

end useMetricsSummary

namespace usePerformanceBenchmarks

/-- The function `loadBenchmarks` split at its `await`: the statements of the `try`
before it with the wrapper call, then the rest of the `try` with the `catch` and
the `finally`. -/
def loadBenchmarksSplit (hookArgs : List JsVal) : AwaitSplit State Unit where
  start :=
    let metricType := arg hookArgs 0
    do
      setLoading true
      setError .null
      Async.call (analyticsService.getPerformanceBenchmarks [metricType])
  resume := fun promise => do
    try
      let response ← Async.settled promise
      setBenchmarks (← Async.prop response "data")
    catch err =>
      Async.consoleError "Failed to load benchmarks:" err
      setError ((← Async.prop err "message").or (.str "Failed to load benchmarks"))
    finally
      setLoading false

end usePerformanceBenchmarks

namespace useScheduleManagement

/-- The function `loadSchedules` split at its `await`: the statements of the `try`
before it with the wrapper call, then the rest of the `try` with the `catch` and
the `finally`. -/
def loadSchedulesSplit : AwaitSplit State Unit where
  start :=
    do
      setLoading true
      setError .null
      Async.call (analyticsService.getMySchedules [])
  resume := fun promise => do
    try
      let response ← Async.settled promise
      setSchedules ((← Async.prop response "data").or (.arr []))
    catch err =>
      Async.consoleError "Failed to load schedules:" err
      setError ((← Async.prop err "message").or (.str "Failed to load schedules"))
    finally
      setLoading false

end useScheduleManagement


/-! ## JavaScript built-ins used by the view layer -/

/-- Value of a character as a digit of the given radix (`0`-`9`, `a`-`z`,
`A`-`Z`), if it is one. -/
def digitValue (radix : Nat) (c : Char) : Option Nat :=
  let n := c.toNat
  let v : Option Nat :=
    if 48 ≤ n ∧ n ≤ 57 then some (n - 48)
    else if 97 ≤ n ∧ n ≤ 122 then some (n - 87)
    else if 65 ≤ n ∧ n ≤ 90 then some (n - 55)
    else none
  match v with
  | some d => if d < radix then some d else none
  | none => none

/-- The longest leading run of digits of the given radix, read as a number;
`acc` is the value read so far, `none` before the first digit. -/
def parseDigits (radix : Nat) : List Char → Option Nat → Option Nat
  | [], acc => acc
  | c :: cs, acc =>
    match digitValue radix c with
    | some d => parseDigits radix cs (some (acc.getD 0 * radix + d))
    | none => acc

/-- White space and line terminators, which `parseInt` skips at the start. -/
def isWhiteSpace (c : Char) : Bool :=
  let n := c.toNat
  n = 9 || n = 10 || n = 11 || n = 12 || n = 13 || n = 32 || n = 160 || n = 5760 ||
    (8192 ≤ n && n ≤ 8202) || n = 8232 || n = 8233 || n = 8239 || n = 8287 || n = 12288 ||
    n = 65279

/-- The sign of the input of `parseInt`: a leading `-` (code 45) or `+` (code
43) is taken off. -/
def stripSign : List Char → Bool × List Char
  | [] => (false, [])
  | c :: cs => if c.toNat = 45 then (true, cs) else if c.toNat = 43 then (false, cs) else (false, c :: cs)

/-- The radix of the input of `parseInt` without a radix argument: 16 after a
leading `0x` or `0X` (which is taken off), 10 otherwise. -/
def stripRadix : List Char → Nat × List Char
  | c :: d :: cs =>
    if c.toNat = 48 ∧ (d.toNat = 120 ∨ d.toNat = 88) then (16, cs) else (10, c :: d :: cs)
  | cs => (10, cs)

/-- Number of binary digits of `n`, by halving; `fuel` bounds the number of
halvings. -/
def bitLengthAux : Nat → Nat → Nat
  | 0, _ => 0
  | fuel + 1, n => if n = 0 then 0 else bitLengthAux fuel (n / 2) + 1

/-- Number of binary digits of `n`: 0 for 0, and 54 for `2 ^ 53`. -/
def bitLength (n : Nat) : Nat := bitLengthAux n n

/-- The Number value of a natural number: JavaScript numbers are IEEE 754
doubles with a significand of 53 binary digits, so a natural number below
`2 ^ 53` is its own value, and a larger one is rounded to the nearest multiple
of `2 ^ e` that keeps 53 digits, a tie going to the even significand; `none`
stands for `Infinity`, the result when the rounded value reaches `2 ^ 1024`,
that is when it has more than 1024 binary digits. -/
def nearestDouble (n : Nat) : Option Nat :=
  if n < 2 ^ 53 then some n
  else
    let e := bitLength n - 53
    let q := n / 2 ^ e
    let r := n % 2 ^ e
    let half := 2 ^ (e - 1)
    let m := (if half < r ∨ (r = half ∧ q % 2 = 1) then q + 1 else q) * 2 ^ e
    if bitLength m ≤ 1024 then some m else none

/-- JavaScript `parseInt(s)` on a string: leading white space is skipped, a
sign and a hexadecimal marker are read, then the longest run of digits; the
result is `NaN` when there is no digit, and otherwise the Number value of the
integer read, with its sign: the nearest double, as the engines compute it (the
standard also allows an implementation to read the decimal digits after the
20th as zeros). -/
def parseInt (s : String) : JsVal :=
  let signed := stripSign (s.data.dropWhile isWhiteSpace)
  let based := stripRadix signed.2
  match parseDigits based.1 based.2 none with
  | none => .nan
  | some n =>
    match nearestDouble n with
    | some m => .num (if signed.1 then -(m : Int) else (m : Int))
    | none => .infinity signed.1

/-- Optional chaining `v?.k`: `undefined` on `null` and `undefined`, the
property otherwise. -/
def JsVal.optField (v : JsVal) (k : String) : JsVal :=
  if v.isNullish then .undefined else v.field k

/-- Strict equality `a === b` of primitive values (`NaN` equals nothing);
arrays and objects compare by identity, which values do not carry, and are
taken as different. -/
def JsVal.strictEq : JsVal → JsVal → Bool
  | .undefined, .undefined => true
  | .null, .null => true
  | .bool a, .bool b => a == b
  | .num a, .num b => a == b
  | .infinity a, .infinity b => a == b
  | .str a, .str b => a == b
  | _, _ => false

/-- A built-in function object, known by its name. -/
def builtinFunction (name : String) : JsVal := .obj [("name", .str name)]

/-- The properties every object literal inherits from `Object.prototype`. -/
def objectPrototype : List (String × JsVal) :=
  [("constructor", builtinFunction "Object"),
   ("hasOwnProperty", builtinFunction "hasOwnProperty"),
   ("isPrototypeOf", builtinFunction "isPrototypeOf"),
   ("propertyIsEnumerable", builtinFunction "propertyIsEnumerable"),
   ("toLocaleString", builtinFunction "toLocaleString"),
   ("toString", builtinFunction "toString"),
   ("valueOf", builtinFunction "valueOf"),
   ("__defineGetter__", builtinFunction "__defineGetter__"),
   ("__defineSetter__", builtinFunction "__defineSetter__"),
   ("__lookupGetter__", builtinFunction "__lookupGetter__"),
   ("__lookupSetter__", builtinFunction "__lookupSetter__"),
   ("__proto__", .obj [])]

/-- Property read `literal[k]` on an object literal with the given own fields:
the own property when there is one, else the property inherited from
`Object.prototype`, else `undefined`. -/
def literalGet (fields : List (String × JsVal)) (k : String) : JsVal :=
  match fields.lookup k with
  | some v => v
  | none => JsVal.lookup k objectPrototype

/-- Object spread with one override, `{ ...fields, k: v }`: the property `k`
takes the value `v` in place, and is added at the end when it is new. -/
def setField (k : String) (v : JsVal) : List (String × JsVal) → List (String × JsVal)
  | [] => [(k, v)]
  | (k2, w) :: rest => if k2 = k then (k2, v) :: rest else (k2, w) :: setField k v rest

/-- The `ReferenceError` raised by evaluating an identifier that nothing binds. -/
def referenceError (name : String) : JsVal :=
  .obj [("name", .str "ReferenceError"), ("message", .str (name ++ " is not defined"))]

/-- A rendered `<span>`: its class name and its text. -/
structure Span where
  className : Template
  children : JsVal

/-! ## The execution model of the event handlers

The components call functions that come from hooks outside the sources
(`useReports`, `useReportManagement`, `useCreateReport`, `usePredictions`,
`useActiveInsights`, `useInsightManagement`) and browser dialogs. These are
parameters: the `k`-th call made settles as `env k call`. -/

/-- One call of a collaborator of a component. -/
inductive Call where
  | create (payload : JsVal)
  | refetch
  | deleteReportById (reportId : JsVal)
  | deactivate (insightId : JsVal)
  | confirm (message : Template)
  | alert (message : Template)

/-- The collaborators, a parameter of the model: the `k`-th call made settles as
`env k call`. -/
abbrev Collaborators := Nat → Call → Completion JsVal

/-- Result of running a handler: its completion, the final component state and
the log of calls made, each with the component state at the moment of the call. -/
structure HandlerRun (σ α : Type) where
  result : Completion α
  state : σ
  log : List (Call × σ)

/-- An event handler over component state `σ`. -/
def Handler (σ α : Type) := Collaborators → σ → List (Call × σ) → HandlerRun σ α

namespace Handler

/-- Returning a value. -/
def pure {σ α : Type} (a : α) : Handler σ α := fun _ s l => ⟨.normal a, s, l⟩

/-- Sequencing; a throw skips the rest. -/
def bind {σ α β : Type} (m : Handler σ α) (f : α → Handler σ β) : Handler σ β := fun env s l =>
  match m env s l with
  | ⟨.normal a, s1, l1⟩ => f a env s1 l1
  | ⟨.thrown e, s1, l1⟩ => ⟨.thrown e, s1, l1⟩

/-- JavaScript `throw e`. -/
def throw {σ α : Type} (e : JsVal) : Handler σ α := fun _ s l => ⟨.thrown e, s, l⟩

/-- JavaScript `try { body } catch (e) { handler e }`. -/
def tryCatch {σ α : Type} (body : Handler σ α) (handler : JsVal → Handler σ α) : Handler σ α :=
  fun env s l =>
    match body env s l with
    | ⟨.normal a, s1, l1⟩ => ⟨.normal a, s1, l1⟩
    | ⟨.thrown e, s1, l1⟩ => handler e env s1 l1

/-- JavaScript `try { body } finally { fin }`: `fin` runs on both exits and the
completion of `body` is kept unless `fin` itself throws. -/
def tryFinally {σ α β : Type} (body : Handler σ α) (fin : Option α → Handler σ β) :
    Handler σ (α × β) := fun env s l =>
  match body env s l with
  | ⟨.normal a, s1, l1⟩ =>
    match fin (some a) env s1 l1 with
    | ⟨.normal b, s2, l2⟩ => ⟨.normal (a, b), s2, l2⟩
    | ⟨.thrown e, s2, l2⟩ => ⟨.thrown e, s2, l2⟩
  | ⟨.thrown e, s1, l1⟩ =>
    match fin none env s1 l1 with
    | ⟨.normal _, s2, l2⟩ => ⟨.thrown e, s2, l2⟩
    | ⟨.thrown e2, s2, l2⟩ => ⟨.thrown e2, s2, l2⟩

instance instMonad {σ : Type} : Monad (Handler σ) where
  pure := Handler.pure
  bind := Handler.bind

instance instMonadExcept {σ : Type} : MonadExcept JsVal (Handler σ) where
  throw := Handler.throw
  tryCatch := Handler.tryCatch

instance instMonadFinally {σ : Type} : MonadFinally (Handler σ) where
  tryFinally' := Handler.tryFinally

/-- State setter call: `setX(v)` as an update of the component state. -/
def modify {σ : Type} (f : σ → σ) : Handler σ Unit := fun _ s l => ⟨.normal (), f s, l⟩

/-- Reading a state variable of the current render. -/
def read {σ α : Type} (f : σ → α) : Handler σ α := fun _ s l => ⟨.normal (f s), s, l⟩

/-- An awaited (or synchronous) call of a collaborator: the call is logged with
the current state and the completion is the collaborator's. -/
def await {σ : Type} (call : Call) : Handler σ JsVal := fun env s l =>
  ⟨env l.length call, s, l ++ [(call, s)]⟩

/-- A call whose result is dropped (`refetch()` without `await`, `alert(...)`):
the call is logged and the handler goes on, whatever becomes of the call. -/
def fire {σ : Type} (call : Call) : Handler σ Unit := fun _ s l =>
  ⟨.normal (), s, l ++ [(call, s)]⟩

/-- Property read `v.k` inside a handler: throws a `TypeError` on `null` and
`undefined`, otherwise yields `JsVal.field v k`. -/
def prop {σ : Type} (v : JsVal) (k : String) : Handler σ JsVal :=
  match v with
  | .undefined => throw Async.typeError
  | .null => throw Async.typeError
  | w => pure (w.field k)

/-- Evaluating an identifier that no declaration, import or global binds:
throws a `ReferenceError`. -/
def unbound {σ : Type} (name : String) : Handler σ JsVal := throw (referenceError name)

/-- Calling a value that is not a function: throws a `TypeError`. No value of
`JsVal` is a callable function of the component. -/
def callValue {σ : Type} (_callee : JsVal) (_args : List JsVal) : Handler σ JsVal :=
  throw Async.typeError

/-- JavaScript `console.error(label, err)`: no effect on the modelled state. -/
def consoleError {σ : Type} (_label : String) (_err : JsVal) : Handler σ Unit := pure ()

end Handler

/-! ## `src/components/analytics/ReportsList.jsx` -/

namespace ReportsList

/-- The form object `formData`; its text fields hold the values of the form
controls, which are strings. -/
structure FormData where
  reportType : String
  datasetId : String
  title : String
  description : String
  parameters : JsVal

/-- The own properties of the form object, in order. -/
def FormData.fields (f : FormData) : List (String × JsVal) :=
  [("reportType", .str f.reportType), ("datasetId", .str f.datasetId), ("title", .str f.title),
   ("description", .str f.description), ("parameters", f.parameters)]

/-- The `useState` slots of `ReportsList`. -/
structure State where
  showCreateForm : Bool
  selectedReportId : JsVal
  formData : FormData

/-- The initial values given to `useState`. -/
def init : State :=
  { showCreateForm := false
    selectedReportId := .null
    formData :=
      { reportType := "BATTERY_HEALTH", datasetId := "", title := "", description := "",
        parameters := .obj [] } }

/-- The setter `setShowCreateForm`. -/
def setShowCreateForm (v : Bool) : Handler State Unit :=
  Handler.modify fun s => { s with showCreateForm := v }

/-- The setter `setSelectedReportId`. -/
def setSelectedReportId (v : JsVal) : Handler State Unit :=
  Handler.modify fun s => { s with selectedReportId := v }

/-- The setter `setFormData`. -/
def setFormData (v : FormData) : Handler State Unit :=
  Handler.modify fun s => { s with formData := v }

/-- The handler `handleSubmit(e)`; `e.preventDefault()` touches the event only. -/
def handleSubmit : Handler State Unit := do
  let formData ← Handler.read fun s => s.formData
  try
    let _ ← Handler.await
      (.create (.obj (setField "datasetId" (parseInt formData.datasetId) formData.fields)))
    setFormData
      { reportType := "BATTERY_HEALTH", datasetId := "", title := "", description := "",
        parameters := .obj [] }
    setShowCreateForm false
    Handler.fire .refetch
  catch err =>
    Handler.consoleError "Failed to create report:" err

/-- The handler `handleDelete(reportId)`. -/
def handleDelete (reportId : JsVal) : Handler State Unit := do
  if (← Handler.await (.confirm [.lit "Are you sure you want to delete this report?"])).truthy then
    try
      let _ ← Handler.await (.deleteReportById reportId)
      Handler.fire .refetch
    catch err =>
      Handler.consoleError "Failed to delete report:" err

/-- The handler `handleViewDetail(reportId)`. -/
def handleViewDetail (reportId : JsVal) : Handler State Unit := setSelectedReportId reportId

/-- The handler `handleCloseDetail()`. -/
def handleCloseDetail : Handler State Unit := setSelectedReportId .null

/-- The object literal `statusStyles`. -/
def statusStyles : List (String × JsVal) :=
  [("PENDING", .str "bg-yellow-100 text-yellow-800"),
   ("PROCESSING", .str "bg-blue-100 text-blue-800"),
   ("COMPLETED", .str "bg-green-100 text-green-800"),
   ("FAILED", .str "bg-red-100 text-red-800")]

/-- The function `getStatusBadge(status)` on a status string. -/
def getStatusBadge (status : String) : Span :=
  { className :=
      [.lit "px-2 py-1 rounded-full text-xs font-semibold ",
       .sub ((literalGet statusStyles status).or (.str "bg-gray-100 text-gray-800"))]
    children := .str status }

end ReportsList

/-! ## `src/components/analytics/PredictionsList.jsx` -/

namespace PredictionsList

/-- The form object `formData`; its text fields hold the values of the form
controls, which are strings. -/
structure FormData where
  predictionType : String
  datasetId : String
  inputData : JsVal
  modelVersion : String

/-- The own properties of the form object, in order. -/
def FormData.fields (f : FormData) : List (String × JsVal) :=
  [("predictionType", .str f.predictionType), ("datasetId", .str f.datasetId),
   ("inputData", f.inputData), ("modelVersion", .str f.modelVersion)]

/-- The `useState` slots of `PredictionsList`. -/
structure State where
  selectedPredictionId : JsVal
  showCreateForm : Bool
  formData : FormData

/-- The initial values given to `useState`. -/
def init : State :=
  { selectedPredictionId := .null
    showCreateForm := false
    formData :=
      { predictionType := "BATTERY_DEGRADATION", datasetId := "", inputData := .obj [],
        modelVersion := "v1.0" } }

/-- The setter `setSelectedPredictionId`. -/
def setSelectedPredictionId (v : JsVal) : Handler State Unit :=
  Handler.modify fun s => { s with selectedPredictionId := v }

/-- The setter `setShowCreateForm`. -/
def setShowCreateForm (v : Bool) : Handler State Unit :=
  Handler.modify fun s => { s with showCreateForm := v }

/-- The setter `setFormData`. -/
def setFormData (v : FormData) : Handler State Unit :=
  Handler.modify fun s => { s with formData := v }

/-- The handler `handleSubmit(e)`; `e.preventDefault()` touches the event only.
The component binds `predictions`, `refetch` and `prediction` from its two hooks
and nothing called `create`: the callee of `create(...)` is an unbound
identifier. -/
def handleSubmit : Handler State Unit := do
  let formData ← Handler.read fun s => s.formData
  try
    let create ← Handler.unbound "create"
    let _ ← Handler.callValue create
      [.obj (setField "datasetId" (parseInt formData.datasetId) formData.fields)]
    setFormData
      { predictionType := "BATTERY_DEGRADATION", datasetId := "", inputData := .obj [],
        modelVersion := "v1.0" }
    setShowCreateForm false
    Handler.fire .refetch
    Handler.fire (.alert [.lit "Prediction created successfully!"])
  catch err =>
    Handler.consoleError "Failed to create prediction:" err
    Handler.fire (.alert [.lit "Failed to create prediction: ",
      .sub ((((← Handler.prop err "response").optField "data").optField "message").or
        (← Handler.prop err "message"))])

/-- The handler `viewDetails(predictionId)`. -/
def viewDetails (predictionId : JsVal) : Handler State Unit := setSelectedPredictionId predictionId

/-- The handler `closeDetails()`. -/
def closeDetails : Handler State Unit := setSelectedPredictionId .null

/-- The object literal `statusStyles`. -/
def statusStyles : List (String × JsVal) :=
  [("PENDING", .str "bg-yellow-100 text-yellow-800"),
   ("PROCESSING", .str "bg-blue-100 text-blue-800"),
   ("COMPLETED", .str "bg-green-100 text-green-800"),
   ("FAILED", .str "bg-red-100 text-red-800")]

/-- The function `getStatusBadge(status)` on a status string. -/
def getStatusBadge (status : String) : Span :=
  { className :=
      [.lit "px-2 py-1 rounded-full text-xs font-semibold ",
       .sub ((literalGet statusStyles status).or (.str "bg-gray-100 text-gray-800"))]
    children := .str status }

/-- The function `getConfidenceBadge(confidence)` on a number, taken as an exact
rational; the literals `0.8` and `0.6` are the rationals 4/5 and 3/5. -/
def getConfidenceBadge (confidence : ℚ) : Span :=
  if confidence ≥ 0.8 then
    { className := [.lit "px-2 py-1 bg-green-100 text-green-800 text-xs rounded-full"]
      children := .str "High" }
  else if confidence ≥ 0.6 then
    { className := [.lit "px-2 py-1 bg-yellow-100 text-yellow-800 text-xs rounded-full"]
      children := .str "Medium" }
  else
    { className := [.lit "px-2 py-1 bg-red-100 text-red-800 text-xs rounded-full"]
      children := .str "Low" }

end PredictionsList

/-! ## `src/pages/provider/ProviderAnalyticsPage.jsx` -/

namespace ProviderAnalyticsPage

/-- The constant `MOCK_INSIGHTS`. Its time stamps are computed from the clock
when the module loads: `isoFromNow d` stands for
`new Date(Date.now() + d).toISOString()`. -/
def MOCK_INSIGHTS (isoFromNow : Int → JsVal) : List JsVal :=
  [ .obj [("id", .num 101),
      ("title", .str "Dataset Download Spike"),
      ("description", .str "Your dataset #5 experienced 300% increase in downloads this week. Consider updating pricing or adding premium features."),
      ("insightType", .str "TREND"),
      ("severity", .str "HIGH"),
      ("datasetId", .num 5),
      ("generatedAt", isoFromNow (-(1 * 24 * 60 * 60 * 1000))),
      ("validUntil", isoFromNow (14 * 24 * 60 * 60 * 1000))],
    .obj [("id", .num 102),
      ("title", .str "Data Quality Improvement Needed"),
      ("description", .str "Dataset #3 received low quality ratings (avg 2.3/5). Review data completeness and accuracy."),
      ("insightType", .str "ALERT"),
      ("severity", .str "MEDIUM"),
      ("datasetId", .num 3),
      ("generatedAt", isoFromNow (-(2 * 24 * 60 * 60 * 1000))),
      ("validUntil", isoFromNow (7 * 24 * 60 * 60 * 1000))],
    .obj [("id", .num 103),
      ("title", .str "Revenue Milestone Reached"),
      ("description", .str "Congratulations! Your datasets generated $5,000 in revenue this month, achieving 125% of target."),
      ("insightType", .str "SUCCESS"),
      ("severity", .str "LOW"),
      ("datasetId", .null),
      ("generatedAt", isoFromNow (-(12 * 60 * 60 * 1000))),
      ("validUntil", .null)],
    .obj [("id", .num 104),
      ("title", .str "Recommended Dataset Update"),
      ("description", .str "Dataset #7 has not been updated in 90 days. Fresh data could increase consumer interest by 40%."),
      ("insightType", .str "RECOMMENDATION"),
      ("severity", .str "MEDIUM"),
      ("datasetId", .num 7),
      ("generatedAt", isoFromNow (-(5 * 24 * 60 * 60 * 1000))),
      ("validUntil", isoFromNow (30 * 24 * 60 * 60 * 1000))] ]

/-- What `useActiveInsights()` hands to the page (the hook is not among the
sources): `insights` is an array or absent (`none` for `null` and
`undefined`), `isLoading` a flag, `error` the error or `null`. -/
structure InsightsHook where
  insights : Option (List JsVal)
  isLoading : Bool
  error : JsVal

/-- The `useState` slots of `ProviderAnalyticsPage`; the counters are exact
natural numbers. -/
structure State where
  refreshReports : Nat
  refreshPredictions : Nat
  deactivatingId : JsVal

/-- The initial values given to `useState`. -/
def init : State := { refreshReports := 0, refreshPredictions := 0, deactivatingId := .null }

/-- The setter `setDeactivatingId`. -/
def setDeactivatingId (v : JsVal) : Handler State Unit :=
  Handler.modify fun s => { s with deactivatingId := v }

/-- The render value
`insights = (apiInsights && apiInsights.length > 0) ? apiInsights : MOCK_INSIGHTS`. -/
def insights (isoFromNow : Int → JsVal) (hook : InsightsHook) : List JsVal :=
  match hook.insights with
  | some apiInsights => if apiInsights.length > 0 then apiInsights else MOCK_INSIGHTS isoFromNow
  | none => MOCK_INSIGHTS isoFromNow

/-- The render value `isMockData = !apiInsights || apiInsights.length === 0`. -/
def isMockData (hook : InsightsHook) : Bool :=
  match hook.insights with
  | some apiInsights => apiInsights.length == 0
  | none => true

/-- The handler `handleDeactivate(insightId)` of a render with the hook values
`hook`; the two early returns are the first two branches. -/
def handleDeactivate (hook : InsightsHook) (insightId : JsVal) : Handler State Unit := do
  if isMockData hook then
    Handler.fire (.alert [.lit "Cannot deactivate mock insights. This is demo data only."])
  else if !(← Handler.await
      (.confirm [.lit "Are you sure you want to deactivate this insight?"])).truthy then
    Handler.pure ()
  else
    setDeactivatingId insightId
    try
      let _ ← Handler.await (.deactivate insightId)
      Handler.fire (.alert [.lit "Insight deactivated successfully"])
      Handler.fire .refetch
    catch err =>
      Handler.fire (.alert [.lit "Failed to deactivate insight: ",
        .sub ((((← Handler.prop err "response").optField "data").optField "message").or
          (← Handler.prop err "message"))])
    finally
      setDeactivatingId .null

/-- The error banner ("API Error: ... Showing mock data for demonstration") is
rendered: `isLoading ? spinner : error ? banner : null`. -/
def showsErrorBanner (hook : InsightsHook) : Bool := !hook.isLoading && hook.error.truthy

/-- The insights rendered as rows:
`(!isLoading && insights && insights.length > 0) ? insights.map(row) : "No active insights available"`. -/
def renderedInsights (isoFromNow : Int → JsVal) (hook : InsightsHook) : List JsVal :=
  if !hook.isLoading && (insights isoFromNow hook).length > 0 then insights isoFromNow hook else []

/-- The `disabled` attribute of the Deactivate button of a row:
`deactivatingId === insight.id || isMockData`. -/
def deactivateDisabled (hook : InsightsHook) (s : State) (insight : JsVal) : Bool :=
  s.deactivatingId.strictEq (insight.field "id") || isMockData hook

/-- The callback `onSuccess` given to `CreateReportForm`:
`setRefreshReports(prev => prev + 1)`. -/
def onReportSuccess : Handler State Unit :=
  Handler.modify fun s => { s with refreshReports := s.refreshReports + 1 }

/-- The callback `onSuccess` given to `CreatePredictionForm`:
`setRefreshPredictions(prev => prev + 1)`. -/
def onPredictionSuccess : Handler State Unit :=
  Handler.modify fun s => { s with refreshPredictions := s.refreshPredictions + 1 }

/-- The `key` of `<ReportsList key={refreshReports} />`. -/
def reportsListKey (s : State) : Nat := s.refreshReports

/-- The `key` of `<PredictionsList key={refreshPredictions} />`. -/
def predictionsListKey (s : State) : Nat := s.refreshPredictions

end ProviderAnalyticsPage

/-! ## Rendered cells of the lists -/

namespace ProviderAnalyticsPage

/-- The severity badge of a row `insight`: the class name is chosen by
`insight.severity === 'HIGH' ? red : insight.severity === 'MEDIUM' ? yellow : green`
and the text is `insight.severity`. -/
def severityBadge (insight : JsVal) : Span :=
  { className :=
      [.lit "px-2 py-1 rounded-full text-xs font-semibold ",
       .sub (if (insight.field "severity").strictEq (.str "HIGH") then .str "bg-red-100 text-red-800"
         else if (insight.field "severity").strictEq (.str "MEDIUM") then
           .str "bg-yellow-100 text-yellow-800"
         else .str "bg-green-100 text-green-800")]
    children := insight.field "severity" }

end ProviderAnalyticsPage

namespace PredictionsList

/-- What a confidence cell shows: the badge, the badge followed by the
percentage `(confidence * 100).toFixed(1)` (kept as the exact number
`confidence * 100`), or a plain text. -/
inductive ConfidenceView where
  | badge (span : Span)
  | badgeWithPercent (span : Span) (percent : ℚ)
  | text (s : String)

/-- Truthiness of a number: every number but 0 (and `NaN`, which is no
rational) is truthy. -/
def numberTruthy (x : ℚ) : Bool := x != 0

/-- The confidence cell of a row of the list,
`prediction.confidence ? getConfidenceBadge(prediction.confidence) : '-'`; the
confidence is a number, or absent (`none` for `null` and `undefined`). -/
def confidenceCell (confidence : Option ℚ) : ConfidenceView :=
  match confidence with
  | some c => if numberTruthy c then .badge (getConfidenceBadge c) else .text "-"
  | none => .text "-"

/-- The confidence entry of the detail modal,
`selectedPrediction.confidence ? <>{badge}<span>({percent}%)</span></> : 'N/A'`. -/
def confidenceDetail (confidence : Option ℚ) : ConfidenceView :=
  match confidence with
  | some c => if numberTruthy c then .badgeWithPercent (getConfidenceBadge c) (c * 100) else .text "N/A"
  | none => .text "N/A"

end PredictionsList

/-! ## Definitions that follow the specification -/

/-- The operation classes of the verb rule of the specification. -/
inductive OpKind where
  | read
  | action
  | fullUpdate
  | toggle
  | removal

/-- The verb of each class: GET for reads, POST for creation and actions, PUT
for full update, PATCH for toggle, DELETE for removal. -/
def OpKind.verb : OpKind → Method
  | .read => .get
  | .action => .post
  | .fullUpdate => .put
  | .toggle => .patch
  | .removal => .delete

/-- The class of each wrapper by the semantics of its operation: `get*` and
`export*` read; `create*`, `record*`, `compareReports`, `scheduleAnalysis`,
`assessDataQuality`, `generateInsightsFromReport`, `activateInsight` and
`deactivateInsight` create or act; `updateDashboard` and `updateSchedule` are
full updates; `toggleSchedule` is the toggle; `delete*` remove. -/
def Endpoint.kind : Endpoint → OpKind
  | .createReport => .action
  | .getMyReports => .read
  | .getReportById => .read
  | .deleteReport => .removal
  | .createDashboard => .action
  | .updateDashboard => .fullUpdate
  | .getMyDashboards => .read
  | .getPublicDashboards => .read
  | .getDashboardById => .read
  | .deleteDashboard => .removal
  | .createPrediction => .action
  | .getMyPredictions => .read
  | .getPredictionById => .read
  | .getActiveInsights => .read
  | .getInsightsByDataset => .read
  | .getInsightsBySeverity => .read
  | .getInsightsByCategory => .read
  | .getInsightsByType => .read
  | .getInsightById => .read
  | .getInsightsSummary => .read
  | .createInsight => .action
  | .generateInsightsFromReport => .action
  | .deactivateInsight => .action
  | .activateInsight => .action
  | .deleteInsight => .removal
  | .recordMetric => .action
  | .recordBatchMetrics => .action
  | .getMetricsByEntity => .read
  | .getMetricsByPeriod => .read
  | .getAverageMetric => .read
  | .getMetricsSummary => .read
  | .getMetricsByType => .read
  | .exportReportPDF => .read
  | .exportReportExcel => .read
  | .exportReportCSV => .read
  | .compareReports => .action
  | .scheduleAnalysis => .action
  | .getMySchedules => .read
  | .updateSchedule => .fullUpdate
  | .toggleSchedule => .toggle
  | .deleteSchedule => .removal
  | .getTrendingInsights => .read
  | .getPerformanceBenchmarks => .read
  | .assessDataQuality => .action
  | .getLatestQuality => .read
  | .getLowQualityDatasets => .read
  | .getAnalyticsStats => .read

/-- A list payload in the sense of the specification: a list, or absent. -/
def JsVal.isListPayload (v : JsVal) : Bool := v.isArray || v.isNullish

/-- The unwrapped list payload of the specification: the payload itself, the
empty list when it is absent. -/
def unwrapList (v : JsVal) : JsVal := if v.isNullish then .arr [] else v

/-- The server-supplied message of a transport error, `err.response.data.message`. -/
def serverMessage (err : JsVal) : JsVal := ((err.field "response").field "data").field "message"

/-- The generic transport message of a transport error, `err.message`. -/
def transportMessage (err : JsVal) : JsVal := err.field "message"

/-- A parameter is present when it is neither `null` nor `undefined`. -/
def JsVal.isPresent (v : JsVal) : Bool := !v.isNullish

/-- One success callback of a create form on `ProviderAnalyticsPage`: of the
report form or of the prediction form. -/
inductive FormSuccess where
  | report
  | prediction
  deriving DecidableEq

/-- The state of the page after one success callback. -/
def afterSuccess (s : ProviderAnalyticsPage.State) : FormSuccess → ProviderAnalyticsPage.State
  | .report => (ProviderAnalyticsPage.onReportSuccess (fun _ _ => .normal .undefined) s []).state
  | .prediction =>
    (ProviderAnalyticsPage.onPredictionSuccess (fun _ _ => .normal .undefined) s []).state

/-- The state of the page after a sequence of success callbacks, in order. -/
def afterSuccesses (s : ProviderAnalyticsPage.State) (events : List FormSuccess) :
    ProviderAnalyticsPage.State :=
  events.foldl afterSuccess s

/-! ## Lemmas on the execution model -/

/-- A call without arguments binds every parameter to `undefined`. -/
@[simp]
theorem arg_nil (n : Nat) : arg [] n = .undefined := by simp [arg]

/-- The first parameter is bound to the first argument. -/
@[simp]
theorem arg_cons_zero (a : JsVal) (l : List JsVal) : arg (a :: l) 0 = a := by simp [arg]

/-- Later parameters are bound to later arguments. -/
@[simp]
theorem arg_cons_succ (a : JsVal) (l : List JsVal) (n : Nat) :
    arg (a :: l) (n + 1) = arg l n := by
  simp [arg]

/-- A defaulted parameter passed on to a parameter with the same default keeps
its value. -/
theorem argOr_argOr (args rest : List JsVal) (d : JsVal) (hd : d.isNullish = false) :
    argOr (argOr args 0 d :: rest) 0 d = argOr args 0 d := by
  simp only [argOr, arg_cons_zero]
  generalize arg args 0 = v
  cases v <;> cases d <;> simp_all [JsVal.isNullish]

/-- A property read as one step of the run: it throws on a nullish value and
reads the field otherwise, leaving state and log alone. -/
theorem Async.prop_run {σ : Type} (v : JsVal) (k : String) (c : HttpClient) (s : σ)
    (l : List (Request × σ)) :
    Async.prop v k c s l =
      ⟨if v.isNullish then .thrown Async.typeError else .normal (v.field k), s, l⟩ := by
  cases v <;> rfl

/-- The `TypeError` value is an object. -/
@[simp]
theorem Async.typeError_isNullish : Async.typeError.isNullish = false := rfl

/-! ## Runs of the hook operations -/

namespace useMetricsByEntity

/-- The load `loadMetrics` issues exactly one request, the one written here, whatever
the client answers. -/
theorem loadMetrics_byEntity_log (hookArgs : List JsVal) (c : HttpClient) (s : State) (l : List (Request × State)) :
    (loadMetrics hookArgs c s l).log =
      l ++ [(⟨.get, [.lit BASE_URL, .lit "/metrics/entity/", .sub (arg hookArgs 0), .lit "/",
        .sub (arg hookArgs 1)], []⟩,
        { s with loading := true, error := .null })] := by
  simp only [loadMetrics, analyticsService.getMetricsByEntity, setLoading, setError, setMetrics, setTotalPages,
    tryFinally, MonadFinally.tryFinally', tryCatch, tryCatchThe,
    MonadExcept.tryCatch, bind, Functor.map, pure, throw, throwThe, MonadExcept.throw,
    Async.prop_run, Async.bind, Async.pure, Async.tryCatch, Async.tryFinally, Async.modify, Async.send,
    Async.throw, Async.consoleError, browserDownload, httpClient.get, httpClient.post, httpClient.put,
    httpClient.patch, httpClient.delete, arg_cons_zero, arg_cons_succ, arg_nil]
  generalize c l.length _ = out
  cases out with
  | normal r => cases h1 : r.isNullish <;> cases h2 : (r.field "data").isNullish <;> simp [h1, h2, Async.pure]
  | thrown e => cases h1 : e.isNullish <;> simp [h1, Async.pure]

/-- The load `loadMetrics` when its request resolves with the response `r`. -/
theorem loadMetrics_byEntity_resolve (hookArgs : List JsVal) (c : HttpClient) (s : State) (l : List (Request × State))
    (r : JsVal) (h : ∀ q, c l.length q = .normal r) (hr : r.isNullish = false)
    (hd : (r.field "data").isNullish = false) :
    (loadMetrics hookArgs c s l).state =
      { metrics := ((r.field "data").field "content").or (.arr []), loading := false, error := .null,
        totalPages := ((r.field "data").field "totalPages").or (.num 0) } ∧
    (loadMetrics hookArgs c s l).result = .normal () := by
  simp [loadMetrics, analyticsService.getMetricsByEntity, setLoading, setError, setMetrics, setTotalPages,
    tryFinally, MonadFinally.tryFinally', tryCatch, tryCatchThe,
    MonadExcept.tryCatch, bind, Functor.map, pure, throw, throwThe, MonadExcept.throw,
    Async.prop_run, Async.bind, Async.pure, Async.tryCatch, Async.tryFinally, Async.modify, Async.send,
    Async.throw, Async.consoleError, browserDownload, httpClient.get, httpClient.post, httpClient.put,
    httpClient.patch, httpClient.delete, arg_cons_zero, arg_cons_succ, arg_nil, h, hr, hd]

/-- The load `loadMetrics` when its request rejects with the reason `e`. -/
theorem loadMetrics_byEntity_reject (hookArgs : List JsVal) (c : HttpClient) (s : State) (l : List (Request × State))
    (e : JsVal) (h : ∀ q, c l.length q = .thrown e) (he : e.isNullish = false) :
    (loadMetrics hookArgs c s l).state =
      { s with loading := false, error := (e.field "message").or (.str "Failed to load metrics") } ∧
    (loadMetrics hookArgs c s l).result = .normal () := by
  simp [loadMetrics, analyticsService.getMetricsByEntity, setLoading, setError, setMetrics, setTotalPages,
    tryFinally, MonadFinally.tryFinally', tryCatch, tryCatchThe,
    MonadExcept.tryCatch, bind, Functor.map, pure, throw, throwThe, MonadExcept.throw,
    Async.prop_run, Async.bind, Async.pure, Async.tryCatch, Async.tryFinally, Async.modify, Async.send,
    Async.throw, Async.consoleError, browserDownload, httpClient.get, httpClient.post, httpClient.put,
    httpClient.patch, httpClient.delete, arg_cons_zero, arg_cons_succ, arg_nil, h, he]

end useMetricsByEntity

namespace useMetricsByPeriod

/-- The load `loadMetrics` issues exactly one request, the one written here, whatever
the client answers. -/
theorem loadMetrics_byPeriod_log (hookArgs : List JsVal) (c : HttpClient) (s : State) (l : List (Request × State)) :
    (loadMetrics hookArgs c s l).log =
      l ++ [(⟨.get, [.lit BASE_URL, .lit "/metrics/period/", .sub (arg hookArgs 0), .lit "/",
        .sub (arg hookArgs 1)],
        [.obj [("params", .obj [("startDate", arg hookArgs 2), ("endDate", arg hookArgs 3)])]]⟩,
        { s with loading := true, error := .null })] := by
  simp only [loadMetrics, analyticsService.getMetricsByPeriod, setLoading, setError, setMetrics, setTotalPages,
    tryFinally, MonadFinally.tryFinally', tryCatch, tryCatchThe,
    MonadExcept.tryCatch, bind, Functor.map, pure, throw, throwThe, MonadExcept.throw,
    Async.prop_run, Async.bind, Async.pure, Async.tryCatch, Async.tryFinally, Async.modify, Async.send,
    Async.throw, Async.consoleError, browserDownload, httpClient.get, httpClient.post, httpClient.put,
    httpClient.patch, httpClient.delete, arg_cons_zero, arg_cons_succ, arg_nil]
  generalize c l.length _ = out
  cases out with
  | normal r => cases h1 : r.isNullish <;> cases h2 : (r.field "data").isNullish <;> simp [h1, h2, Async.pure]
  | thrown e => cases h1 : e.isNullish <;> simp [h1, Async.pure]

/-- The load `loadMetrics` when its request resolves with the response `r`. -/
theorem loadMetrics_byPeriod_resolve (hookArgs : List JsVal) (c : HttpClient) (s : State) (l : List (Request × State))
    (r : JsVal) (h : ∀ q, c l.length q = .normal r) (hr : r.isNullish = false)
    (hd : (r.field "data").isNullish = false) :
    (loadMetrics hookArgs c s l).state =
      { metrics := ((r.field "data").field "content").or (.arr []), loading := false, error := .null,
        totalPages := ((r.field "data").field "totalPages").or (.num 0) } ∧
    (loadMetrics hookArgs c s l).result = .normal () := by
  simp [loadMetrics, analyticsService.getMetricsByPeriod, setLoading, setError, setMetrics, setTotalPages,
    tryFinally, MonadFinally.tryFinally', tryCatch, tryCatchThe,
    MonadExcept.tryCatch, bind, Functor.map, pure, throw, throwThe, MonadExcept.throw,
    Async.prop_run, Async.bind, Async.pure, Async.tryCatch, Async.tryFinally, Async.modify, Async.send,
    Async.throw, Async.consoleError, browserDownload, httpClient.get, httpClient.post, httpClient.put,
    httpClient.patch, httpClient.delete, arg_cons_zero, arg_cons_succ, arg_nil, h, hr, hd]

/-- The load `loadMetrics` when its request rejects with the reason `e`. -/
theorem loadMetrics_byPeriod_reject (hookArgs : List JsVal) (c : HttpClient) (s : State) (l : List (Request × State))
    (e : JsVal) (h : ∀ q, c l.length q = .thrown e) (he : e.isNullish = false) :
    (loadMetrics hookArgs c s l).state =
      { s with loading := false, error := (e.field "message").or (.str "Failed to load metrics") } ∧
    (loadMetrics hookArgs c s l).result = .normal () := by
  simp [loadMetrics, analyticsService.getMetricsByPeriod, setLoading, setError, setMetrics, setTotalPages,
    tryFinally, MonadFinally.tryFinally', tryCatch, tryCatchThe,
    MonadExcept.tryCatch, bind, Functor.map, pure, throw, throwThe, MonadExcept.throw,
    Async.prop_run, Async.bind, Async.pure, Async.tryCatch, Async.tryFinally, Async.modify, Async.send,
    Async.throw, Async.consoleError, browserDownload, httpClient.get, httpClient.post, httpClient.put,
    httpClient.patch, httpClient.delete, arg_cons_zero, arg_cons_succ, arg_nil, h, he]

end useMetricsByPeriod

namespace useAverageMetric

/-- The load `loadAverage` issues exactly one request, the one written here, whatever
the client answers. -/
theorem loadAverage_log (hookArgs : List JsVal) (c : HttpClient) (s : State) (l : List (Request × State)) :
    (loadAverage hookArgs c s l).log =
      l ++ [(⟨.get, [.lit BASE_URL, .lit "/metrics/average/", .sub (arg hookArgs 0), .lit "/",
        .sub (arg hookArgs 1)],
        [.obj [("params", .obj [("startDate", arg hookArgs 2), ("endDate", arg hookArgs 3)])]]⟩,
        { s with loading := true, error := .null })] := by
  simp only [loadAverage, analyticsService.getAverageMetric, setLoading, setError, setAverage,
    tryFinally, MonadFinally.tryFinally', tryCatch, tryCatchThe,
    MonadExcept.tryCatch, bind, Functor.map, pure, throw, throwThe, MonadExcept.throw,
    Async.prop_run, Async.bind, Async.pure, Async.tryCatch, Async.tryFinally, Async.modify, Async.send,
    Async.throw, Async.consoleError, browserDownload, httpClient.get, httpClient.post, httpClient.put,
    httpClient.patch, httpClient.delete, arg_cons_zero, arg_cons_succ, arg_nil]
  generalize c l.length _ = out
  cases out with
  | normal r => cases h1 : r.isNullish <;> cases h2 : (r.field "data").isNullish <;> simp [h1, h2, Async.pure]
  | thrown e => cases h1 : e.isNullish <;> simp [h1, Async.pure]

/-- The load `loadAverage` when its request resolves with the response `r`. -/
theorem loadAverage_resolve (hookArgs : List JsVal) (c : HttpClient) (s : State) (l : List (Request × State))
    (r : JsVal) (h : ∀ q, c l.length q = .normal r) (hr : r.isNullish = false) :
    (loadAverage hookArgs c s l).state =
      { average := r.field "data", loading := false, error := .null } ∧
    (loadAverage hookArgs c s l).result = .normal () := by
  simp [loadAverage, analyticsService.getAverageMetric, setLoading, setError, setAverage,
    tryFinally, MonadFinally.tryFinally', tryCatch, tryCatchThe,
    MonadExcept.tryCatch, bind, Functor.map, pure, throw, throwThe, MonadExcept.throw,
    Async.prop_run, Async.bind, Async.pure, Async.tryCatch, Async.tryFinally, Async.modify, Async.send,
    Async.throw, Async.consoleError, browserDownload, httpClient.get, httpClient.post, httpClient.put,
    httpClient.patch, httpClient.delete, arg_cons_zero, arg_cons_succ, arg_nil, h, hr]

/-- The load `loadAverage` when its request rejects with the reason `e`. -/
theorem loadAverage_reject (hookArgs : List JsVal) (c : HttpClient) (s : State) (l : List (Request × State))
    (e : JsVal) (h : ∀ q, c l.length q = .thrown e) (he : e.isNullish = false) :
    (loadAverage hookArgs c s l).state =
      { s with loading := false, error := (e.field "message").or (.str "Failed to load average") } ∧
    (loadAverage hookArgs c s l).result = .normal () := by
  simp [loadAverage, analyticsService.getAverageMetric, setLoading, setError, setAverage,
    tryFinally, MonadFinally.tryFinally', tryCatch, tryCatchThe,
    MonadExcept.tryCatch, bind, Functor.map, pure, throw, throwThe, MonadExcept.throw,
    Async.prop_run, Async.bind, Async.pure, Async.tryCatch, Async.tryFinally, Async.modify, Async.send,
    Async.throw, Async.consoleError, browserDownload, httpClient.get, httpClient.post, httpClient.put,
    httpClient.patch, httpClient.delete, arg_cons_zero, arg_cons_succ, arg_nil, h, he]

end useAverageMetric

namespace useMetricsSummary

/-- The load `loadSummary` issues exactly one request, the one written here, whatever
the client answers. -/
theorem loadSummary_log (hookArgs : List JsVal) (c : HttpClient) (s : State) (l : List (Request × State)) :
    (loadSummary hookArgs c s l).log =
      l ++ [(⟨.get, [.lit BASE_URL, .lit "/metrics/summary/", .sub (arg hookArgs 0), .lit "/",
        .sub (arg hookArgs 1)],
        [.obj [("params", .obj [("startDate", .undefined), ("endDate", .undefined)])]]⟩,
        { s with loading := true, error := .null })] := by
  simp only [loadSummary, analyticsService.getMetricsSummary, setLoading, setError, setSummary,
    tryFinally, MonadFinally.tryFinally', tryCatch, tryCatchThe,
    MonadExcept.tryCatch, bind, Functor.map, pure, throw, throwThe, MonadExcept.throw,
    Async.prop_run, Async.bind, Async.pure, Async.tryCatch, Async.tryFinally, Async.modify, Async.send,
    Async.throw, Async.consoleError, browserDownload, httpClient.get, httpClient.post, httpClient.put,
    httpClient.patch, httpClient.delete, arg_cons_zero, arg_cons_succ, arg_nil]
  generalize c l.length _ = out
  cases out with
  | normal r => cases h1 : r.isNullish <;> cases h2 : (r.field "data").isNullish <;> simp [h1, h2, Async.pure]
  | thrown e => cases h1 : e.isNullish <;> simp [h1, Async.pure]

/-- The load `loadSummary` when its request resolves with the response `r`. -/
theorem loadSummary_resolve (hookArgs : List JsVal) (c : HttpClient) (s : State) (l : List (Request × State))
    (r : JsVal) (h : ∀ q, c l.length q = .normal r) (hr : r.isNullish = false) :
    (loadSummary hookArgs c s l).state =
      { summary := r.field "data", loading := false, error := .null } ∧
    (loadSummary hookArgs c s l).result = .normal () := by
  simp [loadSummary, analyticsService.getMetricsSummary, setLoading, setError, setSummary,
    tryFinally, MonadFinally.tryFinally', tryCatch, tryCatchThe,
    MonadExcept.tryCatch, bind, Functor.map, pure, throw, throwThe, MonadExcept.throw,
    Async.prop_run, Async.bind, Async.pure, Async.tryCatch, Async.tryFinally, Async.modify, Async.send,
    Async.throw, Async.consoleError, browserDownload, httpClient.get, httpClient.post, httpClient.put,
    httpClient.patch, httpClient.delete, arg_cons_zero, arg_cons_succ, arg_nil, h, hr]

/-- The load `loadSummary` when its request rejects with the reason `e`. -/
theorem loadSummary_reject (hookArgs : List JsVal) (c : HttpClient) (s : State) (l : List (Request × State))
    (e : JsVal) (h : ∀ q, c l.length q = .thrown e) (he : e.isNullish = false) :
    (loadSummary hookArgs c s l).state =
      { s with loading := false, error := (e.field "message").or (.str "Failed to load summary") } ∧
    (loadSummary hookArgs c s l).result = .normal () := by
  simp [loadSummary, analyticsService.getMetricsSummary, setLoading, setError, setSummary,
    tryFinally, MonadFinally.tryFinally', tryCatch, tryCatchThe,
    MonadExcept.tryCatch, bind, Functor.map, pure, throw, throwThe, MonadExcept.throw,
    Async.prop_run, Async.bind, Async.pure, Async.tryCatch, Async.tryFinally, Async.modify, Async.send,
    Async.throw, Async.consoleError, browserDownload, httpClient.get, httpClient.post, httpClient.put,
    httpClient.patch, httpClient.delete, arg_cons_zero, arg_cons_succ, arg_nil, h, he]

end useMetricsSummary

namespace useMetricsByType

/-- The load `loadMetrics` issues exactly one request, the one written here, whatever
the client answers. -/
theorem loadMetrics_byType_log (hookArgs : List JsVal) (c : HttpClient) (s : State) (l : List (Request × State)) :
    (loadMetrics hookArgs c s l).log =
      l ++ [(⟨.get, [.lit BASE_URL, .lit "/metrics/type/", .sub (arg hookArgs 0)], []⟩,
        { s with loading := true, error := .null })] := by
  simp only [loadMetrics, analyticsService.getMetricsByType, setLoading, setError, setMetrics, setTotalPages,
    tryFinally, MonadFinally.tryFinally', tryCatch, tryCatchThe,
    MonadExcept.tryCatch, bind, Functor.map, pure, throw, throwThe, MonadExcept.throw,
    Async.prop_run, Async.bind, Async.pure, Async.tryCatch, Async.tryFinally, Async.modify, Async.send,
    Async.throw, Async.consoleError, browserDownload, httpClient.get, httpClient.post, httpClient.put,
    httpClient.patch, httpClient.delete, arg_cons_zero, arg_cons_succ, arg_nil]
  generalize c l.length _ = out
  cases out with
  | normal r => cases h1 : r.isNullish <;> cases h2 : (r.field "data").isNullish <;> simp [h1, h2, Async.pure]
  | thrown e => cases h1 : e.isNullish <;> simp [h1, Async.pure]

/-- The load `loadMetrics` when its request resolves with the response `r`. -/
theorem loadMetrics_byType_resolve (hookArgs : List JsVal) (c : HttpClient) (s : State) (l : List (Request × State))
    (r : JsVal) (h : ∀ q, c l.length q = .normal r) (hr : r.isNullish = false)
    (hd : (r.field "data").isNullish = false) :
    (loadMetrics hookArgs c s l).state =
      { metrics := ((r.field "data").field "content").or (.arr []), loading := false, error := .null,
        totalPages := ((r.field "data").field "totalPages").or (.num 0) } ∧
    (loadMetrics hookArgs c s l).result = .normal () := by
  simp [loadMetrics, analyticsService.getMetricsByType, setLoading, setError, setMetrics, setTotalPages,
    tryFinally, MonadFinally.tryFinally', tryCatch, tryCatchThe,
    MonadExcept.tryCatch, bind, Functor.map, pure, throw, throwThe, MonadExcept.throw,
    Async.prop_run, Async.bind, Async.pure, Async.tryCatch, Async.tryFinally, Async.modify, Async.send,
    Async.throw, Async.consoleError, browserDownload, httpClient.get, httpClient.post, httpClient.put,
    httpClient.patch, httpClient.delete, arg_cons_zero, arg_cons_succ, arg_nil, h, hr, hd]

/-- The load `loadMetrics` when its request rejects with the reason `e`. -/
theorem loadMetrics_byType_reject (hookArgs : List JsVal) (c : HttpClient) (s : State) (l : List (Request × State))
    (e : JsVal) (h : ∀ q, c l.length q = .thrown e) (he : e.isNullish = false) :
    (loadMetrics hookArgs c s l).state =
      { s with loading := false, error := (e.field "message").or (.str "Failed to load metrics") } ∧
    (loadMetrics hookArgs c s l).result = .normal () := by
  simp [loadMetrics, analyticsService.getMetricsByType, setLoading, setError, setMetrics, setTotalPages,
    tryFinally, MonadFinally.tryFinally', tryCatch, tryCatchThe,
    MonadExcept.tryCatch, bind, Functor.map, pure, throw, throwThe, MonadExcept.throw,
    Async.prop_run, Async.bind, Async.pure, Async.tryCatch, Async.tryFinally, Async.modify, Async.send,
    Async.throw, Async.consoleError, browserDownload, httpClient.get, httpClient.post, httpClient.put,
    httpClient.patch, httpClient.delete, arg_cons_zero, arg_cons_succ, arg_nil, h, he]

end useMetricsByType

namespace useScheduleManagement

/-- The load `loadSchedules` issues exactly one request, the one written here, whatever
the client answers. -/
theorem loadSchedules_log (c : HttpClient) (s : State) (l : List (Request × State)) :
    (loadSchedules c s l).log =
      l ++ [(⟨.get, [.lit BASE_URL, .lit "/advanced/schedule/my-schedules"], []⟩,
        { s with loading := true, error := .null })] := by
  simp only [loadSchedules, analyticsService.getMySchedules, setLoading, setError, setSchedules,
    tryFinally, MonadFinally.tryFinally', tryCatch, tryCatchThe,
    MonadExcept.tryCatch, bind, Functor.map, pure, throw, throwThe, MonadExcept.throw,
    Async.prop_run, Async.bind, Async.pure, Async.tryCatch, Async.tryFinally, Async.modify, Async.send,
    Async.throw, Async.consoleError, browserDownload, httpClient.get, httpClient.post, httpClient.put,
    httpClient.patch, httpClient.delete, arg_cons_zero, arg_cons_succ, arg_nil]
  generalize c l.length _ = out
  cases out with
  | normal r => cases h1 : r.isNullish <;> cases h2 : (r.field "data").isNullish <;> simp [h1, h2, Async.pure]
  | thrown e => cases h1 : e.isNullish <;> simp [h1, Async.pure]

/-- The load `loadSchedules` when its request resolves with the response `r`. -/
theorem loadSchedules_resolve (c : HttpClient) (s : State) (l : List (Request × State))
    (r : JsVal) (h : ∀ q, c l.length q = .normal r) (hr : r.isNullish = false) :
    (loadSchedules c s l).state =
      { schedules := (r.field "data").or (.arr []), loading := false, error := .null } ∧
    (loadSchedules c s l).result = .normal () := by
  simp [loadSchedules, analyticsService.getMySchedules, setLoading, setError, setSchedules,
    tryFinally, MonadFinally.tryFinally', tryCatch, tryCatchThe,
    MonadExcept.tryCatch, bind, Functor.map, pure, throw, throwThe, MonadExcept.throw,
    Async.prop_run, Async.bind, Async.pure, Async.tryCatch, Async.tryFinally, Async.modify, Async.send,
    Async.throw, Async.consoleError, browserDownload, httpClient.get, httpClient.post, httpClient.put,
    httpClient.patch, httpClient.delete, arg_cons_zero, arg_cons_succ, arg_nil, h, hr]

/-- The load `loadSchedules` when its request rejects with the reason `e`. -/
theorem loadSchedules_reject (c : HttpClient) (s : State) (l : List (Request × State))
    (e : JsVal) (h : ∀ q, c l.length q = .thrown e) (he : e.isNullish = false) :
    (loadSchedules c s l).state =
      { s with loading := false, error := (e.field "message").or (.str "Failed to load schedules") } ∧
    (loadSchedules c s l).result = .normal () := by
  simp [loadSchedules, analyticsService.getMySchedules, setLoading, setError, setSchedules,
    tryFinally, MonadFinally.tryFinally', tryCatch, tryCatchThe,
    MonadExcept.tryCatch, bind, Functor.map, pure, throw, throwThe, MonadExcept.throw,
    Async.prop_run, Async.bind, Async.pure, Async.tryCatch, Async.tryFinally, Async.modify, Async.send,
    Async.throw, Async.consoleError, browserDownload, httpClient.get, httpClient.post, httpClient.put,
    httpClient.patch, httpClient.delete, arg_cons_zero, arg_cons_succ, arg_nil, h, he]

end useScheduleManagement

namespace useTrendingInsights

/-- The load `loadTrending` issues exactly one request, the one written here, whatever
the client answers. -/
theorem loadTrending_log (hookArgs : List JsVal) (c : HttpClient) (s : State) (l : List (Request × State)) :
    (loadTrending hookArgs c s l).log =
      l ++ [(⟨.get, [.lit BASE_URL, .lit "/advanced/insights/trending"],
        [.obj [("params", .obj [("days", argOr hookArgs 0 (.num 7))])]]⟩,
        { s with loading := true, error := .null })] := by
  simp only [loadTrending, analyticsService.getTrendingInsights, setLoading, setError, setInsights, setTotalPages,
    tryFinally, MonadFinally.tryFinally', tryCatch, tryCatchThe,
    MonadExcept.tryCatch, bind, Functor.map, pure, throw, throwThe, MonadExcept.throw,
    Async.prop_run, Async.bind, Async.pure, Async.tryCatch, Async.tryFinally, Async.modify, Async.send,
    Async.throw, Async.consoleError, browserDownload, httpClient.get, httpClient.post, httpClient.put,
    httpClient.patch, httpClient.delete, arg_cons_zero, arg_cons_succ, arg_nil, argOr_argOr _ _ _ (rfl : (JsVal.num 7).isNullish = false)]
  generalize c l.length _ = out
  cases out with
  | normal r => cases h1 : r.isNullish <;> cases h2 : (r.field "data").isNullish <;> simp [h1, h2, Async.pure]
  | thrown e => cases h1 : e.isNullish <;> simp [h1, Async.pure]

/-- The load `loadTrending` when its request resolves with the response `r`. -/
theorem loadTrending_resolve (hookArgs : List JsVal) (c : HttpClient) (s : State) (l : List (Request × State))
    (r : JsVal) (h : ∀ q, c l.length q = .normal r) (hr : r.isNullish = false)
    (hd : (r.field "data").isNullish = false) :
    (loadTrending hookArgs c s l).state =
      { insights := ((r.field "data").field "content").or (.arr []), loading := false, error := .null,
        totalPages := ((r.field "data").field "totalPages").or (.num 0) } ∧
    (loadTrending hookArgs c s l).result = .normal () := by
  simp [loadTrending, analyticsService.getTrendingInsights, setLoading, setError, setInsights, setTotalPages,
    tryFinally, MonadFinally.tryFinally', tryCatch, tryCatchThe,
    MonadExcept.tryCatch, bind, Functor.map, pure, throw, throwThe, MonadExcept.throw,
    Async.prop_run, Async.bind, Async.pure, Async.tryCatch, Async.tryFinally, Async.modify, Async.send,
    Async.throw, Async.consoleError, browserDownload, httpClient.get, httpClient.post, httpClient.put,
    httpClient.patch, httpClient.delete, arg_cons_zero, arg_cons_succ, arg_nil, argOr_argOr _ _ _ (rfl : (JsVal.num 7).isNullish = false), h, hr, hd]

/-- The load `loadTrending` when its request rejects with the reason `e`. -/
theorem loadTrending_reject (hookArgs : List JsVal) (c : HttpClient) (s : State) (l : List (Request × State))
    (e : JsVal) (h : ∀ q, c l.length q = .thrown e) (he : e.isNullish = false) :
    (loadTrending hookArgs c s l).state =
      { s with loading := false, error := (e.field "message").or (.str "Failed to load trending insights") } ∧
    (loadTrending hookArgs c s l).result = .normal () := by
  simp [loadTrending, analyticsService.getTrendingInsights, setLoading, setError, setInsights, setTotalPages,
    tryFinally, MonadFinally.tryFinally', tryCatch, tryCatchThe,
    MonadExcept.tryCatch, bind, Functor.map, pure, throw, throwThe, MonadExcept.throw,
    Async.prop_run, Async.bind, Async.pure, Async.tryCatch, Async.tryFinally, Async.modify, Async.send,
    Async.throw, Async.consoleError, browserDownload, httpClient.get, httpClient.post, httpClient.put,
    httpClient.patch, httpClient.delete, arg_cons_zero, arg_cons_succ, arg_nil, h, he]

end useTrendingInsights

namespace usePerformanceBenchmarks

/-- The load `loadBenchmarks` issues exactly one request, the one written here, whatever
the client answers. -/
theorem loadBenchmarks_log (hookArgs : List JsVal) (c : HttpClient) (s : State) (l : List (Request × State)) :
    (loadBenchmarks hookArgs c s l).log =
      l ++ [(⟨.get, [.lit BASE_URL, .lit "/advanced/benchmarks/", .sub (arg hookArgs 0)], []⟩,
        { s with loading := true, error := .null })] := by
  simp only [loadBenchmarks, analyticsService.getPerformanceBenchmarks, setLoading, setError, setBenchmarks,
    tryFinally, MonadFinally.tryFinally', tryCatch, tryCatchThe,
    MonadExcept.tryCatch, bind, Functor.map, pure, throw, throwThe, MonadExcept.throw,
    Async.prop_run, Async.bind, Async.pure, Async.tryCatch, Async.tryFinally, Async.modify, Async.send,
    Async.throw, Async.consoleError, browserDownload, httpClient.get, httpClient.post, httpClient.put,
    httpClient.patch, httpClient.delete, arg_cons_zero, arg_cons_succ, arg_nil]
  generalize c l.length _ = out
  cases out with
  | normal r => cases h1 : r.isNullish <;> cases h2 : (r.field "data").isNullish <;> simp [h1, h2, Async.pure]
  | thrown e => cases h1 : e.isNullish <;> simp [h1, Async.pure]

/-- The load `loadBenchmarks` when its request resolves with the response `r`. -/
theorem loadBenchmarks_resolve (hookArgs : List JsVal) (c : HttpClient) (s : State) (l : List (Request × State))
    (r : JsVal) (h : ∀ q, c l.length q = .normal r) (hr : r.isNullish = false) :
    (loadBenchmarks hookArgs c s l).state =
      { benchmarks := r.field "data", loading := false, error := .null } ∧
    (loadBenchmarks hookArgs c s l).result = .normal () := by
  simp [loadBenchmarks, analyticsService.getPerformanceBenchmarks, setLoading, setError, setBenchmarks,
    tryFinally, MonadFinally.tryFinally', tryCatch, tryCatchThe,
    MonadExcept.tryCatch, bind, Functor.map, pure, throw, throwThe, MonadExcept.throw,
    Async.prop_run, Async.bind, Async.pure, Async.tryCatch, Async.tryFinally, Async.modify, Async.send,
    Async.throw, Async.consoleError, browserDownload, httpClient.get, httpClient.post, httpClient.put,
    httpClient.patch, httpClient.delete, arg_cons_zero, arg_cons_succ, arg_nil, h, hr]

/-- The load `loadBenchmarks` when its request rejects with the reason `e`. -/
theorem loadBenchmarks_reject (hookArgs : List JsVal) (c : HttpClient) (s : State) (l : List (Request × State))
    (e : JsVal) (h : ∀ q, c l.length q = .thrown e) (he : e.isNullish = false) :
    (loadBenchmarks hookArgs c s l).state =
      { s with loading := false, error := (e.field "message").or (.str "Failed to load benchmarks") } ∧
    (loadBenchmarks hookArgs c s l).result = .normal () := by
  simp [loadBenchmarks, analyticsService.getPerformanceBenchmarks, setLoading, setError, setBenchmarks,
    tryFinally, MonadFinally.tryFinally', tryCatch, tryCatchThe,
    MonadExcept.tryCatch, bind, Functor.map, pure, throw, throwThe, MonadExcept.throw,
    Async.prop_run, Async.bind, Async.pure, Async.tryCatch, Async.tryFinally, Async.modify, Async.send,
    Async.throw, Async.consoleError, browserDownload, httpClient.get, httpClient.post, httpClient.put,
    httpClient.patch, httpClient.delete, arg_cons_zero, arg_cons_succ, arg_nil, h, he]

end usePerformanceBenchmarks

namespace useRecordMetric

/-- The operation `recordMetric` when its request rejects with the reason `e`. -/
theorem recordMetric_reject (metricData : JsVal) (c : HttpClient) (s : State) (l : List (Request × State))
    (e : JsVal) (h : ∀ q, c l.length q = .thrown e) (he : e.isNullish = false) :
    (recordMetric metricData c s l).state =
      { s with loading := false, error := (e.field "message").or (.str "Failed to record metric") } ∧
    (recordMetric metricData c s l).result = .thrown e := by
  simp [recordMetric, analyticsService.recordMetric, setLoading, setError,
    tryFinally, MonadFinally.tryFinally', tryCatch, tryCatchThe,
    MonadExcept.tryCatch, bind, Functor.map, pure, throw, throwThe, MonadExcept.throw,
    Async.prop_run, Async.bind, Async.pure, Async.tryCatch, Async.tryFinally, Async.modify, Async.send,
    Async.throw, Async.consoleError, browserDownload, httpClient.get, httpClient.post, httpClient.put,
    httpClient.patch, httpClient.delete, arg_cons_zero, arg_cons_succ, arg_nil, h, he]

end useRecordMetric

namespace useRecordMetric

/-- The operation `recordBatch` when its request rejects with the reason `e`. -/
theorem recordBatch_reject (metricsList : JsVal) (c : HttpClient) (s : State) (l : List (Request × State))
    (e : JsVal) (h : ∀ q, c l.length q = .thrown e) (he : e.isNullish = false) :
    (recordBatch metricsList c s l).state =
      { s with loading := false, error := (e.field "message").or (.str "Failed to record metrics") } ∧
    (recordBatch metricsList c s l).result = .thrown e := by
  simp [recordBatch, analyticsService.recordBatchMetrics, setLoading, setError,
    tryFinally, MonadFinally.tryFinally', tryCatch, tryCatchThe,
    MonadExcept.tryCatch, bind, Functor.map, pure, throw, throwThe, MonadExcept.throw,
    Async.prop_run, Async.bind, Async.pure, Async.tryCatch, Async.tryFinally, Async.modify, Async.send,
    Async.throw, Async.consoleError, browserDownload, httpClient.get, httpClient.post, httpClient.put,
    httpClient.patch, httpClient.delete, arg_cons_zero, arg_cons_succ, arg_nil, h, he]

end useRecordMetric

namespace useExportReport

/-- The operation `exportPDF` when its request rejects with the reason `e`. -/
theorem exportPDF_reject (reportId : JsVal) (c : HttpClient) (s : State) (l : List (Request × State))
    (e : JsVal) (h : ∀ q, c l.length q = .thrown e) (he : e.isNullish = false) :
    (exportPDF reportId c s l).state =
      { s with loading := false, error := (e.field "message").or (.str "Failed to export PDF") } ∧
    (exportPDF reportId c s l).result = .thrown e := by
  simp [exportPDF, analyticsService.exportReportPDF, setLoading, setError,
    tryFinally, MonadFinally.tryFinally', tryCatch, tryCatchThe,
    MonadExcept.tryCatch, bind, Functor.map, pure, throw, throwThe, MonadExcept.throw,
    Async.prop_run, Async.bind, Async.pure, Async.tryCatch, Async.tryFinally, Async.modify, Async.send,
    Async.throw, Async.consoleError, browserDownload, httpClient.get, httpClient.post, httpClient.put,
    httpClient.patch, httpClient.delete, arg_cons_zero, arg_cons_succ, arg_nil, h, he]

end useExportReport

namespace useExportReport

/-- The operation `exportExcel` when its request rejects with the reason `e`. -/
theorem exportExcel_reject (reportId : JsVal) (c : HttpClient) (s : State) (l : List (Request × State))
    (e : JsVal) (h : ∀ q, c l.length q = .thrown e) (he : e.isNullish = false) :
    (exportExcel reportId c s l).state =
      { s with loading := false, error := (e.field "message").or (.str "Failed to export Excel") } ∧
    (exportExcel reportId c s l).result = .thrown e := by
  simp [exportExcel, analyticsService.exportReportExcel, setLoading, setError,
    tryFinally, MonadFinally.tryFinally', tryCatch, tryCatchThe,
    MonadExcept.tryCatch, bind, Functor.map, pure, throw, throwThe, MonadExcept.throw,
    Async.prop_run, Async.bind, Async.pure, Async.tryCatch, Async.tryFinally, Async.modify, Async.send,
    Async.throw, Async.consoleError, browserDownload, httpClient.get, httpClient.post, httpClient.put,
    httpClient.patch, httpClient.delete, arg_cons_zero, arg_cons_succ, arg_nil, h, he]

end useExportReport

namespace useExportReport

/-- The operation `exportCSV` when its request rejects with the reason `e`. -/
theorem exportCSV_reject (reportId : JsVal) (c : HttpClient) (s : State) (l : List (Request × State))
    (e : JsVal) (h : ∀ q, c l.length q = .thrown e) (he : e.isNullish = false) :
    (exportCSV reportId c s l).state =
      { s with loading := false, error := (e.field "message").or (.str "Failed to export CSV") } ∧
    (exportCSV reportId c s l).result = .thrown e := by
  simp [exportCSV, analyticsService.exportReportCSV, setLoading, setError,
    tryFinally, MonadFinally.tryFinally', tryCatch, tryCatchThe,
    MonadExcept.tryCatch, bind, Functor.map, pure, throw, throwThe, MonadExcept.throw,
    Async.prop_run, Async.bind, Async.pure, Async.tryCatch, Async.tryFinally, Async.modify, Async.send,
    Async.throw, Async.consoleError, browserDownload, httpClient.get, httpClient.post, httpClient.put,
    httpClient.patch, httpClient.delete, arg_cons_zero, arg_cons_succ, arg_nil, h, he]

end useExportReport

namespace useCompareReports

/-- The operation `compareReports` when its request rejects with the reason `e`. -/
theorem compareReports_reject (reportId1 reportId2 : JsVal) (c : HttpClient) (s : State) (l : List (Request × State))
    (e : JsVal) (h : ∀ q, c l.length q = .thrown e) (he : e.isNullish = false) :
    (compareReports reportId1 reportId2 c s l).state =
      { s with loading := false, error := (e.field "message").or (.str "Failed to compare reports") } ∧
    (compareReports reportId1 reportId2 c s l).result = .thrown e := by
  simp [compareReports, analyticsService.compareReports, setLoading, setError, setComparison,
    tryFinally, MonadFinally.tryFinally', tryCatch, tryCatchThe,
    MonadExcept.tryCatch, bind, Functor.map, pure, throw, throwThe, MonadExcept.throw,
    Async.prop_run, Async.bind, Async.pure, Async.tryCatch, Async.tryFinally, Async.modify, Async.send,
    Async.throw, Async.consoleError, browserDownload, httpClient.get, httpClient.post, httpClient.put,
    httpClient.patch, httpClient.delete, arg_cons_zero, arg_cons_succ, arg_nil, h, he]

end useCompareReports

namespace useScheduleManagement

/-- The operation `createSchedule` when its request rejects with the reason `e`. -/
theorem createSchedule_reject (scheduleData : JsVal) (c : HttpClient) (s : State) (l : List (Request × State))
    (e : JsVal) (h : ∀ q, c l.length q = .thrown e) (he : e.isNullish = false) :
    (createSchedule scheduleData c s l).state =
      { s with loading := false, error := (e.field "message").or (.str "Failed to create schedule") } ∧
    (createSchedule scheduleData c s l).result = .thrown e := by
  simp [createSchedule, analyticsService.scheduleAnalysis, setLoading, setError, setSchedules, loadSchedules,
    tryFinally, MonadFinally.tryFinally', tryCatch, tryCatchThe,
    MonadExcept.tryCatch, bind, Functor.map, pure, throw, throwThe, MonadExcept.throw,
    Async.prop_run, Async.bind, Async.pure, Async.tryCatch, Async.tryFinally, Async.modify, Async.send,
    Async.throw, Async.consoleError, browserDownload, httpClient.get, httpClient.post, httpClient.put,
    httpClient.patch, httpClient.delete, arg_cons_zero, arg_cons_succ, arg_nil, h, he]

end useScheduleManagement

namespace useScheduleManagement

/-- The operation `updateSchedule` when its request rejects with the reason `e`. -/
theorem updateSchedule_reject (scheduleId updateData : JsVal) (c : HttpClient) (s : State) (l : List (Request × State))
    (e : JsVal) (h : ∀ q, c l.length q = .thrown e) (he : e.isNullish = false) :
    (updateSchedule scheduleId updateData c s l).state =
      { s with loading := false, error := (e.field "message").or (.str "Failed to update schedule") } ∧
    (updateSchedule scheduleId updateData c s l).result = .thrown e := by
  simp [updateSchedule, analyticsService.updateSchedule, setLoading, setError, setSchedules, loadSchedules,
    tryFinally, MonadFinally.tryFinally', tryCatch, tryCatchThe,
    MonadExcept.tryCatch, bind, Functor.map, pure, throw, throwThe, MonadExcept.throw,
    Async.prop_run, Async.bind, Async.pure, Async.tryCatch, Async.tryFinally, Async.modify, Async.send,
    Async.throw, Async.consoleError, browserDownload, httpClient.get, httpClient.post, httpClient.put,
    httpClient.patch, httpClient.delete, arg_cons_zero, arg_cons_succ, arg_nil, h, he]

end useScheduleManagement

namespace useScheduleManagement

/-- The operation `toggleSchedule` when its request rejects with the reason `e`. -/
theorem toggleSchedule_reject (scheduleId : JsVal) (c : HttpClient) (s : State) (l : List (Request × State))
    (e : JsVal) (h : ∀ q, c l.length q = .thrown e) (he : e.isNullish = false) :
    (toggleSchedule scheduleId c s l).state =
      { s with loading := false, error := (e.field "message").or (.str "Failed to toggle schedule") } ∧
    (toggleSchedule scheduleId c s l).result = .thrown e := by
  simp [toggleSchedule, analyticsService.toggleSchedule, setLoading, setError, setSchedules, loadSchedules,
    tryFinally, MonadFinally.tryFinally', tryCatch, tryCatchThe,
    MonadExcept.tryCatch, bind, Functor.map, pure, throw, throwThe, MonadExcept.throw,
    Async.prop_run, Async.bind, Async.pure, Async.tryCatch, Async.tryFinally, Async.modify, Async.send,
    Async.throw, Async.consoleError, browserDownload, httpClient.get, httpClient.post, httpClient.put,
    httpClient.patch, httpClient.delete, arg_cons_zero, arg_cons_succ, arg_nil, h, he]

end useScheduleManagement

namespace useScheduleManagement

/-- The operation `deleteSchedule` when its request rejects with the reason `e`. -/
theorem deleteSchedule_reject (scheduleId : JsVal) (c : HttpClient) (s : State) (l : List (Request × State))
    (e : JsVal) (h : ∀ q, c l.length q = .thrown e) (he : e.isNullish = false) :
    (deleteSchedule scheduleId c s l).state =
      { s with loading := false, error := (e.field "message").or (.str "Failed to delete schedule") } ∧
    (deleteSchedule scheduleId c s l).result = .thrown e := by
  simp [deleteSchedule, analyticsService.deleteSchedule, setLoading, setError, setSchedules, loadSchedules,
    tryFinally, MonadFinally.tryFinally', tryCatch, tryCatchThe,
    MonadExcept.tryCatch, bind, Functor.map, pure, throw, throwThe, MonadExcept.throw,
    Async.prop_run, Async.bind, Async.pure, Async.tryCatch, Async.tryFinally, Async.modify, Async.send,
    Async.throw, Async.consoleError, browserDownload, httpClient.get, httpClient.post, httpClient.put,
    httpClient.patch, httpClient.delete, arg_cons_zero, arg_cons_succ, arg_nil, h, he]

end useScheduleManagement

namespace useCompareReports

/-- The operation `compareReports` issues exactly one request, the one written
here, whatever the client answers. -/
theorem compareReports_log (reportId1 reportId2 : JsVal) (c : HttpClient) (s : State)
    (l : List (Request × State)) :
    (compareReports reportId1 reportId2 c s l).log =
      l ++ [(⟨.post, [.lit BASE_URL, .lit "/advanced/reports/compare"],
        [.obj [("reportIds", reportId1)]]⟩, { s with loading := true, error := .null })] := by
  simp only [compareReports, analyticsService.compareReports, setLoading, setError, setComparison,
    tryFinally, MonadFinally.tryFinally', tryCatch, tryCatchThe,
    MonadExcept.tryCatch, bind, Functor.map, pure, throw, throwThe, MonadExcept.throw,
    Async.prop_run, Async.bind, Async.pure, Async.tryCatch, Async.tryFinally, Async.modify, Async.send,
    Async.throw, Async.consoleError, browserDownload, httpClient.get, httpClient.post, httpClient.put,
    httpClient.patch, httpClient.delete, arg_cons_zero, arg_cons_succ, arg_nil]
  generalize c l.length _ = out
  cases out with
  | normal r => cases h1 : r.isNullish <;> simp [h1, Async.pure]
  | thrown e => cases h1 : e.isNullish <;> simp [h1, Async.pure]

/-- The operation `compareReports` when its request resolves with the response `r`. -/
theorem compareReports_resolve (reportId1 reportId2 : JsVal) (c : HttpClient) (s : State)
    (l : List (Request × State)) (r : JsVal) (h : ∀ q, c l.length q = .normal r)
    (hr : r.isNullish = false) :
    (compareReports reportId1 reportId2 c s l).state =
      { comparison := r.field "data", loading := false, error := .null } ∧
    (compareReports reportId1 reportId2 c s l).result = .normal (r.field "data") := by
  simp [compareReports, analyticsService.compareReports, setLoading, setError, setComparison,
    tryFinally, MonadFinally.tryFinally', tryCatch, tryCatchThe,
    MonadExcept.tryCatch, bind, Functor.map, pure, throw, throwThe, MonadExcept.throw,
    Async.prop_run, Async.bind, Async.pure, Async.tryCatch, Async.tryFinally, Async.modify, Async.send,
    Async.throw, Async.consoleError, browserDownload, httpClient.get, httpClient.post, httpClient.put,
    httpClient.patch, httpClient.delete, arg_cons_zero, arg_cons_succ, arg_nil, h, hr]

end useCompareReports

/-! ## The endpoint wrappers -/

/-- C1: every exported endpoint wrapper, on every argument tuple, determines one
request whose URL is the base path `/analytics/api` followed by the wrapper's
path template filled in with the arguments; a call of the wrapper invokes the
shared client exactly once, with that request, leaves the state alone, and its
completion is exactly the completion of that client call (the same resolution or
the same rejection: no retry, no transformation, no translation). -/
theorem wrapper_delegates_once (e : Endpoint) (args : List JsVal) :
    ∃ (q : Request) (path : Template),
      q.url = Piece.lit "/analytics/api" :: path ∧
      ∀ (σ : Type) (c : HttpClient) (s : σ) (l : List (Request × σ)),
        exported e args c s l = ⟨c l.length q, s, l ++ [(q, s)]⟩ := by
  cases e <;> exact ⟨_, _, rfl, fun _ _ _ _ => rfl⟩

/-- C5: the one request a wrapper issues carries the verb of the wrapper's
operation class: GET for every `get*` and `export*`, POST for every creation or
action, PUT for the two full updates, PATCH for `toggleSchedule`, DELETE for
every `delete*`. -/
theorem wrapper_verb_follows_semantics (e : Endpoint) (args : List JsVal) (σ : Type)
    (c : HttpClient) (s : σ) (l : List (Request × σ)) :
    ∃ q : Request, (exported e args c s l).log = l ++ [(q, s)] ∧ q.method = e.kind.verb := by
  cases e <;> exact ⟨_, rfl, rfl⟩


/-! ## The read hooks -/

/-- On a list payload, `payload || []` is the unwrapped payload. -/
theorem or_empty_eq_unwrapList (v : JsVal) (h : v.isListPayload = true) :
    v.or (.arr []) = unwrapList v := by
  cases v <;> simp_all [JsVal.isListPayload, JsVal.isArray, JsVal.isNullish, JsVal.or, JsVal.truthy,
    unwrapList]

/-- C2: when the wrapper call of a read load resolves with a response object
`r`, the load ends with `data` equal to the unwrapped payload of `r`
(`r.data.content` for the paginated hooks, whose response carries an envelope,
`r.data` for the single-record hooks and for the schedule list, and the empty
list when the list payload is absent), with `error` null and `loading` false,
whatever the state before. -/
theorem read_load_success (c : HttpClient) (r : JsVal) (hookArgs : List JsVal)
    (hr : r.isNullish = false) :
    (∀ s l, (∀ q, c l.length q = .normal r) → (r.field "data").isNullish = false →
      ((r.field "data").field "content").isListPayload = true →
      (useMetricsByEntity.loadMetrics hookArgs c s l).state.metrics
          = unwrapList ((r.field "data").field "content") ∧
        (useMetricsByEntity.loadMetrics hookArgs c s l).state.error = .null ∧
        (useMetricsByEntity.loadMetrics hookArgs c s l).state.loading = false) ∧
    (∀ s l, (∀ q, c l.length q = .normal r) → (r.field "data").isNullish = false →
      ((r.field "data").field "content").isListPayload = true →
      (useMetricsByPeriod.loadMetrics hookArgs c s l).state.metrics
          = unwrapList ((r.field "data").field "content") ∧
        (useMetricsByPeriod.loadMetrics hookArgs c s l).state.error = .null ∧
        (useMetricsByPeriod.loadMetrics hookArgs c s l).state.loading = false) ∧
    (∀ s l, (∀ q, c l.length q = .normal r) → (r.field "data").isNullish = false →
      ((r.field "data").field "content").isListPayload = true →
      (useMetricsByType.loadMetrics hookArgs c s l).state.metrics
          = unwrapList ((r.field "data").field "content") ∧
        (useMetricsByType.loadMetrics hookArgs c s l).state.error = .null ∧
        (useMetricsByType.loadMetrics hookArgs c s l).state.loading = false) ∧
    (∀ s l, (∀ q, c l.length q = .normal r) → (r.field "data").isNullish = false →
      ((r.field "data").field "content").isListPayload = true →
      (useTrendingInsights.loadTrending hookArgs c s l).state.insights
          = unwrapList ((r.field "data").field "content") ∧
        (useTrendingInsights.loadTrending hookArgs c s l).state.error = .null ∧
        (useTrendingInsights.loadTrending hookArgs c s l).state.loading = false) ∧
    (∀ s l, (∀ q, c l.length q = .normal r) →
      (useAverageMetric.loadAverage hookArgs c s l).state.average = r.field "data" ∧
        (useAverageMetric.loadAverage hookArgs c s l).state.error = .null ∧
        (useAverageMetric.loadAverage hookArgs c s l).state.loading = false) ∧
    (∀ s l, (∀ q, c l.length q = .normal r) →
      (useMetricsSummary.loadSummary hookArgs c s l).state.summary = r.field "data" ∧
        (useMetricsSummary.loadSummary hookArgs c s l).state.error = .null ∧
        (useMetricsSummary.loadSummary hookArgs c s l).state.loading = false) ∧
    (∀ s l, (∀ q, c l.length q = .normal r) →
      (usePerformanceBenchmarks.loadBenchmarks hookArgs c s l).state.benchmarks = r.field "data" ∧
        (usePerformanceBenchmarks.loadBenchmarks hookArgs c s l).state.error = .null ∧
        (usePerformanceBenchmarks.loadBenchmarks hookArgs c s l).state.loading = false) ∧
    (∀ s l, (∀ q, c l.length q = .normal r) → (r.field "data").isListPayload = true →
      (useScheduleManagement.loadSchedules c s l).state.schedules = unwrapList (r.field "data") ∧
        (useScheduleManagement.loadSchedules c s l).state.error = .null ∧
        (useScheduleManagement.loadSchedules c s l).state.loading = false) := by
  refine ⟨?_, ?_, ?_, ?_, ?_, ?_, ?_, ?_⟩
  · intro s l h hd hp
    rw [(useMetricsByEntity.loadMetrics_byEntity_resolve hookArgs c s l r h hr hd).1]
    exact ⟨or_empty_eq_unwrapList _ hp, rfl, rfl⟩
  · intro s l h hd hp
    rw [(useMetricsByPeriod.loadMetrics_byPeriod_resolve hookArgs c s l r h hr hd).1]
    exact ⟨or_empty_eq_unwrapList _ hp, rfl, rfl⟩
  · intro s l h hd hp
    rw [(useMetricsByType.loadMetrics_byType_resolve hookArgs c s l r h hr hd).1]
    exact ⟨or_empty_eq_unwrapList _ hp, rfl, rfl⟩
  · intro s l h hd hp
    rw [(useTrendingInsights.loadTrending_resolve hookArgs c s l r h hr hd).1]
    exact ⟨or_empty_eq_unwrapList _ hp, rfl, rfl⟩
  · intro s l h
    rw [(useAverageMetric.loadAverage_resolve hookArgs c s l r h hr).1]
    exact ⟨rfl, rfl, rfl⟩
  · intro s l h
    rw [(useMetricsSummary.loadSummary_resolve hookArgs c s l r h hr).1]
    exact ⟨rfl, rfl, rfl⟩
  · intro s l h
    rw [(usePerformanceBenchmarks.loadBenchmarks_resolve hookArgs c s l r h hr).1]
    exact ⟨rfl, rfl, rfl⟩
  · intro s l h hp
    rw [(useScheduleManagement.loadSchedules_resolve c s l r h hr).1]
    exact ⟨or_empty_eq_unwrapList _ hp, rfl, rfl⟩

/-- Witness of C2: a page of one metric in an envelope, loaded into the initial
state of `useMetricsByEntity`, and a list of one schedule loaded into the
initial state of `useScheduleManagement`. -/
theorem read_load_success_witness :
    (useMetricsByEntity.loadMetrics [.str "VEHICLE", .num 7]
        (fun _ _ => .normal (.obj [("data", .obj [("content", .arr [.str "m1"]), ("totalPages", .num 3)])]))
        useMetricsByEntity.init []).state.metrics = .arr [.str "m1"] ∧
    (useScheduleManagement.loadSchedules
        (fun _ _ => .normal (.obj [("data", .arr [.str "s1"])]))
        useScheduleManagement.init []).state.schedules = .arr [.str "s1"] :=
  ⟨((read_load_success
      (fun _ _ => .normal (.obj [("data", .obj [("content", .arr [.str "m1"]), ("totalPages", .num 3)])]))
      (.obj [("data", .obj [("content", .arr [.str "m1"]), ("totalPages", .num 3)])])
      [.str "VEHICLE", .num 7] rfl).1 useMetricsByEntity.init [] (fun _ => rfl) rfl rfl).1,
   ((read_load_success
      (fun _ _ => .normal (.obj [("data", .arr [.str "s1"])]))
      (.obj [("data", .arr [.str "s1"])]) [] rfl).2.2.2.2.2.2.2
      useScheduleManagement.init [] (fun _ => rfl) rfl).1⟩


/-- The stored error `message || fallback` is never `null`. -/
theorem or_str_ne_null (v : JsVal) (fallback : String) : v.or (.str fallback) ≠ .null := by
  unfold JsVal.or
  split
  · intro h
    simp_all [JsVal.truthy]
  · simp

/-- C3: when the wrapper call of a read load rejects with an error value `err`,
the load ends with `data` (and `totalPages`, where the hook tracks it) equal to
its value before the load, whatever that state was, with `error` non-null and
`loading` false, and the load itself completes normally instead of rejecting. -/
theorem read_load_failure (c : HttpClient) (err : JsVal) (hookArgs : List JsVal)
    (herr : err.isNullish = false) :
    (∀ s l, (∀ q, c l.length q = .thrown err) →
      (useMetricsByEntity.loadMetrics hookArgs c s l).state.metrics = s.metrics ∧
        (useMetricsByEntity.loadMetrics hookArgs c s l).state.totalPages = s.totalPages ∧
        (useMetricsByEntity.loadMetrics hookArgs c s l).state.error ≠ .null ∧
        (useMetricsByEntity.loadMetrics hookArgs c s l).state.loading = false ∧
        (useMetricsByEntity.loadMetrics hookArgs c s l).result = .normal ()) ∧
    (∀ s l, (∀ q, c l.length q = .thrown err) →
      (useMetricsByPeriod.loadMetrics hookArgs c s l).state.metrics = s.metrics ∧
        (useMetricsByPeriod.loadMetrics hookArgs c s l).state.totalPages = s.totalPages ∧
        (useMetricsByPeriod.loadMetrics hookArgs c s l).state.error ≠ .null ∧
        (useMetricsByPeriod.loadMetrics hookArgs c s l).state.loading = false ∧
        (useMetricsByPeriod.loadMetrics hookArgs c s l).result = .normal ()) ∧
    (∀ s l, (∀ q, c l.length q = .thrown err) →
      (useMetricsByType.loadMetrics hookArgs c s l).state.metrics = s.metrics ∧
        (useMetricsByType.loadMetrics hookArgs c s l).state.totalPages = s.totalPages ∧
        (useMetricsByType.loadMetrics hookArgs c s l).state.error ≠ .null ∧
        (useMetricsByType.loadMetrics hookArgs c s l).state.loading = false ∧
        (useMetricsByType.loadMetrics hookArgs c s l).result = .normal ()) ∧
    (∀ s l, (∀ q, c l.length q = .thrown err) →
      (useTrendingInsights.loadTrending hookArgs c s l).state.insights = s.insights ∧
        (useTrendingInsights.loadTrending hookArgs c s l).state.totalPages = s.totalPages ∧
        (useTrendingInsights.loadTrending hookArgs c s l).state.error ≠ .null ∧
        (useTrendingInsights.loadTrending hookArgs c s l).state.loading = false ∧
        (useTrendingInsights.loadTrending hookArgs c s l).result = .normal ()) ∧
    (∀ s l, (∀ q, c l.length q = .thrown err) →
      (useAverageMetric.loadAverage hookArgs c s l).state.average = s.average ∧
        (useAverageMetric.loadAverage hookArgs c s l).state.error ≠ .null ∧
        (useAverageMetric.loadAverage hookArgs c s l).state.loading = false ∧
        (useAverageMetric.loadAverage hookArgs c s l).result = .normal ()) ∧
    (∀ s l, (∀ q, c l.length q = .thrown err) →
      (useMetricsSummary.loadSummary hookArgs c s l).state.summary = s.summary ∧
        (useMetricsSummary.loadSummary hookArgs c s l).state.error ≠ .null ∧
        (useMetricsSummary.loadSummary hookArgs c s l).state.loading = false ∧
        (useMetricsSummary.loadSummary hookArgs c s l).result = .normal ()) ∧
    (∀ s l, (∀ q, c l.length q = .thrown err) →
      (usePerformanceBenchmarks.loadBenchmarks hookArgs c s l).state.benchmarks = s.benchmarks ∧
        (usePerformanceBenchmarks.loadBenchmarks hookArgs c s l).state.error ≠ .null ∧
        (usePerformanceBenchmarks.loadBenchmarks hookArgs c s l).state.loading = false ∧
        (usePerformanceBenchmarks.loadBenchmarks hookArgs c s l).result = .normal ()) ∧
    (∀ s l, (∀ q, c l.length q = .thrown err) →
      (useScheduleManagement.loadSchedules c s l).state.schedules = s.schedules ∧
        (useScheduleManagement.loadSchedules c s l).state.error ≠ .null ∧
        (useScheduleManagement.loadSchedules c s l).state.loading = false ∧
        (useScheduleManagement.loadSchedules c s l).result = .normal ()) := by
  refine ⟨?_, ?_, ?_, ?_, ?_, ?_, ?_, ?_⟩
  · intro s l h
    rw [(useMetricsByEntity.loadMetrics_byEntity_reject hookArgs c s l err h herr).1, (useMetricsByEntity.loadMetrics_byEntity_reject hookArgs c s l err h herr).2]
    exact ⟨rfl, rfl, or_str_ne_null _ _, rfl, rfl⟩
  · intro s l h
    rw [(useMetricsByPeriod.loadMetrics_byPeriod_reject hookArgs c s l err h herr).1, (useMetricsByPeriod.loadMetrics_byPeriod_reject hookArgs c s l err h herr).2]
    exact ⟨rfl, rfl, or_str_ne_null _ _, rfl, rfl⟩
  · intro s l h
    rw [(useMetricsByType.loadMetrics_byType_reject hookArgs c s l err h herr).1, (useMetricsByType.loadMetrics_byType_reject hookArgs c s l err h herr).2]
    exact ⟨rfl, rfl, or_str_ne_null _ _, rfl, rfl⟩
  · intro s l h
    rw [(useTrendingInsights.loadTrending_reject hookArgs c s l err h herr).1, (useTrendingInsights.loadTrending_reject hookArgs c s l err h herr).2]
    exact ⟨rfl, rfl, or_str_ne_null _ _, rfl, rfl⟩
  · intro s l h
    rw [(useAverageMetric.loadAverage_reject hookArgs c s l err h herr).1, (useAverageMetric.loadAverage_reject hookArgs c s l err h herr).2]
    exact ⟨rfl, or_str_ne_null _ _, rfl, rfl⟩
  · intro s l h
    rw [(useMetricsSummary.loadSummary_reject hookArgs c s l err h herr).1, (useMetricsSummary.loadSummary_reject hookArgs c s l err h herr).2]
    exact ⟨rfl, or_str_ne_null _ _, rfl, rfl⟩
  · intro s l h
    rw [(usePerformanceBenchmarks.loadBenchmarks_reject hookArgs c s l err h herr).1, (usePerformanceBenchmarks.loadBenchmarks_reject hookArgs c s l err h herr).2]
    exact ⟨rfl, or_str_ne_null _ _, rfl, rfl⟩
  · intro s l h
    rw [(useScheduleManagement.loadSchedules_reject c s l err h herr).1, (useScheduleManagement.loadSchedules_reject c s l err h herr).2]
    exact ⟨rfl, or_str_ne_null _ _, rfl, rfl⟩

/-- Witness of C3: a network error met by the first load of `useMetricsByEntity`
leaves the initial empty list and page count in place. -/
theorem read_load_failure_witness :
    (useMetricsByEntity.loadMetrics [.str "VEHICLE", .num 7]
        (fun _ _ => .thrown (.obj [("message", .str "Network Error")]))
        useMetricsByEntity.init []).state.metrics = .arr [] ∧
    (useMetricsByEntity.loadMetrics [.str "VEHICLE", .num 7]
        (fun _ _ => .thrown (.obj [("message", .str "Network Error")]))
        useMetricsByEntity.init []).result = .normal () :=
  ⟨((read_load_failure (fun _ _ => .thrown (.obj [("message", .str "Network Error")]))
      (.obj [("message", .str "Network Error")]) [.str "VEHICLE", .num 7] rfl).1
      useMetricsByEntity.init [] (fun _ => rfl)).1,
   ((read_load_failure (fun _ _ => .thrown (.obj [("message", .str "Network Error")]))
      (.obj [("message", .str "Network Error")]) [.str "VEHICLE", .num 7] rfl).1
      useMetricsByEntity.init [] (fun _ => rfl)).2.2.2.2⟩

/-! ## The stored error -/

/-- C4, counterexample: a transport error that carries the server message
"Dataset not found" beside its generic message; the load of
`useMetricsByEntity` stores the generic message, not the server message. -/
theorem stored_error_counterexample :
    serverMessage (.obj [("message", .str "Request failed with status code 400"),
        ("response", .obj [("data", .obj [("message", .str "Dataset not found")])])])
      = .str "Dataset not found" ∧
    (useMetricsByEntity.loadMetrics [.str "VEHICLE", .num 7]
      (fun _ _ => .thrown (.obj [("message", .str "Request failed with status code 400"),
        ("response", .obj [("data", .obj [("message", .str "Dataset not found")])])]))
      useMetricsByEntity.init []).state.error
      ≠ serverMessage (.obj [("message", .str "Request failed with status code 400"),
        ("response", .obj [("data", .obj [("message", .str "Dataset not found")])])]) := by
  refine ⟨rfl, ?_⟩
  rw [(useMetricsByEntity.loadMetrics_byEntity_reject [.str "VEHICLE", .num 7]
      (fun _ _ => .thrown (.obj [("message", .str "Request failed with status code 400"),
        ("response", .obj [("data", .obj [("message", .str "Dataset not found")])])]))
      useMetricsByEntity.init []
      (.obj [("message", .str "Request failed with status code 400"),
        ("response", .obj [("data", .obj [("message", .str "Dataset not found")])])]) (fun _ => rfl) rfl).1]
  simp [serverMessage, JsVal.field, JsVal.lookup, JsVal.or, JsVal.truthy]

/-- C4 as amended: for every operation of the hooks of `useMetrics.js` and
`useAdvancedAnalytics.js` whose wrapper call rejects with a transport error
`err`, the error stored is `err.message` when that is truthy and the fixed
fallback text of the operation otherwise; `err.response` plays no part. -/
theorem stored_error_is_transport_message (c : HttpClient) (err : JsVal) (hookArgs : List JsVal)
    (herr : err.isNullish = false) :
    (∀ metricData s l, (∀ q, c l.length q = .thrown err) →
      (useRecordMetric.recordMetric metricData c s l).state.error = (transportMessage err).or (.str "Failed to record metric")) ∧
    (∀ metricsList s l, (∀ q, c l.length q = .thrown err) →
      (useRecordMetric.recordBatch metricsList c s l).state.error = (transportMessage err).or (.str "Failed to record metrics")) ∧
    (∀ s l, (∀ q, c l.length q = .thrown err) →
      (useMetricsByEntity.loadMetrics hookArgs c s l).state.error = (transportMessage err).or (.str "Failed to load metrics")) ∧
    (∀ s l, (∀ q, c l.length q = .thrown err) →
      (useMetricsByPeriod.loadMetrics hookArgs c s l).state.error = (transportMessage err).or (.str "Failed to load metrics")) ∧
    (∀ s l, (∀ q, c l.length q = .thrown err) →
      (useAverageMetric.loadAverage hookArgs c s l).state.error = (transportMessage err).or (.str "Failed to load average")) ∧
    (∀ s l, (∀ q, c l.length q = .thrown err) →
      (useMetricsSummary.loadSummary hookArgs c s l).state.error = (transportMessage err).or (.str "Failed to load summary")) ∧
    (∀ s l, (∀ q, c l.length q = .thrown err) →
      (useMetricsByType.loadMetrics hookArgs c s l).state.error = (transportMessage err).or (.str "Failed to load metrics")) ∧
    (∀ reportId s l, (∀ q, c l.length q = .thrown err) →
      (useExportReport.exportPDF reportId c s l).state.error = (transportMessage err).or (.str "Failed to export PDF")) ∧
    (∀ reportId s l, (∀ q, c l.length q = .thrown err) →
      (useExportReport.exportExcel reportId c s l).state.error = (transportMessage err).or (.str "Failed to export Excel")) ∧
    (∀ reportId s l, (∀ q, c l.length q = .thrown err) →
      (useExportReport.exportCSV reportId c s l).state.error = (transportMessage err).or (.str "Failed to export CSV")) ∧
    (∀ reportId1 reportId2 s l, (∀ q, c l.length q = .thrown err) →
      (useCompareReports.compareReports reportId1 reportId2 c s l).state.error = (transportMessage err).or (.str "Failed to compare reports")) ∧
    (∀ s l, (∀ q, c l.length q = .thrown err) →
      (useScheduleManagement.loadSchedules c s l).state.error = (transportMessage err).or (.str "Failed to load schedules")) ∧
    (∀ scheduleData s l, (∀ q, c l.length q = .thrown err) →
      (useScheduleManagement.createSchedule scheduleData c s l).state.error = (transportMessage err).or (.str "Failed to create schedule")) ∧
    (∀ scheduleId updateData s l, (∀ q, c l.length q = .thrown err) →
      (useScheduleManagement.updateSchedule scheduleId updateData c s l).state.error = (transportMessage err).or (.str "Failed to update schedule")) ∧
    (∀ scheduleId s l, (∀ q, c l.length q = .thrown err) →
      (useScheduleManagement.toggleSchedule scheduleId c s l).state.error = (transportMessage err).or (.str "Failed to toggle schedule")) ∧
    (∀ scheduleId s l, (∀ q, c l.length q = .thrown err) →
      (useScheduleManagement.deleteSchedule scheduleId c s l).state.error = (transportMessage err).or (.str "Failed to delete schedule")) ∧
    (∀ s l, (∀ q, c l.length q = .thrown err) →
      (useTrendingInsights.loadTrending hookArgs c s l).state.error = (transportMessage err).or (.str "Failed to load trending insights")) ∧
    (∀ s l, (∀ q, c l.length q = .thrown err) →
      (usePerformanceBenchmarks.loadBenchmarks hookArgs c s l).state.error = (transportMessage err).or (.str "Failed to load benchmarks")) := by
  refine ⟨?_, ?_, ?_, ?_, ?_, ?_, ?_, ?_, ?_, ?_, ?_, ?_, ?_, ?_, ?_, ?_, ?_, ?_⟩
  · intro metricData s l h
    rw [(useRecordMetric.recordMetric_reject metricData c s l err h herr).1]
    rfl
  · intro metricsList s l h
    rw [(useRecordMetric.recordBatch_reject metricsList c s l err h herr).1]
    rfl
  · intro s l h
    rw [(useMetricsByEntity.loadMetrics_byEntity_reject hookArgs c s l err h herr).1]
    rfl
  · intro s l h
    rw [(useMetricsByPeriod.loadMetrics_byPeriod_reject hookArgs c s l err h herr).1]
    rfl
  · intro s l h
    rw [(useAverageMetric.loadAverage_reject hookArgs c s l err h herr).1]
    rfl
  · intro s l h
    rw [(useMetricsSummary.loadSummary_reject hookArgs c s l err h herr).1]
    rfl
  · intro s l h
    rw [(useMetricsByType.loadMetrics_byType_reject hookArgs c s l err h herr).1]
    rfl
  · intro reportId s l h
    rw [(useExportReport.exportPDF_reject reportId c s l err h herr).1]
    rfl
  · intro reportId s l h
    rw [(useExportReport.exportExcel_reject reportId c s l err h herr).1]
    rfl
  · intro reportId s l h
    rw [(useExportReport.exportCSV_reject reportId c s l err h herr).1]
    rfl
  · intro reportId1 reportId2 s l h
    rw [(useCompareReports.compareReports_reject reportId1 reportId2 c s l err h herr).1]
    rfl
  · intro s l h
    rw [(useScheduleManagement.loadSchedules_reject c s l err h herr).1]
    rfl
  · intro scheduleData s l h
    rw [(useScheduleManagement.createSchedule_reject scheduleData c s l err h herr).1]
    rfl
  · intro scheduleId updateData s l h
    rw [(useScheduleManagement.updateSchedule_reject scheduleId updateData c s l err h herr).1]
    rfl
  · intro scheduleId s l h
    rw [(useScheduleManagement.toggleSchedule_reject scheduleId c s l err h herr).1]
    rfl
  · intro scheduleId s l h
    rw [(useScheduleManagement.deleteSchedule_reject scheduleId c s l err h herr).1]
    rfl
  · intro s l h
    rw [(useTrendingInsights.loadTrending_reject hookArgs c s l err h herr).1]
    rfl
  · intro s l h
    rw [(usePerformanceBenchmarks.loadBenchmarks_reject hookArgs c s l err h herr).1]
    rfl

/-- Witness of C4 as amended: the error of the counterexample, met by
`recordMetric`, is stored as its generic message. -/
theorem stored_error_is_transport_message_witness :
    (useRecordMetric.recordMetric (.obj [])
      (fun _ _ => .thrown (.obj [("message", .str "Request failed with status code 400"),
        ("response", .obj [("data", .obj [("message", .str "Dataset not found")])])]))
      useRecordMetric.init []).state.error = .str "Request failed with status code 400" :=
  (stored_error_is_transport_message
    (fun _ _ => .thrown (.obj [("message", .str "Request failed with status code 400"),
        ("response", .obj [("data", .obj [("message", .str "Dataset not found")])])]))
    (.obj [("message", .str "Request failed with status code 400"),
        ("response", .obj [("data", .obj [("message", .str "Dataset not found")])])]) [] rfl).1 (.obj []) useRecordMetric.init [] (fun _ => rfl)

/-! ## The mount effects -/

/-- Truthiness of `a && b`. -/
theorem and_truthy (a b : JsVal) : (a.and b).truthy = (a.truthy && b.truthy) := by
  unfold JsVal.and
  cases h : a.truthy <;> simp [h]

/-- C6, counterexample: with entity type "VEHICLE" and entity id 0 both required
parameters of `useMetricsByEntity` are present, and the mount effect issues no
request. -/
theorem effect_presence_counterexample :
    (JsVal.str "VEHICLE").isPresent = true ∧ (JsVal.num 0).isPresent = true ∧
    (useMetricsByEntity.effect [.str "VEHICLE", .num 0] (fun _ _ => .normal (.obj []))
      useMetricsByEntity.init []).log = [] := by
  refine ⟨rfl, rfl, ?_⟩
  simp only [useMetricsByEntity.effect, and_truthy, arg_cons_zero, arg_cons_succ]
  simp [JsVal.truthy, Async.pure]

/-- C6 as amended: the mount effect of each read hook with required parameters
issues exactly one wrapper call, the one written here, when every required
parameter is truthy, and none otherwise (so `0`, the empty string, `NaN` and
`false` count as missing, like `null` and `undefined`). -/
theorem effect_issues_call_iff_truthy (c : HttpClient) (hookArgs : List JsVal) :
    (∀ s l, (useMetricsByEntity.effect hookArgs c s l).log =
      if ((arg hookArgs 0).truthy && (arg hookArgs 1).truthy) = true then
        l ++ [(⟨.get, [.lit BASE_URL, .lit "/metrics/entity/", .sub (arg hookArgs 0), .lit "/",
          .sub (arg hookArgs 1)], []⟩,
          { s with loading := true, error := .null })]
      else l) ∧
    (∀ s l, (useMetricsByPeriod.effect hookArgs c s l).log =
      if ((arg hookArgs 0).truthy && (arg hookArgs 1).truthy) = true then
        l ++ [(⟨.get, [.lit BASE_URL, .lit "/metrics/period/", .sub (arg hookArgs 0), .lit "/",
          .sub (arg hookArgs 1)],
          [.obj [("params", .obj [("startDate", arg hookArgs 2), ("endDate", arg hookArgs 3)])]]⟩,
          { s with loading := true, error := .null })]
      else l) ∧
    (∀ s l, (useAverageMetric.effect hookArgs c s l).log =
      if ((arg hookArgs 0).truthy && (arg hookArgs 1).truthy && (arg hookArgs 2).truthy && (arg hookArgs 3).truthy && (arg hookArgs 4).truthy) = true then
        l ++ [(⟨.get, [.lit BASE_URL, .lit "/metrics/average/", .sub (arg hookArgs 0), .lit "/",
          .sub (arg hookArgs 1)],
          [.obj [("params", .obj [("startDate", arg hookArgs 2), ("endDate", arg hookArgs 3)])]]⟩,
          { s with loading := true, error := .null })]
      else l) ∧
    (∀ s l, (useMetricsSummary.effect hookArgs c s l).log =
      if ((arg hookArgs 0).truthy && (arg hookArgs 1).truthy) = true then
        l ++ [(⟨.get, [.lit BASE_URL, .lit "/metrics/summary/", .sub (arg hookArgs 0), .lit "/",
          .sub (arg hookArgs 1)],
          [.obj [("params", .obj [("startDate", .undefined), ("endDate", .undefined)])]]⟩,
          { s with loading := true, error := .null })]
      else l) ∧
    (∀ s l, (useMetricsByType.effect hookArgs c s l).log =
      if ((arg hookArgs 0).truthy) = true then
        l ++ [(⟨.get, [.lit BASE_URL, .lit "/metrics/type/", .sub (arg hookArgs 0)], []⟩,
          { s with loading := true, error := .null })]
      else l) ∧
    (∀ s l, (usePerformanceBenchmarks.effect hookArgs c s l).log =
      if ((arg hookArgs 0).truthy) = true then
        l ++ [(⟨.get, [.lit BASE_URL, .lit "/advanced/benchmarks/", .sub (arg hookArgs 0)], []⟩,
          { s with loading := true, error := .null })]
      else l) := by
  refine ⟨?_, ?_, ?_, ?_, ?_, ?_⟩
  · intro s l
    simp only [useMetricsByEntity.effect, and_truthy]
    split <;> simp_all [useMetricsByEntity.loadMetrics_byEntity_log, Async.pure]
  · intro s l
    simp only [useMetricsByPeriod.effect, and_truthy]
    split <;> simp_all [useMetricsByPeriod.loadMetrics_byPeriod_log, Async.pure]
  · intro s l
    simp only [useAverageMetric.effect, and_truthy]
    split <;> simp_all [useAverageMetric.loadAverage_log, Async.pure]
  · intro s l
    simp only [useMetricsSummary.effect, and_truthy]
    split <;> simp_all [useMetricsSummary.loadSummary_log, Async.pure]
  · intro s l
    simp only [useMetricsByType.effect, and_truthy]
    split <;> simp_all [useMetricsByType.loadMetrics_byType_log, Async.pure]
  · intro s l
    simp only [usePerformanceBenchmarks.effect, and_truthy]
    split <;> simp_all [usePerformanceBenchmarks.loadBenchmarks_log, Async.pure]

/-! ## The requests the hooks issue -/

/-- The request issued by the load of each pagination-aware hook, for every
page and size given to the hook: it carries neither a `page` nor a `size`
parameter (the wrappers take no such arguments and drop them); the request of
`useTrendingInsights` does carry the `days` window. -/
theorem pagination_parameters_dropped_all (c : HttpClient) (hookArgs : List JsVal) :
    (∀ s l, ∃ q st, (useMetricsByEntity.loadMetrics hookArgs c s l).log = l ++ [(q, st)] ∧
      q.param "page" = .undefined ∧ q.param "size" = .undefined) ∧
    (∀ s l, ∃ q st, (useMetricsByPeriod.loadMetrics hookArgs c s l).log = l ++ [(q, st)] ∧
      q.param "page" = .undefined ∧ q.param "size" = .undefined) ∧
    (∀ s l, ∃ q st, (useMetricsByType.loadMetrics hookArgs c s l).log = l ++ [(q, st)] ∧
      q.param "page" = .undefined ∧ q.param "size" = .undefined) ∧
    (∀ s l, ∃ q st, (useTrendingInsights.loadTrending hookArgs c s l).log = l ++ [(q, st)] ∧
      q.param "page" = .undefined ∧ q.param "size" = .undefined ∧
      q.param "days" = argOr hookArgs 0 (.num 7)) := by
  refine ⟨?_, ?_, ?_, ?_⟩
  · intro s l
    exact ⟨_, _, useMetricsByEntity.loadMetrics_byEntity_log hookArgs c s l, rfl, rfl⟩
  · intro s l
    exact ⟨_, _, useMetricsByPeriod.loadMetrics_byPeriod_log hookArgs c s l, rfl, rfl⟩
  · intro s l
    exact ⟨_, _, useMetricsByType.loadMetrics_byType_log hookArgs c s l, rfl, rfl⟩
  · intro s l
    exact ⟨_, _, useTrendingInsights.loadTrending_log hookArgs c s l, rfl, rfl, rfl⟩

/-- The requests issued by `useMetricsByPeriod(startDate, endDate,
metricType, aggregationPeriod, page, size)` and by `useAverageMetric(entityType,
entityId, metricType, startDate, endDate)`. The first puts the hook's
`startDate` and `endDate` (arguments 0 and 1) in the path and sends
`metricType` and `aggregationPeriod` (arguments 2 and 3) as the query
parameters `startDate` and `endDate`; the second puts `entityType` and
`entityId` in the path and sends `metricType` and the hook's `startDate` as the
query parameters `startDate` and `endDate`. -/
theorem period_and_average_requests_all (c : HttpClient) (hookArgs : List JsVal) :
    (∀ s l, ∃ q st, (useMetricsByPeriod.loadMetrics hookArgs c s l).log = l ++ [(q, st)] ∧
      q.url = [.lit "/analytics/api", .lit "/metrics/period/", .sub (arg hookArgs 0), .lit "/",
        .sub (arg hookArgs 1)] ∧
      q.param "startDate" = arg hookArgs 2 ∧ q.param "endDate" = arg hookArgs 3) ∧
    (∀ s l, ∃ q st, (useAverageMetric.loadAverage hookArgs c s l).log = l ++ [(q, st)] ∧
      q.url = [.lit "/analytics/api", .lit "/metrics/average/", .sub (arg hookArgs 0), .lit "/",
        .sub (arg hookArgs 1)] ∧
      q.param "startDate" = arg hookArgs 2 ∧ q.param "endDate" = arg hookArgs 3) := by
  refine ⟨?_, ?_⟩
  · intro s l
    exact ⟨_, _, useMetricsByPeriod.loadMetrics_byPeriod_log hookArgs c s l, rfl, rfl, rfl⟩
  · intro s l
    exact ⟨_, _, useAverageMetric.loadAverage_log hookArgs c s l, rfl, rfl, rfl⟩

/-- The operation `compareReports(a, b)` of `useCompareReports` issues exactly one POST to
`/analytics/api/advanced/reports/compare`; the body field `reportIds` is the
first id `a` itself, not an array, and the second id `b` is not sent; when the
request resolves with a response object, its payload is stored as `comparison`
and returned. -/
theorem compare_reports_request_all (a b : JsVal) (c : HttpClient) (s : useCompareReports.State)
    (l : List (Request × useCompareReports.State)) :
    (∃ q st, (useCompareReports.compareReports a b c s l).log = l ++ [(q, st)] ∧
      q.method = .post ∧
      q.url = [.lit "/analytics/api", .lit "/advanced/reports/compare"] ∧
      q.body = .obj [("reportIds", a)]) ∧
    (∀ r, (∀ q, c l.length q = .normal r) → r.isNullish = false →
      (useCompareReports.compareReports a b c s l).state.comparison = r.field "data" ∧
      (useCompareReports.compareReports a b c s l).result = .normal (r.field "data")) := by
  refine ⟨⟨_, _, useCompareReports.compareReports_log a b c s l, rfl, rfl, rfl⟩, ?_⟩
  intro r h hr
  rw [(useCompareReports.compareReports_resolve a b c s l r h hr).1,
    (useCompareReports.compareReports_resolve a b c s l r h hr).2]
  exact ⟨rfl, rfl⟩

/-- C7 at `useMetricsByType("PERFORMANCE", 2, 20)`: the load issues the single
request `GET /analytics/api/metrics/type/PERFORMANCE` with no configuration, so
the page 2 and the size 20 given to the hook are not in the request. -/
theorem pagination_parameters_dropped :
    ∃ q, (useMetricsByType.loadMetrics [.str "PERFORMANCE", .num 2, .num 20]
        (fun _ _ => .normal (.obj [("data", .obj [])])) useMetricsByType.init []).log
        = [(q, { useMetricsByType.init with loading := true })] ∧
      q = ⟨.get, [.lit "/analytics/api", .lit "/metrics/type/", .sub (.str "PERFORMANCE")], []⟩ ∧
      q.param "page" = .undefined ∧ q.param "size" = .undefined := by
  refine ⟨_, ?_, rfl, rfl, rfl⟩
  rw [useMetricsByType.loadMetrics_byType_log]
  rfl

/-- C8 at `useMetricsByPeriod("2024-01-01", "2024-01-31", "SPEED", "DAY", 0, 50)`
and `useAverageMetric("VEHICLE", 7, "SPEED", "2024-01-01", "2024-01-31")`: the
first request has the two dates as its path segments and sends `startDate =
"SPEED"`, `endDate = "DAY"`; the second has the path segments `VEHICLE` and `7`
(the entity id, where the wrapper documents a metric name) and sends `startDate
= "SPEED"`, `endDate = "2024-01-01"`. -/
theorem period_and_average_requests :
    (∃ q, (useMetricsByPeriod.loadMetrics
          [.str "2024-01-01", .str "2024-01-31", .str "SPEED", .str "DAY", .num 0, .num 50]
          (fun _ _ => .normal (.obj [("data", .obj [])])) useMetricsByPeriod.init []).log
          = [(q, { useMetricsByPeriod.init with loading := true })] ∧
        q = ⟨.get, [.lit "/analytics/api", .lit "/metrics/period/", .sub (.str "2024-01-01"),
          .lit "/", .sub (.str "2024-01-31")],
          [.obj [("params", .obj [("startDate", .str "SPEED"), ("endDate", .str "DAY")])]]⟩ ∧
        q.param "startDate" = .str "SPEED" ∧ q.param "endDate" = .str "DAY") ∧
    (∃ q, (useAverageMetric.loadAverage
          [.str "VEHICLE", .num 7, .str "SPEED", .str "2024-01-01", .str "2024-01-31"]
          (fun _ _ => .normal (.obj [("data", .num 42)])) useAverageMetric.init []).log
          = [(q, { useAverageMetric.init with loading := true })] ∧
        q = ⟨.get, [.lit "/analytics/api", .lit "/metrics/average/", .sub (.str "VEHICLE"),
          .lit "/", .sub (.num 7)],
          [.obj [("params", .obj [("startDate", .str "SPEED"), ("endDate", .str "2024-01-01")])]]⟩ ∧
        q.param "startDate" = .str "SPEED" ∧ q.param "endDate" = .str "2024-01-01") := by
  refine ⟨⟨_, ?_, rfl, rfl, rfl⟩, ⟨_, ?_, rfl, rfl, rfl⟩⟩
  · rw [useMetricsByPeriod.loadMetrics_byPeriod_log]
    rfl
  · rw [useAverageMetric.loadAverage_log]
    rfl

/-- C9 at `compareReports(1, 2)`: the single request is a POST to
`/analytics/api/advanced/reports/compare` whose body is `{ reportIds: 1 }`: the
field is the number 1, not an array, and the id 2 is nowhere in the request. -/
theorem compare_reports_request :
    ∃ q, (useCompareReports.compareReports (.num 1) (.num 2)
        (fun _ _ => .normal (.obj [("data", .obj [])])) useCompareReports.init []).log
        = [(q, { useCompareReports.init with loading := true })] ∧
      q = ⟨.post, [.lit "/analytics/api", .lit "/advanced/reports/compare"],
        [.obj [("reportIds", .num 1)]]⟩ ∧
      q.body.field "reportIds" = .num 1 ∧ (q.body.field "reportIds").isArray = false := by
  refine ⟨_, ?_, rfl, rfl, rfl⟩
  rw [useCompareReports.compareReports_log]
  rfl

/-! ## The page count -/

/-- A page count `n || 0` is `n`. -/
theorem num_or_zero (n : Int) : (JsVal.num n).or (.num 0) = .num n := by
  unfold JsVal.or
  split
  · rfl
  · simp_all [JsVal.truthy]

/-- An absent value `v || d` is `d`. -/
theorem nullish_or (v d : JsVal) (h : v.isNullish = true) : v.or d = d := by
  cases v <;> simp_all [JsVal.isNullish, JsVal.or, JsVal.truthy]

/-- C10: when the wrapper call of a pagination-aware load resolves with a
response `r` whose envelope is `r.data`, the load ends with `totalPages` equal
to the page count of the envelope, and equal to 0 when the envelope carries
none. -/
theorem total_pages_from_envelope (c : HttpClient) (r : JsVal) (hookArgs : List JsVal)
    (hr : r.isNullish = false) (hd : (r.field "data").isNullish = false) :
    (∀ s l, (∀ q, c l.length q = .normal r) →
      (∀ n : Int, (r.field "data").field "totalPages" = .num n →
        (useMetricsByEntity.loadMetrics hookArgs c s l).state.totalPages = .num n) ∧
      (((r.field "data").field "totalPages").isNullish = true →
        (useMetricsByEntity.loadMetrics hookArgs c s l).state.totalPages = .num 0)) ∧
    (∀ s l, (∀ q, c l.length q = .normal r) →
      (∀ n : Int, (r.field "data").field "totalPages" = .num n →
        (useMetricsByPeriod.loadMetrics hookArgs c s l).state.totalPages = .num n) ∧
      (((r.field "data").field "totalPages").isNullish = true →
        (useMetricsByPeriod.loadMetrics hookArgs c s l).state.totalPages = .num 0)) ∧
    (∀ s l, (∀ q, c l.length q = .normal r) →
      (∀ n : Int, (r.field "data").field "totalPages" = .num n →
        (useMetricsByType.loadMetrics hookArgs c s l).state.totalPages = .num n) ∧
      (((r.field "data").field "totalPages").isNullish = true →
        (useMetricsByType.loadMetrics hookArgs c s l).state.totalPages = .num 0)) ∧
    (∀ s l, (∀ q, c l.length q = .normal r) →
      (∀ n : Int, (r.field "data").field "totalPages" = .num n →
        (useTrendingInsights.loadTrending hookArgs c s l).state.totalPages = .num n) ∧
      (((r.field "data").field "totalPages").isNullish = true →
        (useTrendingInsights.loadTrending hookArgs c s l).state.totalPages = .num 0)) := by
  refine ⟨?_, ?_, ?_, ?_⟩
  · intro s l h
    rw [(useMetricsByEntity.loadMetrics_byEntity_resolve hookArgs c s l r h hr hd).1]
    exact ⟨fun n hn => by rw [hn]; exact num_or_zero n, fun hn => nullish_or _ _ hn⟩
  · intro s l h
    rw [(useMetricsByPeriod.loadMetrics_byPeriod_resolve hookArgs c s l r h hr hd).1]
    exact ⟨fun n hn => by rw [hn]; exact num_or_zero n, fun hn => nullish_or _ _ hn⟩
  · intro s l h
    rw [(useMetricsByType.loadMetrics_byType_resolve hookArgs c s l r h hr hd).1]
    exact ⟨fun n hn => by rw [hn]; exact num_or_zero n, fun hn => nullish_or _ _ hn⟩
  · intro s l h
    rw [(useTrendingInsights.loadTrending_resolve hookArgs c s l r h hr hd).1]
    exact ⟨fun n hn => by rw [hn]; exact num_or_zero n, fun hn => nullish_or _ _ hn⟩

/-- Witness of C10: an envelope with three pages, loaded by `useMetricsByEntity`. -/
theorem total_pages_from_envelope_witness :
    (useMetricsByEntity.loadMetrics [.str "VEHICLE", .num 7]
      (fun _ _ => .normal (.obj [("data", .obj [("content", .arr [.str "m1"]), ("totalPages", .num 3)])]))
      useMetricsByEntity.init []).state.totalPages = .num 3 :=
  ((total_pages_from_envelope
    (fun _ _ => .normal (.obj [("data", .obj [("content", .arr [.str "m1"]), ("totalPages", .num 3)])]))
    (.obj [("data", .obj [("content", .arr [.str "m1"]), ("totalPages", .num 3)])]) [.str "VEHICLE", .num 7] rfl rfl).1
    useMetricsByEntity.init [] (fun _ => rfl)).1 3 rfl
/-! ## Lemmas on `parseInt` -/

/-- The character of a decimal digit has the code of that digit. -/
theorem digitChar_toNat (d : Nat) (h : d < 10) : (Nat.digitChar d).toNat = 48 + d := by
  interval_cases d <;> rfl

/-- A character with the code of a decimal digit is read as that digit. -/
theorem digitValue_ten (c : Char) (h1 : 48 ≤ c.toNat) (h2 : c.toNat ≤ 57) :
    digitValue 10 c = some (c.toNat - 48) := by
  have h3 : c.toNat - 48 < 10 := by omega
  simp [digitValue, h1, h2, h3]

/-- Reading digits across a run of decimal digits. -/
theorem parseDigits_append (xs ys : List Char) (acc : Option Nat)
    (hx : ∀ c ∈ xs, 48 ≤ c.toNat ∧ c.toNat ≤ 57) :
    parseDigits 10 (xs ++ ys) acc = parseDigits 10 ys (parseDigits 10 xs acc) := by
  induction xs generalizing acc with
  | nil => rfl
  | cons c cs ih =>
    have hc := hx c (List.mem_cons_self c cs)
    simp only [List.cons_append, parseDigits, digitValue_ten c hc.1 hc.2]
    exact ih _ (fun x hxm => hx x (List.mem_cons_of_mem c hxm))

/-- The digits Lean prints for `n`: a non-empty run of decimal digits that is
read back as `n`. -/
theorem toDigitsCore_spec (fuel : Nat) : ∀ (n : Nat) (ds : List Char), n < fuel →
    ∃ pre, Nat.toDigitsCore 10 fuel n ds = pre ++ ds ∧ pre ≠ [] ∧
      (∀ c ∈ pre, 48 ≤ c.toNat ∧ c.toNat ≤ 57) ∧
      ∀ acc : Option Nat, parseDigits 10 pre acc = some (acc.getD 0 * 10 ^ pre.length + n) := by
  induction fuel with
  | zero => intro n ds h; omega
  | succ f ih =>
    intro n ds h
    have hd : (Nat.digitChar (n % 10)).toNat = 48 + n % 10 :=
      digitChar_toNat _ (Nat.mod_lt _ (by decide))
    have hv : digitValue 10 (Nat.digitChar (n % 10)) = some (n % 10) := by
      rw [digitValue_ten _ (by omega) (by omega), hd]
      simp
    simp only [Nat.toDigitsCore]
    by_cases h0 : n / 10 = 0
    · refine ⟨[Nat.digitChar (n % 10)], ?_, by simp, ?_, ?_⟩
      · simp [h0]
      · intro c hc
        simp only [List.mem_singleton] at hc
        subst hc
        omega
      · intro acc
        have hn : n % 10 = n := Nat.mod_eq_of_lt (by omega)
        simp only [parseDigits, hv, List.length_singleton, pow_one]
        rw [hn]
    · obtain ⟨pre, hpre, _, hdig, hval⟩ := ih (n / 10) (Nat.digitChar (n % 10) :: ds) (by omega)
      refine ⟨pre ++ [Nat.digitChar (n % 10)], ?_, by simp, ?_, ?_⟩
      · simp [h0, hpre]
      · intro c hc
        rcases List.mem_append.1 hc with hc | hc
        · exact hdig c hc
        · simp only [List.mem_singleton] at hc
          subst hc
          omega
      · intro acc
        rw [parseDigits_append _ _ _ hdig, hval acc]
        simp only [parseDigits, hv, Option.getD_some, List.length_append, List.length_singleton]
        congr 1
        have := Nat.div_add_mod n 10
        rw [pow_succ]
        nlinarith [Nat.div_add_mod n 10]

/-- A natural number below `2 ^ 53` is its own Number value. -/
theorem nearestDouble_of_lt (n : Nat) (hn : n < 2 ^ 53) : nearestDouble n = some n := by
  simp only [nearestDouble, hn, if_true]

/-- Values of `nearestDouble` around `2 ^ 53`, where the doubles are the even
numbers (a tie goes to the even significand), around `2 ^ 54`, where they are
the multiples of 4, and at the largest double and past it. -/
theorem nearestDouble_samples :
    nearestDouble (2 ^ 53) = some (2 ^ 53) ∧
    nearestDouble (2 ^ 53 + 1) = some (2 ^ 53) ∧
    nearestDouble (2 ^ 53 + 2) = some (2 ^ 53 + 2) ∧
    nearestDouble (2 ^ 53 + 3) = some (2 ^ 53 + 4) ∧
    nearestDouble (2 ^ 54 - 1) = some (2 ^ 54) ∧
    nearestDouble (2 ^ 54 + 2) = some (2 ^ 54) ∧
    nearestDouble (2 ^ 54 + 3) = some (2 ^ 54 + 4) ∧
    nearestDouble (2 ^ 54 + 6) = some (2 ^ 54 + 8) ∧
    nearestDouble ((2 ^ 53 - 1) * 2 ^ 971) = some ((2 ^ 53 - 1) * 2 ^ 971) ∧
    nearestDouble ((2 ^ 53 - 1) * 2 ^ 971 + 2 ^ 969) = some ((2 ^ 53 - 1) * 2 ^ 971) ∧
    nearestDouble ((2 ^ 53 - 1) * 2 ^ 971 + 2 ^ 970) = none ∧
    nearestDouble (2 ^ 1024) = none := by
  refine ⟨?_, ?_, ?_, ?_, ?_, ?_, ?_, ?_, ?_, ?_, ?_, ?_⟩ <;> decide!

/-- On a non-empty run of decimal digits with a value below `2 ^ 53`, `parseInt`
reads the whole run. -/
theorem parseInt_of_digits (cs : List Char) (n : Nat) (hne : cs ≠ [])
    (hdig : ∀ c ∈ cs, 48 ≤ c.toNat ∧ c.toNat ≤ 57)
    (hval : parseDigits 10 cs none = some n) (hn : n < 2 ^ 53) :
    parseInt (String.mk cs) = .num n := by
  cases cs with
  | nil => exact absurd rfl hne
  | cons c rest =>
    have hc := hdig c (List.mem_cons_self c rest)
    have hws : isWhiteSpace c = false := by
      simp only [isWhiteSpace]
      simp
      omega
    have hdrop : (c :: rest).dropWhile isWhiteSpace = c :: rest := by
      simp [List.dropWhile, hws]
    have hsign : stripSign (c :: rest) = (false, c :: rest) := by
      have h45 : c.toNat ≠ 45 := by omega
      have h43 : c.toNat ≠ 43 := by omega
      simp [stripSign, h45, h43]
    have hradix : stripRadix (c :: rest) = (10, c :: rest) := by
      cases rest with
      | nil => rfl
      | cons d rest2 =>
        have hd := hdig d (List.mem_cons_of_mem c (List.mem_cons_self d rest2))
        have h1 : d.toNat ≠ 120 := by omega
        have h2 : d.toNat ≠ 88 := by omega
        simp [stripRadix, h1, h2]
    simp only [parseInt, hdrop, hsign, hradix, hval, nearestDouble_of_lt n hn]
    simp

/-- The function `parseInt` reads the decimal string of `n` back as `n`, for `n`
below `2 ^ 53`. -/
theorem parseInt_toString (n : Nat) (hn : n < 2 ^ 53) : parseInt (toString n) = .num n := by
  obtain ⟨pre, hpre, hne, hdig, hval⟩ := toDigitsCore_spec (n + 1) n [] (Nat.lt_succ_self n)
  have hs : toString n = String.mk pre := by
    show Nat.repr n = String.mk pre
    simp only [Nat.repr, Nat.toDigits, hpre, List.append_nil, List.asString]
  rw [hs]
  exact parseInt_of_digits pre n hne hdig (by simpa using hval none) hn


/-! ## The badges -/

/-- C11: for every confidence value `c`, an exact rational, the badge of
`getConfidenceBadge(c)` is the green `High` badge exactly when `c ≥ 0.8`, the
yellow `Medium` badge exactly when `0.6 ≤ c < 0.8`, and the red `Low` badge
exactly when `c < 0.6`; in particular 0.79 gives Medium, 0.80 gives High and 0.59
gives Low, each boundary belonging to the higher band. -/
theorem confidence_bands (c : ℚ) :
    (PredictionsList.getConfidenceBadge c =
        { className := [.lit "px-2 py-1 bg-green-100 text-green-800 text-xs rounded-full"],
          children := .str "High" } ↔ 0.8 ≤ c) ∧
    (PredictionsList.getConfidenceBadge c =
        { className := [.lit "px-2 py-1 bg-yellow-100 text-yellow-800 text-xs rounded-full"],
          children := .str "Medium" } ↔ 0.6 ≤ c ∧ c < 0.8) ∧
    (PredictionsList.getConfidenceBadge c =
        { className := [.lit "px-2 py-1 bg-red-100 text-red-800 text-xs rounded-full"],
          children := .str "Low" } ↔ c < 0.6) ∧
    (PredictionsList.getConfidenceBadge 0.79).children = .str "Medium" ∧
    (PredictionsList.getConfidenceBadge 0.80).children = .str "High" ∧
    (PredictionsList.getConfidenceBadge 0.59).children = .str "Low" ∧
    (PredictionsList.getConfidenceBadge 0.6).children = .str "Medium" := by
  refine ⟨?_, ?_, ?_, ?_, ?_, ?_, ?_⟩
  · unfold PredictionsList.getConfidenceBadge
    by_cases h1 : c ≥ 0.8 <;> by_cases h2 : c ≥ 0.6 <;> simp [h1, h2]
  · unfold PredictionsList.getConfidenceBadge
    by_cases h1 : c ≥ 0.8 <;> by_cases h2 : c ≥ 0.6 <;> simp [h1, h2]
    linarith
  · unfold PredictionsList.getConfidenceBadge
    by_cases h1 : c ≥ 0.8 <;> by_cases h2 : c ≥ 0.6 <;> simp [h1, h2] <;> linarith
  · unfold PredictionsList.getConfidenceBadge
    norm_num
  · unfold PredictionsList.getConfidenceBadge
    norm_num
  · unfold PredictionsList.getConfidenceBadge
    norm_num
  · unfold PredictionsList.getConfidenceBadge
    norm_num


/-- The status badge of the four known statuses and of a status string that is
neither one of them nor the name of a property inherited from
`Object.prototype`: yellow, blue, green, red, and the default gray. The two
components share the function. -/
theorem status_badge_styles (status : String) :
    ReportsList.getStatusBadge status = PredictionsList.getStatusBadge status ∧
    (ReportsList.getStatusBadge "PENDING").className =
      [.lit "px-2 py-1 rounded-full text-xs font-semibold ", .sub (.str "bg-yellow-100 text-yellow-800")] ∧
    (ReportsList.getStatusBadge "PROCESSING").className =
      [.lit "px-2 py-1 rounded-full text-xs font-semibold ", .sub (.str "bg-blue-100 text-blue-800")] ∧
    (ReportsList.getStatusBadge "COMPLETED").className =
      [.lit "px-2 py-1 rounded-full text-xs font-semibold ", .sub (.str "bg-green-100 text-green-800")] ∧
    (ReportsList.getStatusBadge "FAILED").className =
      [.lit "px-2 py-1 rounded-full text-xs font-semibold ", .sub (.str "bg-red-100 text-red-800")] ∧
    (ReportsList.statusStyles.lookup status = none →
      JsVal.lookup status objectPrototype = .undefined →
      (ReportsList.getStatusBadge status).className =
        [.lit "px-2 py-1 rounded-full text-xs font-semibold ", .sub (.str "bg-gray-100 text-gray-800")]) := by
  refine ⟨rfl, rfl, rfl, rfl, rfl, ?_⟩
  intro h1 h2
  simp [ReportsList.getStatusBadge, literalGet, h1, h2, JsVal.or, JsVal.truthy]

/-- C12 at the status strings "UNKNOWN", "" and "constructor": the first two get
the default gray style; for "constructor" the read `statusStyles[status]` finds
the function inherited from `Object.prototype`, which is truthy, so the class
name carries that function and not the gray style. So it is in both
components. -/
theorem status_badge_constructor :
    (ReportsList.getStatusBadge "UNKNOWN").className =
      [.lit "px-2 py-1 rounded-full text-xs font-semibold ", .sub (.str "bg-gray-100 text-gray-800")] ∧
    (ReportsList.getStatusBadge "").className =
      [.lit "px-2 py-1 rounded-full text-xs font-semibold ", .sub (.str "bg-gray-100 text-gray-800")] ∧
    (ReportsList.getStatusBadge "constructor").className =
      [.lit "px-2 py-1 rounded-full text-xs font-semibold ", .sub (builtinFunction "Object")] ∧
    (PredictionsList.getStatusBadge "constructor").className =
      [.lit "px-2 py-1 rounded-full text-xs font-semibold ", .sub (builtinFunction "Object")] ∧
    (ReportsList.getStatusBadge "constructor").className ≠
      [.lit "px-2 py-1 rounded-full text-xs font-semibold ", .sub (.str "bg-gray-100 text-gray-800")] ∧
    (PredictionsList.getStatusBadge "constructor").className ≠
      [.lit "px-2 py-1 rounded-full text-xs font-semibold ", .sub (.str "bg-gray-100 text-gray-800")] := by
  refine ⟨rfl, rfl, rfl, rfl, ?_, ?_⟩
  · intro h
    have h2 : (ReportsList.getStatusBadge "constructor").className =
        [.lit "px-2 py-1 rounded-full text-xs font-semibold ", .sub (builtinFunction "Object")] := rfl
    rw [h2] at h
    simp [builtinFunction] at h
  · intro h
    have h2 : (PredictionsList.getStatusBadge "constructor").className =
        [.lit "px-2 py-1 rounded-full text-xs font-semibold ", .sub (builtinFunction "Object")] := rfl
    rw [h2] at h
    simp [builtinFunction] at h


/-! ## Runs of the handlers of `ReportsList` -/

namespace ReportsList

/-- The payload `{ ...formData, datasetId: parseInt(formData.datasetId) }`
that `handleSubmit` hands to `create`. -/
theorem submit_payload (f : FormData) :
    setField "datasetId" (parseInt f.datasetId) f.fields =
      [("reportType", .str f.reportType), ("datasetId", parseInt f.datasetId), ("title", .str f.title),
       ("description", .str f.description), ("parameters", f.parameters)] := rfl

/-- The handler `handleSubmit` when `create` resolves. -/
theorem handleSubmit_resolve (env : Collaborators) (s : State) (l : List (Call × State)) (r : JsVal)
    (h : ∀ call, env l.length call = .normal r) :
    handleSubmit env s l =
      ⟨.normal (),
        { showCreateForm := false, selectedReportId := s.selectedReportId, formData := init.formData },
        l ++ [(.create (.obj (setField "datasetId" (parseInt s.formData.datasetId) s.formData.fields)), s),
          (.refetch,
            { showCreateForm := false, selectedReportId := s.selectedReportId,
              formData := init.formData })]⟩ := by
  simp [handleSubmit, setFormData, setShowCreateForm, init, tryCatch, tryCatchThe,
    MonadExcept.tryCatch, bind, pure, Handler.bind, Handler.pure, Handler.tryCatch, Handler.modify,
    Handler.read, Handler.await, Handler.fire, Handler.consoleError, h]

/-- The handler `handleSubmit` when `create` rejects. -/
theorem handleSubmit_reject (env : Collaborators) (s : State) (l : List (Call × State)) (e : JsVal)
    (h : ∀ call, env l.length call = .thrown e) :
    handleSubmit env s l =
      ⟨.normal (), s,
        l ++ [(.create (.obj (setField "datasetId" (parseInt s.formData.datasetId) s.formData.fields)),
          s)]⟩ := by
  simp [handleSubmit, setFormData, setShowCreateForm, init, tryCatch, tryCatchThe,
    MonadExcept.tryCatch, bind, pure, Handler.bind, Handler.pure, Handler.tryCatch, Handler.modify,
    Handler.read, Handler.await, Handler.fire, Handler.consoleError, h]

/-- The calls of `handleSubmit`, whatever `create` answers: one `create` with
the payload, then nothing but the refetch. -/
theorem handleSubmit_log (env : Collaborators) (s : State) (l : List (Call × State)) :
    ∃ rest, (handleSubmit env s l).log =
        l ++ (.create (.obj (setField "datasetId" (parseInt s.formData.datasetId) s.formData.fields)), s)
          :: rest ∧
      ∀ entry ∈ rest, entry.1 = Call.refetch := by
  simp only [handleSubmit, setFormData, setShowCreateForm, tryCatch, tryCatchThe,
    MonadExcept.tryCatch, bind, pure, Handler.bind, Handler.pure, Handler.tryCatch, Handler.modify,
    Handler.read, Handler.await, Handler.fire, Handler.consoleError]
  generalize env l.length _ = out
  cases out with
  | normal r =>
    exact ⟨[(.refetch,
      { showCreateForm := false, selectedReportId := s.selectedReportId,
        formData :=
          { reportType := "BATTERY_HEALTH", datasetId := "", title := "", description := "",
            parameters := .obj [] } })], by simp, by simp⟩
  | thrown e => exact ⟨[], by simp, by simp⟩

end ReportsList

/-! ## The create form of `ReportsList` -/

/-- C13, counterexample: the form field `datasetId` holds
`"9007199254740993"`, the decimal string of `2 ^ 53 + 1`; `handleSubmit` calls
`create` with `datasetId` equal to `9007199254740992`, the nearest double, which
is not that integer. -/
theorem submit_dataset_id_counterexample :
    "9007199254740993" = toString (2 ^ 53 + 1 : Nat) ∧
    (∃ rest, (ReportsList.handleSubmit (fun _ _ => .normal .undefined)
        { ReportsList.init with
          formData := { ReportsList.init.formData with datasetId := "9007199254740993" } } []).log =
        (.create (.obj
          [("reportType", .str "BATTERY_HEALTH"), ("datasetId", .num 9007199254740992),
           ("title", .str ""), ("description", .str ""), ("parameters", .obj [])]),
          { ReportsList.init with
            formData := { ReportsList.init.formData with datasetId := "9007199254740993" } })
          :: rest) ∧
    (9007199254740992 : Int) ≠ ((2 ^ 53 + 1 : Nat) : Int) := by
  refine ⟨by decide, ?_, by decide⟩
  obtain ⟨rest, h1, _⟩ := ReportsList.handleSubmit_log (fun _ _ => .normal .undefined)
    { ReportsList.init with
      formData := { ReportsList.init.formData with datasetId := "9007199254740993" } } []
  exact ⟨rest, by rw [h1, ReportsList.submit_payload]; rfl⟩

/-- C13 as amended: for every state of `ReportsList` whose form field
`datasetId` is the decimal string of a natural number `n` below `2 ^ 53` (a safe
integer, which a JavaScript number holds exactly), `handleSubmit` calls `create`
exactly once (the only other call it can make is the refetch), with a payload
that has the fields of the form data and `datasetId` equal to the integer `n`. -/
theorem submit_sends_integer_dataset_id (env : Collaborators) (s : ReportsList.State)
    (l : List (Call × ReportsList.State)) (n : Nat) (hn : n < 2 ^ 53)
    (h : s.formData.datasetId = toString n) :
    ∃ rest, (ReportsList.handleSubmit env s l).log =
        l ++ (.create (.obj
          [("reportType", .str s.formData.reportType), ("datasetId", .num n),
           ("title", .str s.formData.title), ("description", .str s.formData.description),
           ("parameters", s.formData.parameters)]), s) :: rest ∧
      ∀ entry ∈ rest, entry.1 = Call.refetch := by
  obtain ⟨rest, h1, h2⟩ := ReportsList.handleSubmit_log env s l
  refine ⟨rest, ?_, h2⟩
  rw [h1, ReportsList.submit_payload, h, parseInt_toString n hn]

/-- Witness of C13 as amended: the form with `datasetId: "42"` submits
`datasetId: 42`. -/
theorem submit_sends_integer_dataset_id_witness :
    ∃ rest, (ReportsList.handleSubmit (fun _ _ => .normal .undefined)
        { ReportsList.init with
          formData := { ReportsList.init.formData with datasetId := "42", title := "Q1" } } []).log =
        [] ++ (.create (.obj
          [("reportType", .str "BATTERY_HEALTH"), ("datasetId", .num 42),
           ("title", .str "Q1"), ("description", .str ""),
           ("parameters", .obj [])]),
          { ReportsList.init with
            formData := { ReportsList.init.formData with datasetId := "42", title := "Q1" } }) :: rest ∧
      ∀ entry ∈ rest, entry.1 = Call.refetch :=
  submit_sends_integer_dataset_id (fun _ _ => .normal .undefined)
    { ReportsList.init with
      formData := { ReportsList.init.formData with datasetId := "42", title := "Q1" } } [] 42
    (by decide) rfl

/-- C18: for every state of `ReportsList`, when the call of `create` made by
`handleSubmit` resolves, the form data is back at its initial values, the
create form is closed, the selected report id is what it was, and after the
`create` call exactly one refetch is made. -/
theorem submit_success_resets_form (env : Collaborators) (s : ReportsList.State)
    (l : List (Call × ReportsList.State)) (r : JsVal) (h : ∀ call, env l.length call = .normal r) :
    (ReportsList.handleSubmit env s l).state.formData =
      { reportType := "BATTERY_HEALTH", datasetId := "", title := "", description := "",
        parameters := .obj [] } ∧
    (ReportsList.handleSubmit env s l).state.showCreateForm = false ∧
    (ReportsList.handleSubmit env s l).state.selectedReportId = s.selectedReportId ∧
    (∃ payload, (ReportsList.handleSubmit env s l).log =
      l ++ [(.create payload, s), (.refetch, (ReportsList.handleSubmit env s l).state)]) ∧
    (ReportsList.handleSubmit env s l).result = .normal () := by
  rw [ReportsList.handleSubmit_resolve env s l r h]
  exact ⟨rfl, rfl, rfl, ⟨_, rfl⟩, rfl⟩

/-- Witness of C18: a filled form with a report selected, submitted with success. -/
theorem submit_success_resets_form_witness :
    (ReportsList.handleSubmit (fun _ _ => .normal (.obj [("id", .num 9)]))
      { showCreateForm := true, selectedReportId := .num 3,
        formData := { ReportsList.init.formData with datasetId := "42", title := "Q1" } } []).state.formData
      = ReportsList.init.formData ∧
    (ReportsList.handleSubmit (fun _ _ => .normal (.obj [("id", .num 9)]))
      { showCreateForm := true, selectedReportId := .num 3,
        formData := { ReportsList.init.formData with datasetId := "42", title := "Q1" } }
      []).state.showCreateForm = false :=
  ⟨(submit_success_resets_form (fun _ _ => .normal (.obj [("id", .num 9)]))
      { showCreateForm := true, selectedReportId := .num 3,
        formData := { ReportsList.init.formData with datasetId := "42", title := "Q1" } } []
      (.obj [("id", .num 9)]) (fun _ => rfl)).1,
   (submit_success_resets_form (fun _ _ => .normal (.obj [("id", .num 9)]))
      { showCreateForm := true, selectedReportId := .num 3,
        formData := { ReportsList.init.formData with datasetId := "42", title := "Q1" } } []
      (.obj [("id", .num 9)]) (fun _ => rfl)).2.1⟩


/-! ## Deleting a report -/

/-- C14, counterexample: the confirmation is accepted and `deleteReportById(7)`
rejects with a network error; the handler has called the confirmation and the
deletion, and no refetch. -/
theorem delete_refetch_counterexample :
    (ReportsList.handleDelete (.num 7)
      (fun _ call =>
        match call with
        | .confirm _ => .normal (.bool true)
        | _ => .thrown (.obj [("message", .str "Network Error")]))
      ReportsList.init []).log =
      [(.confirm [.lit "Are you sure you want to delete this report?"], ReportsList.init),
       (.deleteReportById (.num 7), ReportsList.init)] ∧
    ∀ entry ∈ (ReportsList.handleDelete (.num 7)
      (fun _ call =>
        match call with
        | .confirm _ => .normal (.bool true)
        | _ => .thrown (.obj [("message", .str "Network Error")]))
      ReportsList.init []).log, entry.1 ≠ Call.refetch := by
  have h : (ReportsList.handleDelete (.num 7)
      (fun _ call =>
        match call with
        | .confirm _ => .normal (.bool true)
        | _ => .thrown (.obj [("message", .str "Network Error")]))
      ReportsList.init []).log =
      [(.confirm [.lit "Are you sure you want to delete this report?"], ReportsList.init),
       (.deleteReportById (.num 7), ReportsList.init)] := rfl
  refine ⟨h, ?_⟩
  rw [h]
  intro entry hmem
  simp only [List.mem_cons, List.mem_singleton, List.not_mem_nil, or_false] at hmem
  rcases hmem with hmem | hmem <;> subst hmem <;> simp

/-- C14 as amended: `handleDelete(reportId)` first asks for confirmation. When
the confirmation is accepted it calls `deleteReportById` exactly once with that
id; when that call resolves it then makes exactly one refetch, and when that call
rejects it makes none. When the confirmation is cancelled it calls neither
`deleteReportById` nor `refetch`. The state is untouched in all three cases. -/
theorem delete_confirmed_then_refetch (reportId : JsVal) (env : Collaborators)
    (s : ReportsList.State) (l : List (Call × ReportsList.State)) (answer : JsVal)
    (hconfirm : ∀ message, env l.length (.confirm message) = .normal answer) :
    (answer.truthy = true → ∀ r, (∀ call, env (l.length + 1) call = .normal r) →
      ReportsList.handleDelete reportId env s l =
        ⟨.normal (), s,
          l ++ [(.confirm [.lit "Are you sure you want to delete this report?"], s),
            (.deleteReportById reportId, s), (.refetch, s)]⟩) ∧
    (answer.truthy = true → ∀ e, (∀ call, env (l.length + 1) call = .thrown e) →
      ReportsList.handleDelete reportId env s l =
        ⟨.normal (), s,
          l ++ [(.confirm [.lit "Are you sure you want to delete this report?"], s),
            (.deleteReportById reportId, s)]⟩) ∧
    (answer.truthy = false →
      ReportsList.handleDelete reportId env s l =
        ⟨.normal (), s,
          l ++ [(.confirm [.lit "Are you sure you want to delete this report?"], s)]⟩) := by
  refine ⟨?_, ?_, ?_⟩
  · intro ha r hr
    simp [ReportsList.handleDelete, tryCatch, tryCatchThe, MonadExcept.tryCatch, bind, pure,
      Handler.bind, Handler.pure, Handler.tryCatch, Handler.await, Handler.fire,
      Handler.consoleError, hconfirm, ha, hr]
  · intro ha e he
    simp [ReportsList.handleDelete, tryCatch, tryCatchThe, MonadExcept.tryCatch, bind, pure,
      Handler.bind, Handler.pure, Handler.tryCatch, Handler.await, Handler.fire,
      Handler.consoleError, hconfirm, ha, he]
  · intro ha
    simp [ReportsList.handleDelete, tryCatch, tryCatchThe, MonadExcept.tryCatch, bind, pure,
      Handler.bind, Handler.pure, Handler.tryCatch, Handler.await, Handler.fire,
      Handler.consoleError, hconfirm, ha]

/-- Witness of C14 as amended: report 7, confirmation accepted, deletion
resolved. -/
theorem delete_confirmed_then_refetch_witness :
    ReportsList.handleDelete (.num 7) (fun _ _ => .normal (.bool true)) ReportsList.init [] =
      ⟨.normal (), ReportsList.init,
        [] ++ [(.confirm [.lit "Are you sure you want to delete this report?"], ReportsList.init),
          (.deleteReportById (.num 7), ReportsList.init), (.refetch, ReportsList.init)]⟩ :=
  (delete_confirmed_then_refetch (.num 7) (fun _ _ => .normal (.bool true)) ReportsList.init []
    (.bool true) (fun _ => rfl)).1 rfl (.bool true) (fun _ => rfl)


/-! ## The insights of `ProviderAnalyticsPage` -/

/-- The mock insights have the ids 101, 102, 103, 104, in that order. -/
theorem mock_insight_ids (isoFromNow : Int → JsVal) :
    (ProviderAnalyticsPage.MOCK_INSIGHTS isoFromNow).map (fun insight => insight.field "id") =
      [.num 101, .num 102, .num 103, .num 104] := rfl

/-- Once loading has finished, a hook that delivers the empty list or no list
makes the page render exactly the mock insights, with `isMockData` true and
every Deactivate button disabled. -/
theorem mock_shown_when_no_insights (isoFromNow : Int → JsVal)
    (hook : ProviderAnalyticsPage.InsightsHook) (s : ProviderAnalyticsPage.State)
    (hload : hook.isLoading = false) (hempty : hook.insights = some [] ∨ hook.insights = none) :
    ProviderAnalyticsPage.renderedInsights isoFromNow hook =
      ProviderAnalyticsPage.MOCK_INSIGHTS isoFromNow ∧
    ProviderAnalyticsPage.isMockData hook = true ∧
    ∀ insight ∈ ProviderAnalyticsPage.renderedInsights isoFromNow hook,
      ProviderAnalyticsPage.deactivateDisabled hook s insight = true := by
  rcases hempty with h | h <;>
    simp [ProviderAnalyticsPage.renderedInsights, ProviderAnalyticsPage.insights,
      ProviderAnalyticsPage.isMockData, ProviderAnalyticsPage.deactivateDisabled,
      ProviderAnalyticsPage.MOCK_INSIGHTS, hload, h]

/-- C15 at a hook that ended in an error while it still holds one insight loaded
before (a refetch that failed): loading has finished and the error banner
"Showing mock data for demonstration" is rendered, yet the rendered list is the
loaded insight and not the mock insights, `isMockData` is false and the
Deactivate button is enabled. -/
theorem stale_insights_shown_on_error (isoFromNow : Int → JsVal) :
    ProviderAnalyticsPage.showsErrorBanner
      { insights := some [.obj [("id", .num 1), ("title", .str "Live insight"), ("severity", .str "LOW")]],
        isLoading := false, error := .obj [("message", .str "Network Error")] } = true ∧
    ProviderAnalyticsPage.renderedInsights isoFromNow
      { insights := some [.obj [("id", .num 1), ("title", .str "Live insight"), ("severity", .str "LOW")]],
        isLoading := false, error := .obj [("message", .str "Network Error")] } =
      [.obj [("id", .num 1), ("title", .str "Live insight"), ("severity", .str "LOW")]] ∧
    ProviderAnalyticsPage.renderedInsights isoFromNow
      { insights := some [.obj [("id", .num 1), ("title", .str "Live insight"), ("severity", .str "LOW")]],
        isLoading := false, error := .obj [("message", .str "Network Error")] } ≠
      ProviderAnalyticsPage.MOCK_INSIGHTS isoFromNow ∧
    ProviderAnalyticsPage.isMockData
      { insights := some [.obj [("id", .num 1), ("title", .str "Live insight"), ("severity", .str "LOW")]],
        isLoading := false, error := .obj [("message", .str "Network Error")] } = false ∧
    ProviderAnalyticsPage.deactivateDisabled
      { insights := some [.obj [("id", .num 1), ("title", .str "Live insight"), ("severity", .str "LOW")]],
        isLoading := false, error := .obj [("message", .str "Network Error")] }
      ProviderAnalyticsPage.init
      (.obj [("id", .num 1), ("title", .str "Live insight"), ("severity", .str "LOW")]) = false := by
  refine ⟨rfl, rfl, ?_, rfl, rfl⟩
  intro h
  have h2 := congrArg List.length h
  simp [ProviderAnalyticsPage.renderedInsights, ProviderAnalyticsPage.insights,
    ProviderAnalyticsPage.MOCK_INSIGHTS] at h2

/-- C16: in every render where mock data is shown (`isMockData` true) and for
every insight id, `handleDeactivate(id)` only shows the alert "Cannot deactivate
mock insights": it calls neither `deactivate` nor the confirmation nor
`refetch`, and leaves the state, `deactivatingId` included, as it was. -/
theorem deactivate_blocked_on_mock (hook : ProviderAnalyticsPage.InsightsHook) (insightId : JsVal)
    (env : Collaborators) (s : ProviderAnalyticsPage.State)
    (l : List (Call × ProviderAnalyticsPage.State))
    (hmock : ProviderAnalyticsPage.isMockData hook = true) :
    ProviderAnalyticsPage.handleDeactivate hook insightId env s l =
      ⟨.normal (), s,
        l ++ [(.alert [.lit "Cannot deactivate mock insights. This is demo data only."], s)]⟩ := by
  simp [ProviderAnalyticsPage.handleDeactivate, hmock, Handler.fire]

/-- Witness of C16: the hook delivers no list, the mock insight 101 is clicked. -/
theorem deactivate_blocked_on_mock_witness :
    ProviderAnalyticsPage.handleDeactivate { insights := none, isLoading := false, error := .null }
      (.num 101) (fun _ _ => .normal (.bool true)) ProviderAnalyticsPage.init [] =
      ⟨.normal (), ProviderAnalyticsPage.init,
        [] ++ [(.alert [.lit "Cannot deactivate mock insights. This is demo data only."],
          ProviderAnalyticsPage.init)]⟩ :=
  deactivate_blocked_on_mock { insights := none, isLoading := false, error := .null } (.num 101)
    (fun _ _ => .normal (.bool true)) ProviderAnalyticsPage.init [] rfl


/-! ## The export actions -/

namespace useExportReport

/-- The operation `exportPDF` issues exactly one request, the one written here,
whatever the client answers. -/
theorem exportPDF_log (reportId : JsVal) (c : HttpClient) (s : State) (l : List (Request × State)) :
    (exportPDF reportId c s l).log =
      l ++ [(⟨.get, [.lit BASE_URL, .lit "/advanced/reports/", .sub reportId, .lit "/export/pdf"],
        [.obj [("responseType", .str "blob")]]⟩, { loading := true, error := .null })] := by
  simp only [exportPDF, analyticsService.exportReportPDF, setLoading, setError,
    tryFinally, MonadFinally.tryFinally', tryCatch, tryCatchThe,
    MonadExcept.tryCatch, bind, Functor.map, pure, throw, throwThe, MonadExcept.throw,
    Async.prop_run, Async.bind, Async.pure, Async.tryCatch, Async.tryFinally, Async.modify, Async.send,
    Async.throw, Async.consoleError, browserDownload, httpClient.get, arg_cons_zero]
  generalize c l.length _ = out
  cases out with
  | normal r => cases h1 : r.isNullish <;> simp [h1, Async.pure]
  | thrown e => cases h1 : e.isNullish <;> simp [h1, Async.pure]

/-- The operation `exportExcel` issues exactly one request, the one written here,
whatever the client answers. -/
theorem exportExcel_log (reportId : JsVal) (c : HttpClient) (s : State) (l : List (Request × State)) :
    (exportExcel reportId c s l).log =
      l ++ [(⟨.get, [.lit BASE_URL, .lit "/advanced/reports/", .sub reportId, .lit "/export/excel"],
        [.obj [("responseType", .str "blob")]]⟩, { loading := true, error := .null })] := by
  simp only [exportExcel, analyticsService.exportReportExcel, setLoading, setError,
    tryFinally, MonadFinally.tryFinally', tryCatch, tryCatchThe,
    MonadExcept.tryCatch, bind, Functor.map, pure, throw, throwThe, MonadExcept.throw,
    Async.prop_run, Async.bind, Async.pure, Async.tryCatch, Async.tryFinally, Async.modify, Async.send,
    Async.throw, Async.consoleError, browserDownload, httpClient.get, arg_cons_zero]
  generalize c l.length _ = out
  cases out with
  | normal r => cases h1 : r.isNullish <;> simp [h1, Async.pure]
  | thrown e => cases h1 : e.isNullish <;> simp [h1, Async.pure]

/-- The operation `exportCSV` issues exactly one request, the one written here,
whatever the client answers. -/
theorem exportCSV_log (reportId : JsVal) (c : HttpClient) (s : State) (l : List (Request × State)) :
    (exportCSV reportId c s l).log =
      l ++ [(⟨.get, [.lit BASE_URL, .lit "/advanced/reports/", .sub reportId, .lit "/export/csv"],
        [.obj [("responseType", .str "blob")]]⟩, { loading := true, error := .null })] := by
  simp only [exportCSV, analyticsService.exportReportCSV, setLoading, setError,
    tryFinally, MonadFinally.tryFinally', tryCatch, tryCatchThe,
    MonadExcept.tryCatch, bind, Functor.map, pure, throw, throwThe, MonadExcept.throw,
    Async.prop_run, Async.bind, Async.pure, Async.tryCatch, Async.tryFinally, Async.modify, Async.send,
    Async.throw, Async.consoleError, browserDownload, httpClient.get, arg_cons_zero]
  generalize c l.length _ = out
  cases out with
  | normal r => cases h1 : r.isNullish <;> simp [h1, Async.pure]
  | thrown e => cases h1 : e.isNullish <;> simp [h1, Async.pure]

end useExportReport

/-- C17: each export action of `useExportReport`, for every report id, issues
exactly one request, and that request is the one its own wrapper
(`exportReportPDF`, `exportReportExcel`, `exportReportCSV` respectively) issues
for that id: the log of the action is the log of one call of the wrapper. The
state the action works on consists of the hook's own `loading` and `error` flags
and of nothing else. -/
theorem export_calls_own_wrapper_once (reportId : JsVal) (c : HttpClient)
    (s : useExportReport.State) (l : List (Request × useExportReport.State)) :
    ((useExportReport.exportPDF reportId c s l).log =
        (analyticsService.exportReportPDF [reportId] c { loading := true, error := .null } l).log ∧
      (useExportReport.exportPDF reportId c s l).log.length = l.length + 1) ∧
    ((useExportReport.exportExcel reportId c s l).log =
        (analyticsService.exportReportExcel [reportId] c { loading := true, error := .null } l).log ∧
      (useExportReport.exportExcel reportId c s l).log.length = l.length + 1) ∧
    ((useExportReport.exportCSV reportId c s l).log =
        (analyticsService.exportReportCSV [reportId] c { loading := true, error := .null } l).log ∧
      (useExportReport.exportCSV reportId c s l).log.length = l.length + 1) ∧
    (useExportReport.exportPDF reportId c s l).state =
      { loading := (useExportReport.exportPDF reportId c s l).state.loading,
        error := (useExportReport.exportPDF reportId c s l).state.error } := by
  refine ⟨⟨?_, ?_⟩, ⟨?_, ?_⟩, ⟨?_, ?_⟩, rfl⟩
  · rw [useExportReport.exportPDF_log]
    rfl
  · rw [useExportReport.exportPDF_log]
    simp
  · rw [useExportReport.exportExcel_log]
    rfl
  · rw [useExportReport.exportExcel_log]
    simp
  · rw [useExportReport.exportCSV_log]
    rfl
  · rw [useExportReport.exportCSV_log]
    simp

/-! ## The create form of `PredictionsList` -/

/-- C19 on every state of `PredictionsList` (the form with `datasetId: "42"`
among them): `handleSubmit` calls no create hook, because the component binds
none; evaluating `create` throws the `ReferenceError` "create is not defined",
which the `catch` block reports in an alert. The form data and the state stay
as they were, the form is not closed and no refetch is made. -/
theorem prediction_submit_has_no_create (env : Collaborators) (s : PredictionsList.State)
    (l : List (Call × PredictionsList.State)) :
    PredictionsList.handleSubmit env s l =
      ⟨.normal (), s,
        l ++ [(.alert [.lit "Failed to create prediction: ", .sub (.str "create is not defined")],
          s)]⟩ := by
  simp [PredictionsList.handleSubmit, tryCatch, tryCatchThe, MonadExcept.tryCatch, bind, pure,
    Handler.bind, Handler.pure, Handler.tryCatch, Handler.read, Handler.fire, Handler.unbound,
    Handler.throw, Handler.consoleError, Handler.prop, referenceError, JsVal.field, JsVal.lookup,
    JsVal.optField, JsVal.isNullish, JsVal.or, JsVal.truthy]

/-! ## The refresh keys of `ProviderAnalyticsPage` -/

/-- The keys after a sequence of success callbacks count the callbacks of each
form. -/
theorem afterSuccesses_keys (events : List FormSuccess) (s : ProviderAnalyticsPage.State) :
    ProviderAnalyticsPage.reportsListKey (afterSuccesses s events) =
      s.refreshReports + events.count .report ∧
    ProviderAnalyticsPage.predictionsListKey (afterSuccesses s events) =
      s.refreshPredictions + events.count .prediction ∧
    (afterSuccesses s events).deactivatingId = s.deactivatingId := by
  induction events generalizing s with
  | nil => exact ⟨rfl, rfl, rfl⟩
  | cons ev rest ih =>
    have h := ih (afterSuccess s ev)
    cases ev
    · refine ⟨?_, ?_, ?_⟩
      · show ProviderAnalyticsPage.reportsListKey (afterSuccesses (afterSuccess s .report) rest) = _
        rw [h.1]
        simp [afterSuccess, ProviderAnalyticsPage.onReportSuccess, Handler.modify]
        omega
      · show ProviderAnalyticsPage.predictionsListKey
          (afterSuccesses (afterSuccess s .report) rest) = _
        rw [h.2.1]
        simp [afterSuccess, ProviderAnalyticsPage.onReportSuccess, Handler.modify]
      · show (afterSuccesses (afterSuccess s .report) rest).deactivatingId = _
        rw [h.2.2]
        rfl
    · refine ⟨?_, ?_, ?_⟩
      · show ProviderAnalyticsPage.reportsListKey
          (afterSuccesses (afterSuccess s .prediction) rest) = _
        rw [h.1]
        simp [afterSuccess, ProviderAnalyticsPage.onPredictionSuccess, Handler.modify]
      · show ProviderAnalyticsPage.predictionsListKey
          (afterSuccesses (afterSuccess s .prediction) rest) = _
        rw [h.2.1]
        simp [afterSuccess, ProviderAnalyticsPage.onPredictionSuccess, Handler.modify]
        omega
      · show (afterSuccesses (afterSuccess s .prediction) rest).deactivatingId = _
        rw [h.2.2]
        rfl

/-- C20: on `ProviderAnalyticsPage`, every success callback of the create-report
form increases `refreshReports` by exactly 1, so the key of `ReportsList` after
the callback differs from the key before, and leaves `refreshPredictions` as it
was; the success callback of the create-prediction form does the same with the
two counters exchanged; and after any sequence of `n` report callbacks and `m`
prediction callbacks from the initial state the two keys are `n` and `m`. -/
theorem refresh_keys_count_successes (env : Collaborators) (s : ProviderAnalyticsPage.State)
    (l : List (Call × ProviderAnalyticsPage.State)) (events : List FormSuccess) :
    ((ProviderAnalyticsPage.onReportSuccess env s l).state.refreshReports = s.refreshReports + 1 ∧
      ProviderAnalyticsPage.reportsListKey (ProviderAnalyticsPage.onReportSuccess env s l).state ≠
        ProviderAnalyticsPage.reportsListKey s ∧
      (ProviderAnalyticsPage.onReportSuccess env s l).state.refreshPredictions
        = s.refreshPredictions) ∧
    ((ProviderAnalyticsPage.onPredictionSuccess env s l).state.refreshPredictions
        = s.refreshPredictions + 1 ∧
      ProviderAnalyticsPage.predictionsListKey
          (ProviderAnalyticsPage.onPredictionSuccess env s l).state ≠
        ProviderAnalyticsPage.predictionsListKey s ∧
      (ProviderAnalyticsPage.onPredictionSuccess env s l).state.refreshReports = s.refreshReports) ∧
    (ProviderAnalyticsPage.reportsListKey (afterSuccesses ProviderAnalyticsPage.init events)
        = events.count .report ∧
      ProviderAnalyticsPage.predictionsListKey (afterSuccesses ProviderAnalyticsPage.init events)
        = events.count .prediction) := by
  refine ⟨⟨rfl, ?_, rfl⟩, ⟨rfl, ?_, rfl⟩, ?_, ?_⟩
  · simp [ProviderAnalyticsPage.reportsListKey, ProviderAnalyticsPage.onReportSuccess,
      Handler.modify]
  · simp [ProviderAnalyticsPage.predictionsListKey, ProviderAnalyticsPage.onPredictionSuccess,
      Handler.modify]
  · rw [(afterSuccesses_keys events ProviderAnalyticsPage.init).1]
    simp [ProviderAnalyticsPage.init]
  · rw [(afterSuccesses_keys events ProviderAnalyticsPage.init).2.1]
    simp [ProviderAnalyticsPage.init]


/-! ## Defaults of the wrappers -/

/-- C21: `getTrendingInsights()` without an argument sends the query parameter
`days = 7` and `getLowQualityDatasets()` without an argument sends `threshold =
80`; with an argument given (any value but `undefined`) the query parameter is
that argument. Each call is one request to the client. -/
theorem wrapper_defaults (σ : Type) (c : HttpClient) (s : σ) (l : List (Request × σ)) :
    (∃ q, analyticsService.getTrendingInsights [] c s l = ⟨c l.length q, s, l ++ [(q, s)]⟩ ∧
      q.param "days" = .num 7) ∧
    (∃ q, analyticsService.getLowQualityDatasets [] c s l = ⟨c l.length q, s, l ++ [(q, s)]⟩ ∧
      q.param "threshold" = .num 80) ∧
    (∀ d rest, d ≠ JsVal.undefined →
      ∃ q, analyticsService.getTrendingInsights (d :: rest) c s l = ⟨c l.length q, s, l ++ [(q, s)]⟩ ∧
        q.param "days" = d) ∧
    (∀ d rest, d ≠ JsVal.undefined →
      ∃ q, analyticsService.getLowQualityDatasets (d :: rest) c s l
          = ⟨c l.length q, s, l ++ [(q, s)]⟩ ∧
        q.param "threshold" = d) := by
  refine ⟨⟨_, rfl, rfl⟩, ⟨_, rfl, rfl⟩, ?_, ?_⟩
  · intro d rest hd
    refine ⟨_, rfl, ?_⟩
    cases d <;> first | exact absurd rfl hd | rfl
  · intro d rest hd
    refine ⟨_, rfl, ?_⟩
    cases d <;> first | exact absurd rfl hd | rfl

/-- Witness of C21: a window of 30 days and a threshold of 50. -/
theorem wrapper_defaults_witness :
    (∃ q, analyticsService.getTrendingInsights [.num 30] (fun _ _ => .normal .null) () []
        = ⟨.normal .null, (), [] ++ [(q, ())]⟩ ∧ q.param "days" = .num 30) ∧
    (∃ q, analyticsService.getLowQualityDatasets [.num 50] (fun _ _ => .normal .null) () []
        = ⟨.normal .null, (), [] ++ [(q, ())]⟩ ∧ q.param "threshold" = .num 50) :=
  ⟨(wrapper_defaults Unit (fun _ _ => .normal .null) () []).2.2.1 (.num 30) [] (by simp),
   (wrapper_defaults Unit (fun _ _ => .normal .null) () []).2.2.2 (.num 50) [] (by simp)⟩

/-! ## The severity badge -/

/-- Strict equality with a string holds for that string only. -/
theorem strictEq_str (v : JsVal) (t : String) : v.strictEq (.str t) = true ↔ v = .str t := by
  cases v <;> simp [JsVal.strictEq]

/-- Strict equality with a string fails for every other value. -/
theorem strictEq_str_false (v : JsVal) (t : String) :
    v.strictEq (.str t) = false ↔ v ≠ .str t := by
  cases v <;> simp [JsVal.strictEq]

/-- C24: for every row object, whatever its `severity` (a string, `null`,
`undefined`, anything), the style of the severity badge is the red style exactly
when the severity is the string `HIGH`, the yellow style exactly when it is the
string `MEDIUM`, and the one default style `bg-green-100 text-green-800` in
every other case; the choice is a total function and throws nothing. -/
theorem severity_style_three_way (fields : List (String × JsVal)) :
    ((ProviderAnalyticsPage.severityBadge (.obj fields)).className =
        [.lit "px-2 py-1 rounded-full text-xs font-semibold ", .sub (.str "bg-red-100 text-red-800")]
      ↔ JsVal.lookup "severity" fields = .str "HIGH") ∧
    ((ProviderAnalyticsPage.severityBadge (.obj fields)).className =
        [.lit "px-2 py-1 rounded-full text-xs font-semibold ",
          .sub (.str "bg-yellow-100 text-yellow-800")]
      ↔ JsVal.lookup "severity" fields = .str "MEDIUM") ∧
    ((ProviderAnalyticsPage.severityBadge (.obj fields)).className =
        [.lit "px-2 py-1 rounded-full text-xs font-semibold ",
          .sub (.str "bg-green-100 text-green-800")]
      ↔ JsVal.lookup "severity" fields ≠ .str "HIGH" ∧
        JsVal.lookup "severity" fields ≠ .str "MEDIUM") ∧
    (ProviderAnalyticsPage.severityBadge (.obj [("severity", .str "LOW")])).className =
      [.lit "px-2 py-1 rounded-full text-xs font-semibold ", .sub (.str "bg-green-100 text-green-800")] ∧
    (ProviderAnalyticsPage.severityBadge (.obj [("severity", .str "CRITICAL")])).className =
      [.lit "px-2 py-1 rounded-full text-xs font-semibold ", .sub (.str "bg-green-100 text-green-800")] ∧
    (ProviderAnalyticsPage.severityBadge (.obj [("severity", .null)])).className =
      [.lit "px-2 py-1 rounded-full text-xs font-semibold ", .sub (.str "bg-green-100 text-green-800")] ∧
    (ProviderAnalyticsPage.severityBadge (.obj [])).className =
      [.lit "px-2 py-1 rounded-full text-xs font-semibold ", .sub (.str "bg-green-100 text-green-800")] := by
  refine ⟨?_, ?_, ?_, rfl, rfl, rfl, rfl⟩ <;>
    (simp only [ProviderAnalyticsPage.severityBadge, JsVal.field]
     split_ifs with h1 h2 <;>
       simp only [strictEq_str, Bool.not_eq_true, strictEq_str_false] at * <;> simp_all)


/-! ## Failures of the write operations -/

/-- C25: for every write operation of `useMetrics.js` and
`useAdvancedAnalytics.js`, when its wrapper call rejects with an error value
`err` the hook stores `err.message`, or the fixed fallback text of the operation
when `err.message` is empty or missing, which is never `null`; it sets `loading`
to false; and the operation rejects to its caller with that same `err`. -/
theorem write_failure_rethrown (c : HttpClient) (err : JsVal) (herr : err.isNullish = false) :
    (∀ metricData s l, (∀ q, c l.length q = .thrown err) →
      (useRecordMetric.recordMetric metricData c s l).state.error = (transportMessage err).or (.str "Failed to record metric") ∧
        (useRecordMetric.recordMetric metricData c s l).state.error ≠ .null ∧
        (useRecordMetric.recordMetric metricData c s l).state.loading = false ∧
        (useRecordMetric.recordMetric metricData c s l).result = .thrown err) ∧
    (∀ metricsList s l, (∀ q, c l.length q = .thrown err) →
      (useRecordMetric.recordBatch metricsList c s l).state.error = (transportMessage err).or (.str "Failed to record metrics") ∧
        (useRecordMetric.recordBatch metricsList c s l).state.error ≠ .null ∧
        (useRecordMetric.recordBatch metricsList c s l).state.loading = false ∧
        (useRecordMetric.recordBatch metricsList c s l).result = .thrown err) ∧
    (∀ reportId s l, (∀ q, c l.length q = .thrown err) →
      (useExportReport.exportPDF reportId c s l).state.error = (transportMessage err).or (.str "Failed to export PDF") ∧
        (useExportReport.exportPDF reportId c s l).state.error ≠ .null ∧
        (useExportReport.exportPDF reportId c s l).state.loading = false ∧
        (useExportReport.exportPDF reportId c s l).result = .thrown err) ∧
    (∀ reportId s l, (∀ q, c l.length q = .thrown err) →
      (useExportReport.exportExcel reportId c s l).state.error = (transportMessage err).or (.str "Failed to export Excel") ∧
        (useExportReport.exportExcel reportId c s l).state.error ≠ .null ∧
        (useExportReport.exportExcel reportId c s l).state.loading = false ∧
        (useExportReport.exportExcel reportId c s l).result = .thrown err) ∧
    (∀ reportId s l, (∀ q, c l.length q = .thrown err) →
      (useExportReport.exportCSV reportId c s l).state.error = (transportMessage err).or (.str "Failed to export CSV") ∧
        (useExportReport.exportCSV reportId c s l).state.error ≠ .null ∧
        (useExportReport.exportCSV reportId c s l).state.loading = false ∧
        (useExportReport.exportCSV reportId c s l).result = .thrown err) ∧
    (∀ reportId1 reportId2 s l, (∀ q, c l.length q = .thrown err) →
      (useCompareReports.compareReports reportId1 reportId2 c s l).state.error = (transportMessage err).or (.str "Failed to compare reports") ∧
        (useCompareReports.compareReports reportId1 reportId2 c s l).state.error ≠ .null ∧
        (useCompareReports.compareReports reportId1 reportId2 c s l).state.loading = false ∧
        (useCompareReports.compareReports reportId1 reportId2 c s l).result = .thrown err) ∧
    (∀ scheduleData s l, (∀ q, c l.length q = .thrown err) →
      (useScheduleManagement.createSchedule scheduleData c s l).state.error = (transportMessage err).or (.str "Failed to create schedule") ∧
        (useScheduleManagement.createSchedule scheduleData c s l).state.error ≠ .null ∧
        (useScheduleManagement.createSchedule scheduleData c s l).state.loading = false ∧
        (useScheduleManagement.createSchedule scheduleData c s l).result = .thrown err) ∧
    (∀ scheduleId updateData s l, (∀ q, c l.length q = .thrown err) →
      (useScheduleManagement.updateSchedule scheduleId updateData c s l).state.error = (transportMessage err).or (.str "Failed to update schedule") ∧
        (useScheduleManagement.updateSchedule scheduleId updateData c s l).state.error ≠ .null ∧
        (useScheduleManagement.updateSchedule scheduleId updateData c s l).state.loading = false ∧
        (useScheduleManagement.updateSchedule scheduleId updateData c s l).result = .thrown err) ∧
    (∀ scheduleId s l, (∀ q, c l.length q = .thrown err) →
      (useScheduleManagement.toggleSchedule scheduleId c s l).state.error = (transportMessage err).or (.str "Failed to toggle schedule") ∧
        (useScheduleManagement.toggleSchedule scheduleId c s l).state.error ≠ .null ∧
        (useScheduleManagement.toggleSchedule scheduleId c s l).state.loading = false ∧
        (useScheduleManagement.toggleSchedule scheduleId c s l).result = .thrown err) ∧
    (∀ scheduleId s l, (∀ q, c l.length q = .thrown err) →
      (useScheduleManagement.deleteSchedule scheduleId c s l).state.error = (transportMessage err).or (.str "Failed to delete schedule") ∧
        (useScheduleManagement.deleteSchedule scheduleId c s l).state.error ≠ .null ∧
        (useScheduleManagement.deleteSchedule scheduleId c s l).state.loading = false ∧
        (useScheduleManagement.deleteSchedule scheduleId c s l).result = .thrown err) := by
  refine ⟨?_, ?_, ?_, ?_, ?_, ?_, ?_, ?_, ?_, ?_⟩
  · intro metricData s l h
    rw [(useRecordMetric.recordMetric_reject metricData c s l err h herr).1, (useRecordMetric.recordMetric_reject metricData c s l err h herr).2]
    exact ⟨rfl, or_str_ne_null _ _, rfl, rfl⟩
  · intro metricsList s l h
    rw [(useRecordMetric.recordBatch_reject metricsList c s l err h herr).1, (useRecordMetric.recordBatch_reject metricsList c s l err h herr).2]
    exact ⟨rfl, or_str_ne_null _ _, rfl, rfl⟩
  · intro reportId s l h
    rw [(useExportReport.exportPDF_reject reportId c s l err h herr).1, (useExportReport.exportPDF_reject reportId c s l err h herr).2]
    exact ⟨rfl, or_str_ne_null _ _, rfl, rfl⟩
  · intro reportId s l h
    rw [(useExportReport.exportExcel_reject reportId c s l err h herr).1, (useExportReport.exportExcel_reject reportId c s l err h herr).2]
    exact ⟨rfl, or_str_ne_null _ _, rfl, rfl⟩
  · intro reportId s l h
    rw [(useExportReport.exportCSV_reject reportId c s l err h herr).1, (useExportReport.exportCSV_reject reportId c s l err h herr).2]
    exact ⟨rfl, or_str_ne_null _ _, rfl, rfl⟩
  · intro reportId1 reportId2 s l h
    rw [(useCompareReports.compareReports_reject reportId1 reportId2 c s l err h herr).1, (useCompareReports.compareReports_reject reportId1 reportId2 c s l err h herr).2]
    exact ⟨rfl, or_str_ne_null _ _, rfl, rfl⟩
  · intro scheduleData s l h
    rw [(useScheduleManagement.createSchedule_reject scheduleData c s l err h herr).1, (useScheduleManagement.createSchedule_reject scheduleData c s l err h herr).2]
    exact ⟨rfl, or_str_ne_null _ _, rfl, rfl⟩
  · intro scheduleId updateData s l h
    rw [(useScheduleManagement.updateSchedule_reject scheduleId updateData c s l err h herr).1, (useScheduleManagement.updateSchedule_reject scheduleId updateData c s l err h herr).2]
    exact ⟨rfl, or_str_ne_null _ _, rfl, rfl⟩
  · intro scheduleId s l h
    rw [(useScheduleManagement.toggleSchedule_reject scheduleId c s l err h herr).1, (useScheduleManagement.toggleSchedule_reject scheduleId c s l err h herr).2]
    exact ⟨rfl, or_str_ne_null _ _, rfl, rfl⟩
  · intro scheduleId s l h
    rw [(useScheduleManagement.deleteSchedule_reject scheduleId c s l err h herr).1, (useScheduleManagement.deleteSchedule_reject scheduleId c s l err h herr).2]
    exact ⟨rfl, or_str_ne_null _ _, rfl, rfl⟩

/-- Witness of C25: `recordMetric` met by a network error. -/
theorem write_failure_rethrown_witness :
    (useRecordMetric.recordMetric (.obj []) (fun _ _ => .thrown (.obj [("message", .str "Network Error")]))
      useRecordMetric.init []).state.error = .str "Network Error" ∧
    (useRecordMetric.recordMetric (.obj []) (fun _ _ => .thrown (.obj [("message", .str "Network Error")]))
      useRecordMetric.init []).result = .thrown (.obj [("message", .str "Network Error")]) :=
  ⟨((write_failure_rethrown (fun _ _ => .thrown (.obj [("message", .str "Network Error")]))
      (.obj [("message", .str "Network Error")]) rfl).1 (.obj []) useRecordMetric.init []
      (fun _ => rfl)).1,
   ((write_failure_rethrown (fun _ _ => .thrown (.obj [("message", .str "Network Error")]))
      (.obj [("message", .str "Network Error")]) rfl).1 (.obj []) useRecordMetric.init []
      (fun _ => rfl)).2.2.2⟩

/-! ## Failures and odd input of the create form of `ReportsList` -/

/-- C27: when `create` rejects in `handleSubmit` of `ReportsList`, the form
data, `showCreateForm` and the rest of the state are exactly what they were, the
only call made is the `create` call (no refetch), and `handleSubmit` itself
completes normally. -/
theorem submit_failure_keeps_form (env : Collaborators) (s : ReportsList.State)
    (l : List (Call × ReportsList.State)) (e : JsVal) (h : ∀ call, env l.length call = .thrown e) :
    (ReportsList.handleSubmit env s l).state = s ∧
    (∃ payload, (ReportsList.handleSubmit env s l).log = l ++ [(.create payload, s)]) ∧
    (∀ entry ∈ (ReportsList.handleSubmit env s l).log.drop l.length, entry.1 ≠ Call.refetch) ∧
    (ReportsList.handleSubmit env s l).result = .normal () := by
  rw [ReportsList.handleSubmit_reject env s l e h]
  refine ⟨rfl, ⟨_, rfl⟩, ?_, rfl⟩
  intro entry hmem
  simp only [List.drop_left, List.mem_singleton] at hmem
  subst hmem
  simp

/-- Witness of C27: a filled, open form whose submission is refused. -/
theorem submit_failure_keeps_form_witness :
    (ReportsList.handleSubmit (fun _ _ => .thrown (.obj [("message", .str "Bad Request")]))
      { showCreateForm := true, selectedReportId := .null,
        formData := { ReportsList.init.formData with datasetId := "42", title := "Q1" } } []).state =
      { showCreateForm := true, selectedReportId := .null,
        formData := { ReportsList.init.formData with datasetId := "42", title := "Q1" } } :=
  (submit_failure_keeps_form (fun _ _ => .thrown (.obj [("message", .str "Bad Request")]))
    { showCreateForm := true, selectedReportId := .null,
      formData := { ReportsList.init.formData with datasetId := "42", title := "Q1" } } []
    (.obj [("message", .str "Bad Request")]) (fun _ => rfl)).1

/-- C28: for every state of `ReportsList`, `handleSubmit` calls `create` with
`datasetId` equal to `parseInt` of the form string, whatever the string is: no
validation stands before the call. The empty string gives `NaN`; `12.7` and
`12abc` give the integer prefix 12. -/
theorem submit_parses_without_validation (env : Collaborators) (s : ReportsList.State)
    (l : List (Call × ReportsList.State)) :
    (∃ rest, (ReportsList.handleSubmit env s l).log =
        l ++ (.create (.obj
          [("reportType", .str s.formData.reportType),
           ("datasetId", parseInt s.formData.datasetId),
           ("title", .str s.formData.title), ("description", .str s.formData.description),
           ("parameters", s.formData.parameters)]), s) :: rest ∧
      ∀ entry ∈ rest, entry.1 = Call.refetch) ∧
    parseInt "" = .nan ∧ parseInt "12.7" = .num 12 ∧ parseInt "12abc" = .num 12 ∧
    (∃ rest, (ReportsList.handleSubmit env ReportsList.init l).log =
        l ++ (.create (.obj
          [("reportType", .str "BATTERY_HEALTH"), ("datasetId", .nan),
           ("title", .str ""), ("description", .str ""),
           ("parameters", .obj [])]), ReportsList.init) :: rest) := by
  obtain ⟨rest, h1, h2⟩ := ReportsList.handleSubmit_log env s l
  obtain ⟨rest0, h3, _⟩ := ReportsList.handleSubmit_log env ReportsList.init l
  exact ⟨⟨rest, by rw [h1, ReportsList.submit_payload], h2⟩, rfl, rfl, rfl, ⟨rest0, by rw [h3]; rfl⟩⟩

/-! ## The confidence cells of `PredictionsList` -/

/-- C29: a confidence badge is shown exactly when the confidence is truthy. For
a confidence of exactly 0 the list cell shows `-` and the detail modal shows
`N/A`, not the `Low` badge that `getConfidenceBadge(0)` would be; for every
confidence in (0, 1] the cell shows the badge of `getConfidenceBadge` (in the
modal followed by the percentage); an absent confidence shows `-` and `N/A`. -/
theorem confidence_badge_needs_truthy (c : ℚ) :
    PredictionsList.confidenceCell (some 0) = .text "-" ∧
    PredictionsList.confidenceDetail (some 0) = .text "N/A" ∧
    (PredictionsList.getConfidenceBadge 0).children = .str "Low" ∧
    PredictionsList.confidenceCell none = .text "-" ∧
    PredictionsList.confidenceDetail none = .text "N/A" ∧
    (PredictionsList.confidenceCell (some c) = .badge (PredictionsList.getConfidenceBadge c) ↔ c ≠ 0) ∧
    (PredictionsList.confidenceDetail (some c) =
        .badgeWithPercent (PredictionsList.getConfidenceBadge c) (c * 100) ↔ c ≠ 0) ∧
    (0 < c ∧ c ≤ 1 →
      PredictionsList.confidenceCell (some c) = .badge (PredictionsList.getConfidenceBadge c) ∧
      PredictionsList.confidenceDetail (some c) =
        .badgeWithPercent (PredictionsList.getConfidenceBadge c) (c * 100)) := by
  have hcell : PredictionsList.confidenceCell (some c) =
      .badge (PredictionsList.getConfidenceBadge c) ↔ c ≠ 0 := by
    by_cases h : c = 0 <;> simp [PredictionsList.confidenceCell, PredictionsList.numberTruthy, h]
  have hdetail : PredictionsList.confidenceDetail (some c) =
      .badgeWithPercent (PredictionsList.getConfidenceBadge c) (c * 100) ↔ c ≠ 0 := by
    by_cases h : c = 0 <;> simp [PredictionsList.confidenceDetail, PredictionsList.numberTruthy, h]
  refine ⟨?_, ?_, ?_, rfl, rfl, hcell, hdetail, ?_⟩
  · simp [PredictionsList.confidenceCell, PredictionsList.numberTruthy]
  · simp [PredictionsList.confidenceDetail, PredictionsList.numberTruthy]
  · unfold PredictionsList.getConfidenceBadge
    norm_num
  · intro hc
    exact ⟨hcell.2 (ne_of_gt hc.1), hdetail.2 (ne_of_gt hc.1)⟩

/-- Witness of C29: a confidence of one half. -/
theorem confidence_badge_needs_truthy_witness :
    PredictionsList.confidenceCell (some (1 / 2)) =
      .badge (PredictionsList.getConfidenceBadge (1 / 2)) :=
  ((confidence_badge_needs_truthy (1 / 2)).2.2.2.2.2.2.2 (by norm_num)).1

/-! ## Runs of the schedule mutations -/

namespace useScheduleManagement

/-- The requests of `createSchedule` when the mutation request resolves: the mutation
request, then one reload of the list, whatever the reload answers. -/
theorem createSchedule_resolve_log (scheduleData : JsVal) (c : HttpClient) (s : State) (l : List (Request × State))
    (r : JsVal) (h : ∀ q, c l.length q = .normal r) :
    (createSchedule scheduleData c s l).log =
      l ++ [(⟨.post, [.lit BASE_URL, .lit "/advanced/schedule"], [scheduleData]⟩,
          { s with loading := true, error := .null }),
        (⟨.get, [.lit BASE_URL, .lit "/advanced/schedule/my-schedules"], []⟩,
          { s with loading := true, error := .null })] := by
  simp only [createSchedule, loadSchedules, analyticsService.scheduleAnalysis, analyticsService.getMySchedules, setLoading, setError, setSchedules,
    tryFinally, MonadFinally.tryFinally', tryCatch, tryCatchThe,
    MonadExcept.tryCatch, bind, Functor.map, pure, throw, throwThe, MonadExcept.throw,
    Async.prop_run, Async.bind, Async.pure, Async.tryCatch, Async.tryFinally, Async.modify, Async.send,
    Async.throw, Async.consoleError, httpClient.get, httpClient.post, httpClient.put,
    httpClient.patch, httpClient.delete, arg_cons_zero, arg_cons_succ, arg_nil, h]
  simp only [List.length_append, List.length_singleton]
  generalize c (l.length + 1) _ = out
  cases out with
  | normal r2 =>
    cases h1 : r.isNullish <;> cases h2 : r2.isNullish <;> simp [h1, h2, Async.pure]
  | thrown e2 =>
    cases h1 : r.isNullish <;> cases h2 : e2.isNullish <;> simp [h1, h2, Async.pure]

/-- The requests of `createSchedule` when the mutation request rejects: the mutation
request alone. -/
theorem createSchedule_reject_log (scheduleData : JsVal) (c : HttpClient) (s : State) (l : List (Request × State))
    (e : JsVal) (h : ∀ q, c l.length q = .thrown e) :
    (createSchedule scheduleData c s l).log =
      l ++ [(⟨.post, [.lit BASE_URL, .lit "/advanced/schedule"], [scheduleData]⟩,
          { s with loading := true, error := .null })] := by
  simp only [createSchedule, loadSchedules, analyticsService.scheduleAnalysis, analyticsService.getMySchedules, setLoading, setError, setSchedules,
    tryFinally, MonadFinally.tryFinally', tryCatch, tryCatchThe,
    MonadExcept.tryCatch, bind, Functor.map, pure, throw, throwThe, MonadExcept.throw,
    Async.prop_run, Async.bind, Async.pure, Async.tryCatch, Async.tryFinally, Async.modify, Async.send,
    Async.throw, Async.consoleError, httpClient.get, httpClient.post, httpClient.put,
    httpClient.patch, httpClient.delete, arg_cons_zero, arg_cons_succ, arg_nil, h]
  cases h1 : e.isNullish <;> simp [h1, Async.pure]

/-- The operation `createSchedule` when the mutation request resolves and the reload of
the list rejects. -/
theorem createSchedule_reload_reject (scheduleData : JsVal) (c : HttpClient) (s : State) (l : List (Request × State))
    (r e : JsVal) (h : ∀ q, c l.length q = .normal r) (h2 : ∀ q, c (l.length + 1) q = .thrown e) (hr : r.isNullish = false)
    (he : e.isNullish = false) :
    (createSchedule scheduleData c s l).state =
      { s with loading := false, error := (e.field "message").or (.str "Failed to load schedules") } ∧
    (createSchedule scheduleData c s l).result = .normal (r.field "data") := by
  simp [createSchedule, loadSchedules, analyticsService.scheduleAnalysis, analyticsService.getMySchedules, setLoading, setError, setSchedules,
    tryFinally, MonadFinally.tryFinally', tryCatch, tryCatchThe,
    MonadExcept.tryCatch, bind, Functor.map, pure, throw, throwThe, MonadExcept.throw,
    Async.prop_run, Async.bind, Async.pure, Async.tryCatch, Async.tryFinally, Async.modify, Async.send,
    Async.throw, Async.consoleError, httpClient.get, httpClient.post, httpClient.put,
    httpClient.patch, httpClient.delete, arg_cons_zero, arg_cons_succ, arg_nil, h, h2, he, hr]

/-- The operation `createSchedule` when the mutation request and the reload of the list
both resolve. -/
theorem createSchedule_reload_resolve (scheduleData : JsVal) (c : HttpClient) (s : State) (l : List (Request × State))
    (r r2 : JsVal) (h : ∀ q, c l.length q = .normal r) (h2 : ∀ q, c (l.length + 1) q = .normal r2) (hr : r.isNullish = false)
    (hr2 : r2.isNullish = false) :
    (createSchedule scheduleData c s l).state =
      { schedules := (r2.field "data").or (.arr []), loading := false, error := .null } ∧
    (createSchedule scheduleData c s l).result = .normal (r.field "data") := by
  simp [createSchedule, loadSchedules, analyticsService.scheduleAnalysis, analyticsService.getMySchedules, setLoading, setError, setSchedules,
    tryFinally, MonadFinally.tryFinally', tryCatch, tryCatchThe,
    MonadExcept.tryCatch, bind, Functor.map, pure, throw, throwThe, MonadExcept.throw,
    Async.prop_run, Async.bind, Async.pure, Async.tryCatch, Async.tryFinally, Async.modify, Async.send,
    Async.throw, Async.consoleError, httpClient.get, httpClient.post, httpClient.put,
    httpClient.patch, httpClient.delete, arg_cons_zero, arg_cons_succ, arg_nil, h, h2, hr2, hr]

/-- The requests of `updateSchedule` when the mutation request resolves: the mutation
request, then one reload of the list, whatever the reload answers. -/
theorem updateSchedule_resolve_log (scheduleId updateData : JsVal) (c : HttpClient) (s : State) (l : List (Request × State))
    (r : JsVal) (h : ∀ q, c l.length q = .normal r) :
    (updateSchedule scheduleId updateData c s l).log =
      l ++ [(⟨.put, [.lit BASE_URL, .lit "/advanced/schedule/", .sub scheduleId], [updateData]⟩,
          { s with loading := true, error := .null }),
        (⟨.get, [.lit BASE_URL, .lit "/advanced/schedule/my-schedules"], []⟩,
          { s with loading := true, error := .null })] := by
  simp only [updateSchedule, loadSchedules, analyticsService.updateSchedule, analyticsService.getMySchedules, setLoading, setError, setSchedules,
    tryFinally, MonadFinally.tryFinally', tryCatch, tryCatchThe,
    MonadExcept.tryCatch, bind, Functor.map, pure, throw, throwThe, MonadExcept.throw,
    Async.prop_run, Async.bind, Async.pure, Async.tryCatch, Async.tryFinally, Async.modify, Async.send,
    Async.throw, Async.consoleError, httpClient.get, httpClient.post, httpClient.put,
    httpClient.patch, httpClient.delete, arg_cons_zero, arg_cons_succ, arg_nil, h]
  simp only [List.length_append, List.length_singleton]
  generalize c (l.length + 1) _ = out
  cases out with
  | normal r2 =>
    cases h1 : r.isNullish <;> cases h2 : r2.isNullish <;> simp [h1, h2, Async.pure]
  | thrown e2 =>
    cases h1 : r.isNullish <;> cases h2 : e2.isNullish <;> simp [h1, h2, Async.pure]

/-- The requests of `updateSchedule` when the mutation request rejects: the mutation
request alone. -/
theorem updateSchedule_reject_log (scheduleId updateData : JsVal) (c : HttpClient) (s : State) (l : List (Request × State))
    (e : JsVal) (h : ∀ q, c l.length q = .thrown e) :
    (updateSchedule scheduleId updateData c s l).log =
      l ++ [(⟨.put, [.lit BASE_URL, .lit "/advanced/schedule/", .sub scheduleId], [updateData]⟩,
          { s with loading := true, error := .null })] := by
  simp only [updateSchedule, loadSchedules, analyticsService.updateSchedule, analyticsService.getMySchedules, setLoading, setError, setSchedules,
    tryFinally, MonadFinally.tryFinally', tryCatch, tryCatchThe,
    MonadExcept.tryCatch, bind, Functor.map, pure, throw, throwThe, MonadExcept.throw,
    Async.prop_run, Async.bind, Async.pure, Async.tryCatch, Async.tryFinally, Async.modify, Async.send,
    Async.throw, Async.consoleError, httpClient.get, httpClient.post, httpClient.put,
    httpClient.patch, httpClient.delete, arg_cons_zero, arg_cons_succ, arg_nil, h]
  cases h1 : e.isNullish <;> simp [h1, Async.pure]

/-- The operation `updateSchedule` when the mutation request resolves and the reload of
the list rejects. -/
theorem updateSchedule_reload_reject (scheduleId updateData : JsVal) (c : HttpClient) (s : State) (l : List (Request × State))
    (r e : JsVal) (h : ∀ q, c l.length q = .normal r) (h2 : ∀ q, c (l.length + 1) q = .thrown e) (hr : r.isNullish = false)
    (he : e.isNullish = false) :
    (updateSchedule scheduleId updateData c s l).state =
      { s with loading := false, error := (e.field "message").or (.str "Failed to load schedules") } ∧
    (updateSchedule scheduleId updateData c s l).result = .normal (r.field "data") := by
  simp [updateSchedule, loadSchedules, analyticsService.updateSchedule, analyticsService.getMySchedules, setLoading, setError, setSchedules,
    tryFinally, MonadFinally.tryFinally', tryCatch, tryCatchThe,
    MonadExcept.tryCatch, bind, Functor.map, pure, throw, throwThe, MonadExcept.throw,
    Async.prop_run, Async.bind, Async.pure, Async.tryCatch, Async.tryFinally, Async.modify, Async.send,
    Async.throw, Async.consoleError, httpClient.get, httpClient.post, httpClient.put,
    httpClient.patch, httpClient.delete, arg_cons_zero, arg_cons_succ, arg_nil, h, h2, he, hr]

/-- The operation `updateSchedule` when the mutation request and the reload of the list
both resolve. -/
theorem updateSchedule_reload_resolve (scheduleId updateData : JsVal) (c : HttpClient) (s : State) (l : List (Request × State))
    (r r2 : JsVal) (h : ∀ q, c l.length q = .normal r) (h2 : ∀ q, c (l.length + 1) q = .normal r2) (hr : r.isNullish = false)
    (hr2 : r2.isNullish = false) :
    (updateSchedule scheduleId updateData c s l).state =
      { schedules := (r2.field "data").or (.arr []), loading := false, error := .null } ∧
    (updateSchedule scheduleId updateData c s l).result = .normal (r.field "data") := by
  simp [updateSchedule, loadSchedules, analyticsService.updateSchedule, analyticsService.getMySchedules, setLoading, setError, setSchedules,
    tryFinally, MonadFinally.tryFinally', tryCatch, tryCatchThe,
    MonadExcept.tryCatch, bind, Functor.map, pure, throw, throwThe, MonadExcept.throw,
    Async.prop_run, Async.bind, Async.pure, Async.tryCatch, Async.tryFinally, Async.modify, Async.send,
    Async.throw, Async.consoleError, httpClient.get, httpClient.post, httpClient.put,
    httpClient.patch, httpClient.delete, arg_cons_zero, arg_cons_succ, arg_nil, h, h2, hr2, hr]

/-- The requests of `toggleSchedule` when the mutation request resolves: the mutation
request, then one reload of the list, whatever the reload answers. -/
theorem toggleSchedule_resolve_log (scheduleId : JsVal) (c : HttpClient) (s : State) (l : List (Request × State))
    (r : JsVal) (h : ∀ q, c l.length q = .normal r) :
    (toggleSchedule scheduleId c s l).log =
      l ++ [(⟨.patch, [.lit BASE_URL, .lit "/advanced/schedule/", .sub scheduleId, .lit "/toggle"], []⟩,
          { s with loading := true, error := .null }),
        (⟨.get, [.lit BASE_URL, .lit "/advanced/schedule/my-schedules"], []⟩,
          { s with loading := true, error := .null })] := by
  simp only [toggleSchedule, loadSchedules, analyticsService.toggleSchedule, analyticsService.getMySchedules, setLoading, setError, setSchedules,
    tryFinally, MonadFinally.tryFinally', tryCatch, tryCatchThe,
    MonadExcept.tryCatch, bind, Functor.map, pure, throw, throwThe, MonadExcept.throw,
    Async.prop_run, Async.bind, Async.pure, Async.tryCatch, Async.tryFinally, Async.modify, Async.send,
    Async.throw, Async.consoleError, httpClient.get, httpClient.post, httpClient.put,
    httpClient.patch, httpClient.delete, arg_cons_zero, arg_cons_succ, arg_nil, h]
  simp only [List.length_append, List.length_singleton]
  generalize c (l.length + 1) _ = out
  cases out with
  | normal r2 =>
    cases h1 : r.isNullish <;> cases h2 : r2.isNullish <;> simp [h1, h2, Async.pure]
  | thrown e2 =>
    cases h1 : r.isNullish <;> cases h2 : e2.isNullish <;> simp [h1, h2, Async.pure]

/-- The requests of `toggleSchedule` when the mutation request rejects: the mutation
request alone. -/
theorem toggleSchedule_reject_log (scheduleId : JsVal) (c : HttpClient) (s : State) (l : List (Request × State))
    (e : JsVal) (h : ∀ q, c l.length q = .thrown e) :
    (toggleSchedule scheduleId c s l).log =
      l ++ [(⟨.patch, [.lit BASE_URL, .lit "/advanced/schedule/", .sub scheduleId, .lit "/toggle"], []⟩,
          { s with loading := true, error := .null })] := by
  simp only [toggleSchedule, loadSchedules, analyticsService.toggleSchedule, analyticsService.getMySchedules, setLoading, setError, setSchedules,
    tryFinally, MonadFinally.tryFinally', tryCatch, tryCatchThe,
    MonadExcept.tryCatch, bind, Functor.map, pure, throw, throwThe, MonadExcept.throw,
    Async.prop_run, Async.bind, Async.pure, Async.tryCatch, Async.tryFinally, Async.modify, Async.send,
    Async.throw, Async.consoleError, httpClient.get, httpClient.post, httpClient.put,
    httpClient.patch, httpClient.delete, arg_cons_zero, arg_cons_succ, arg_nil, h]
  cases h1 : e.isNullish <;> simp [h1, Async.pure]

/-- The operation `toggleSchedule` when the mutation request resolves and the reload of
the list rejects. -/
theorem toggleSchedule_reload_reject (scheduleId : JsVal) (c : HttpClient) (s : State) (l : List (Request × State))
    (r e : JsVal) (h : ∀ q, c l.length q = .normal r) (h2 : ∀ q, c (l.length + 1) q = .thrown e) (hr : r.isNullish = false)
    (he : e.isNullish = false) :
    (toggleSchedule scheduleId c s l).state =
      { s with loading := false, error := (e.field "message").or (.str "Failed to load schedules") } ∧
    (toggleSchedule scheduleId c s l).result = .normal (r.field "data") := by
  simp [toggleSchedule, loadSchedules, analyticsService.toggleSchedule, analyticsService.getMySchedules, setLoading, setError, setSchedules,
    tryFinally, MonadFinally.tryFinally', tryCatch, tryCatchThe,
    MonadExcept.tryCatch, bind, Functor.map, pure, throw, throwThe, MonadExcept.throw,
    Async.prop_run, Async.bind, Async.pure, Async.tryCatch, Async.tryFinally, Async.modify, Async.send,
    Async.throw, Async.consoleError, httpClient.get, httpClient.post, httpClient.put,
    httpClient.patch, httpClient.delete, arg_cons_zero, arg_cons_succ, arg_nil, h, h2, he, hr]

/-- The operation `toggleSchedule` when the mutation request and the reload of the list
both resolve. -/
theorem toggleSchedule_reload_resolve (scheduleId : JsVal) (c : HttpClient) (s : State) (l : List (Request × State))
    (r r2 : JsVal) (h : ∀ q, c l.length q = .normal r) (h2 : ∀ q, c (l.length + 1) q = .normal r2) (hr : r.isNullish = false)
    (hr2 : r2.isNullish = false) :
    (toggleSchedule scheduleId c s l).state =
      { schedules := (r2.field "data").or (.arr []), loading := false, error := .null } ∧
    (toggleSchedule scheduleId c s l).result = .normal (r.field "data") := by
  simp [toggleSchedule, loadSchedules, analyticsService.toggleSchedule, analyticsService.getMySchedules, setLoading, setError, setSchedules,
    tryFinally, MonadFinally.tryFinally', tryCatch, tryCatchThe,
    MonadExcept.tryCatch, bind, Functor.map, pure, throw, throwThe, MonadExcept.throw,
    Async.prop_run, Async.bind, Async.pure, Async.tryCatch, Async.tryFinally, Async.modify, Async.send,
    Async.throw, Async.consoleError, httpClient.get, httpClient.post, httpClient.put,
    httpClient.patch, httpClient.delete, arg_cons_zero, arg_cons_succ, arg_nil, h, h2, hr2, hr]

/-- The requests of `deleteSchedule` when the mutation request resolves: the mutation
request, then one reload of the list, whatever the reload answers. -/
theorem deleteSchedule_resolve_log (scheduleId : JsVal) (c : HttpClient) (s : State) (l : List (Request × State))
    (r : JsVal) (h : ∀ q, c l.length q = .normal r) :
    (deleteSchedule scheduleId c s l).log =
      l ++ [(⟨.delete, [.lit BASE_URL, .lit "/advanced/schedule/", .sub scheduleId], []⟩,
          { s with loading := true, error := .null }),
        (⟨.get, [.lit BASE_URL, .lit "/advanced/schedule/my-schedules"], []⟩,
          { s with loading := true, error := .null })] := by
  simp only [deleteSchedule, loadSchedules, analyticsService.deleteSchedule, analyticsService.getMySchedules, setLoading, setError, setSchedules,
    tryFinally, MonadFinally.tryFinally', tryCatch, tryCatchThe,
    MonadExcept.tryCatch, bind, Functor.map, pure, throw, throwThe, MonadExcept.throw,
    Async.prop_run, Async.bind, Async.pure, Async.tryCatch, Async.tryFinally, Async.modify, Async.send,
    Async.throw, Async.consoleError, httpClient.get, httpClient.post, httpClient.put,
    httpClient.patch, httpClient.delete, arg_cons_zero, arg_cons_succ, arg_nil, h]
  simp only [List.length_append, List.length_singleton]
  generalize c (l.length + 1) _ = out
  cases out with
  | normal r2 =>
    cases h1 : r.isNullish <;> cases h2 : r2.isNullish <;> simp [h1, h2, Async.pure]
  | thrown e2 =>
    cases h1 : r.isNullish <;> cases h2 : e2.isNullish <;> simp [h1, h2, Async.pure]

/-- The requests of `deleteSchedule` when the mutation request rejects: the mutation
request alone. -/
theorem deleteSchedule_reject_log (scheduleId : JsVal) (c : HttpClient) (s : State) (l : List (Request × State))
    (e : JsVal) (h : ∀ q, c l.length q = .thrown e) :
    (deleteSchedule scheduleId c s l).log =
      l ++ [(⟨.delete, [.lit BASE_URL, .lit "/advanced/schedule/", .sub scheduleId], []⟩,
          { s with loading := true, error := .null })] := by
  simp only [deleteSchedule, loadSchedules, analyticsService.deleteSchedule, analyticsService.getMySchedules, setLoading, setError, setSchedules,
    tryFinally, MonadFinally.tryFinally', tryCatch, tryCatchThe,
    MonadExcept.tryCatch, bind, Functor.map, pure, throw, throwThe, MonadExcept.throw,
    Async.prop_run, Async.bind, Async.pure, Async.tryCatch, Async.tryFinally, Async.modify, Async.send,
    Async.throw, Async.consoleError, httpClient.get, httpClient.post, httpClient.put,
    httpClient.patch, httpClient.delete, arg_cons_zero, arg_cons_succ, arg_nil, h]
  cases h1 : e.isNullish <;> simp [h1, Async.pure]

/-- The operation `deleteSchedule` when the mutation request resolves and the reload of
the list rejects. -/
theorem deleteSchedule_reload_reject (scheduleId : JsVal) (c : HttpClient) (s : State) (l : List (Request × State))
    (r e : JsVal) (h : ∀ q, c l.length q = .normal r) (h2 : ∀ q, c (l.length + 1) q = .thrown e)
    (he : e.isNullish = false) :
    (deleteSchedule scheduleId c s l).state =
      { s with loading := false, error := (e.field "message").or (.str "Failed to load schedules") } ∧
    (deleteSchedule scheduleId c s l).result = .normal () := by
  simp [deleteSchedule, loadSchedules, analyticsService.deleteSchedule, analyticsService.getMySchedules, setLoading, setError, setSchedules,
    tryFinally, MonadFinally.tryFinally', tryCatch, tryCatchThe,
    MonadExcept.tryCatch, bind, Functor.map, pure, throw, throwThe, MonadExcept.throw,
    Async.prop_run, Async.bind, Async.pure, Async.tryCatch, Async.tryFinally, Async.modify, Async.send,
    Async.throw, Async.consoleError, httpClient.get, httpClient.post, httpClient.put,
    httpClient.patch, httpClient.delete, arg_cons_zero, arg_cons_succ, arg_nil, h, h2, he]

/-- The operation `deleteSchedule` when the mutation request and the reload of the list
both resolve. -/
theorem deleteSchedule_reload_resolve (scheduleId : JsVal) (c : HttpClient) (s : State) (l : List (Request × State))
    (r r2 : JsVal) (h : ∀ q, c l.length q = .normal r) (h2 : ∀ q, c (l.length + 1) q = .normal r2)
    (hr2 : r2.isNullish = false) :
    (deleteSchedule scheduleId c s l).state =
      { schedules := (r2.field "data").or (.arr []), loading := false, error := .null } ∧
    (deleteSchedule scheduleId c s l).result = .normal () := by
  simp [deleteSchedule, loadSchedules, analyticsService.deleteSchedule, analyticsService.getMySchedules, setLoading, setError, setSchedules,
    tryFinally, MonadFinally.tryFinally', tryCatch, tryCatchThe,
    MonadExcept.tryCatch, bind, Functor.map, pure, throw, throwThe, MonadExcept.throw,
    Async.prop_run, Async.bind, Async.pure, Async.tryCatch, Async.tryFinally, Async.modify, Async.send,
    Async.throw, Async.consoleError, httpClient.get, httpClient.post, httpClient.put,
    httpClient.patch, httpClient.delete, arg_cons_zero, arg_cons_succ, arg_nil, h, h2, hr2]

end useScheduleManagement

/-! ## The loading flag along an operation -/

namespace useRecordMetric

/-- The operation `recordMetric` along its run: the request it issues sees `loading`
true and `error` null, and the run ends with `loading` false, whatever the
client answers. -/
theorem recordMetric_phase (metricData : JsVal) (c : HttpClient) (s : State) (l : List (Request × State)) :
    (recordMetric metricData c s l).state.loading = false ∧
    ∃ q st, (recordMetric metricData c s l).log = l ++ [(q, st)] ∧ st.loading = true ∧ st.error = .null := by
  simp only [recordMetric, analyticsService.recordMetric, setLoading, setError,
    tryFinally, MonadFinally.tryFinally', tryCatch, tryCatchThe,
    MonadExcept.tryCatch, bind, Functor.map, pure, throw, throwThe, MonadExcept.throw,
    Async.prop_run, Async.bind, Async.pure, Async.tryCatch, Async.tryFinally, Async.modify, Async.send,
    Async.throw, Async.consoleError, browserDownload, httpClient.get, httpClient.post, httpClient.put,
    httpClient.patch, httpClient.delete, arg_cons_zero, arg_cons_succ, arg_nil]
  generalize c l.length _ = out
  cases out with
  | normal r =>
    cases h1 : r.isNullish <;> cases h2 : (r.field "data").isNullish <;> simp [h1, h2, Async.pure] <;>
      exact ⟨_, _, ⟨rfl, rfl⟩, rfl, rfl⟩
  | thrown e => cases h1 : e.isNullish <;> simp [h1, Async.pure] <;> exact ⟨_, _, ⟨rfl, rfl⟩, rfl, rfl⟩

end useRecordMetric

namespace useRecordMetric

/-- The operation `recordBatch` along its run: the request it issues sees `loading`
true and `error` null, and the run ends with `loading` false, whatever the
client answers. -/
theorem recordBatch_phase (metricsList : JsVal) (c : HttpClient) (s : State) (l : List (Request × State)) :
    (recordBatch metricsList c s l).state.loading = false ∧
    ∃ q st, (recordBatch metricsList c s l).log = l ++ [(q, st)] ∧ st.loading = true ∧ st.error = .null := by
  simp only [recordBatch, analyticsService.recordBatchMetrics, setLoading, setError,
    tryFinally, MonadFinally.tryFinally', tryCatch, tryCatchThe,
    MonadExcept.tryCatch, bind, Functor.map, pure, throw, throwThe, MonadExcept.throw,
    Async.prop_run, Async.bind, Async.pure, Async.tryCatch, Async.tryFinally, Async.modify, Async.send,
    Async.throw, Async.consoleError, browserDownload, httpClient.get, httpClient.post, httpClient.put,
    httpClient.patch, httpClient.delete, arg_cons_zero, arg_cons_succ, arg_nil]
  generalize c l.length _ = out
  cases out with
  | normal r =>
    cases h1 : r.isNullish <;> cases h2 : (r.field "data").isNullish <;> simp [h1, h2, Async.pure] <;>
      exact ⟨_, _, ⟨rfl, rfl⟩, rfl, rfl⟩
  | thrown e => cases h1 : e.isNullish <;> simp [h1, Async.pure] <;> exact ⟨_, _, ⟨rfl, rfl⟩, rfl, rfl⟩

end useRecordMetric

namespace useMetricsByEntity

/-- The operation `loadMetrics` along its run: the request it issues sees `loading`
true and `error` null, and the run ends with `loading` false, whatever the
client answers. -/
theorem loadMetrics_byEntity_phase (hookArgs : List JsVal) (c : HttpClient) (s : State) (l : List (Request × State)) :
    (loadMetrics hookArgs c s l).state.loading = false ∧
    ∃ q st, (loadMetrics hookArgs c s l).log = l ++ [(q, st)] ∧ st.loading = true ∧ st.error = .null := by
  simp only [loadMetrics, analyticsService.getMetricsByEntity, setLoading, setError, setMetrics, setTotalPages,
    tryFinally, MonadFinally.tryFinally', tryCatch, tryCatchThe,
    MonadExcept.tryCatch, bind, Functor.map, pure, throw, throwThe, MonadExcept.throw,
    Async.prop_run, Async.bind, Async.pure, Async.tryCatch, Async.tryFinally, Async.modify, Async.send,
    Async.throw, Async.consoleError, browserDownload, httpClient.get, httpClient.post, httpClient.put,
    httpClient.patch, httpClient.delete, arg_cons_zero, arg_cons_succ, arg_nil]
  generalize c l.length _ = out
  cases out with
  | normal r =>
    cases h1 : r.isNullish <;> cases h2 : (r.field "data").isNullish <;> simp [h1, h2, Async.pure] <;>
      exact ⟨_, _, ⟨rfl, rfl⟩, rfl, rfl⟩
  | thrown e => cases h1 : e.isNullish <;> simp [h1, Async.pure] <;> exact ⟨_, _, ⟨rfl, rfl⟩, rfl, rfl⟩

end useMetricsByEntity

namespace useMetricsByPeriod

/-- The operation `loadMetrics` along its run: the request it issues sees `loading`
true and `error` null, and the run ends with `loading` false, whatever the
client answers. -/
theorem loadMetrics_byPeriod_phase (hookArgs : List JsVal) (c : HttpClient) (s : State) (l : List (Request × State)) :
    (loadMetrics hookArgs c s l).state.loading = false ∧
    ∃ q st, (loadMetrics hookArgs c s l).log = l ++ [(q, st)] ∧ st.loading = true ∧ st.error = .null := by
  simp only [loadMetrics, analyticsService.getMetricsByPeriod, setLoading, setError, setMetrics, setTotalPages,
    tryFinally, MonadFinally.tryFinally', tryCatch, tryCatchThe,
    MonadExcept.tryCatch, bind, Functor.map, pure, throw, throwThe, MonadExcept.throw,
    Async.prop_run, Async.bind, Async.pure, Async.tryCatch, Async.tryFinally, Async.modify, Async.send,
    Async.throw, Async.consoleError, browserDownload, httpClient.get, httpClient.post, httpClient.put,
    httpClient.patch, httpClient.delete, arg_cons_zero, arg_cons_succ, arg_nil]
  generalize c l.length _ = out
  cases out with
  | normal r =>
    cases h1 : r.isNullish <;> cases h2 : (r.field "data").isNullish <;> simp [h1, h2, Async.pure] <;>
      exact ⟨_, _, ⟨rfl, rfl⟩, rfl, rfl⟩
  | thrown e => cases h1 : e.isNullish <;> simp [h1, Async.pure] <;> exact ⟨_, _, ⟨rfl, rfl⟩, rfl, rfl⟩

end useMetricsByPeriod

namespace useAverageMetric

/-- The operation `loadAverage` along its run: the request it issues sees `loading`
true and `error` null, and the run ends with `loading` false, whatever the
client answers. -/
theorem loadAverage_phase (hookArgs : List JsVal) (c : HttpClient) (s : State) (l : List (Request × State)) :
    (loadAverage hookArgs c s l).state.loading = false ∧
    ∃ q st, (loadAverage hookArgs c s l).log = l ++ [(q, st)] ∧ st.loading = true ∧ st.error = .null := by
  simp only [loadAverage, analyticsService.getAverageMetric, setLoading, setError, setAverage,
    tryFinally, MonadFinally.tryFinally', tryCatch, tryCatchThe,
    MonadExcept.tryCatch, bind, Functor.map, pure, throw, throwThe, MonadExcept.throw,
    Async.prop_run, Async.bind, Async.pure, Async.tryCatch, Async.tryFinally, Async.modify, Async.send,
    Async.throw, Async.consoleError, browserDownload, httpClient.get, httpClient.post, httpClient.put,
    httpClient.patch, httpClient.delete, arg_cons_zero, arg_cons_succ, arg_nil]
  generalize c l.length _ = out
  cases out with
  | normal r =>
    cases h1 : r.isNullish <;> cases h2 : (r.field "data").isNullish <;> simp [h1, h2, Async.pure] <;>
      exact ⟨_, _, ⟨rfl, rfl⟩, rfl, rfl⟩
  | thrown e => cases h1 : e.isNullish <;> simp [h1, Async.pure] <;> exact ⟨_, _, ⟨rfl, rfl⟩, rfl, rfl⟩

end useAverageMetric

namespace useMetricsSummary

/-- The operation `loadSummary` along its run: the request it issues sees `loading`
true and `error` null, and the run ends with `loading` false, whatever the
client answers. -/
theorem loadSummary_phase (hookArgs : List JsVal) (c : HttpClient) (s : State) (l : List (Request × State)) :
    (loadSummary hookArgs c s l).state.loading = false ∧
    ∃ q st, (loadSummary hookArgs c s l).log = l ++ [(q, st)] ∧ st.loading = true ∧ st.error = .null := by
  simp only [loadSummary, analyticsService.getMetricsSummary, setLoading, setError, setSummary,
    tryFinally, MonadFinally.tryFinally', tryCatch, tryCatchThe,
    MonadExcept.tryCatch, bind, Functor.map, pure, throw, throwThe, MonadExcept.throw,
    Async.prop_run, Async.bind, Async.pure, Async.tryCatch, Async.tryFinally, Async.modify, Async.send,
    Async.throw, Async.consoleError, browserDownload, httpClient.get, httpClient.post, httpClient.put,
    httpClient.patch, httpClient.delete, arg_cons_zero, arg_cons_succ, arg_nil]
  generalize c l.length _ = out
  cases out with
  | normal r =>
    cases h1 : r.isNullish <;> cases h2 : (r.field "data").isNullish <;> simp [h1, h2, Async.pure] <;>
      exact ⟨_, _, ⟨rfl, rfl⟩, rfl, rfl⟩
  | thrown e => cases h1 : e.isNullish <;> simp [h1, Async.pure] <;> exact ⟨_, _, ⟨rfl, rfl⟩, rfl, rfl⟩

end useMetricsSummary

namespace useMetricsByType

/-- The operation `loadMetrics` along its run: the request it issues sees `loading`
true and `error` null, and the run ends with `loading` false, whatever the
client answers. -/
theorem loadMetrics_byType_phase (hookArgs : List JsVal) (c : HttpClient) (s : State) (l : List (Request × State)) :
    (loadMetrics hookArgs c s l).state.loading = false ∧
    ∃ q st, (loadMetrics hookArgs c s l).log = l ++ [(q, st)] ∧ st.loading = true ∧ st.error = .null := by
  simp only [loadMetrics, analyticsService.getMetricsByType, setLoading, setError, setMetrics, setTotalPages,
    tryFinally, MonadFinally.tryFinally', tryCatch, tryCatchThe,
    MonadExcept.tryCatch, bind, Functor.map, pure, throw, throwThe, MonadExcept.throw,
    Async.prop_run, Async.bind, Async.pure, Async.tryCatch, Async.tryFinally, Async.modify, Async.send,
    Async.throw, Async.consoleError, browserDownload, httpClient.get, httpClient.post, httpClient.put,
    httpClient.patch, httpClient.delete, arg_cons_zero, arg_cons_succ, arg_nil]
  generalize c l.length _ = out
  cases out with
  | normal r =>
    cases h1 : r.isNullish <;> cases h2 : (r.field "data").isNullish <;> simp [h1, h2, Async.pure] <;>
      exact ⟨_, _, ⟨rfl, rfl⟩, rfl, rfl⟩
  | thrown e => cases h1 : e.isNullish <;> simp [h1, Async.pure] <;> exact ⟨_, _, ⟨rfl, rfl⟩, rfl, rfl⟩

end useMetricsByType

namespace useExportReport

/-- The operation `exportPDF` along its run: the request it issues sees `loading`
true and `error` null, and the run ends with `loading` false, whatever the
client answers. -/
theorem exportPDF_phase (reportId : JsVal) (c : HttpClient) (s : State) (l : List (Request × State)) :
    (exportPDF reportId c s l).state.loading = false ∧
    ∃ q st, (exportPDF reportId c s l).log = l ++ [(q, st)] ∧ st.loading = true ∧ st.error = .null := by
  simp only [exportPDF, analyticsService.exportReportPDF, setLoading, setError,
    tryFinally, MonadFinally.tryFinally', tryCatch, tryCatchThe,
    MonadExcept.tryCatch, bind, Functor.map, pure, throw, throwThe, MonadExcept.throw,
    Async.prop_run, Async.bind, Async.pure, Async.tryCatch, Async.tryFinally, Async.modify, Async.send,
    Async.throw, Async.consoleError, browserDownload, httpClient.get, httpClient.post, httpClient.put,
    httpClient.patch, httpClient.delete, arg_cons_zero, arg_cons_succ, arg_nil]
  generalize c l.length _ = out
  cases out with
  | normal r =>
    cases h1 : r.isNullish <;> cases h2 : (r.field "data").isNullish <;> simp [h1, h2, Async.pure] <;>
      exact ⟨_, _, ⟨rfl, rfl⟩, rfl, rfl⟩
  | thrown e => cases h1 : e.isNullish <;> simp [h1, Async.pure] <;> exact ⟨_, _, ⟨rfl, rfl⟩, rfl, rfl⟩

end useExportReport

namespace useExportReport

/-- The operation `exportExcel` along its run: the request it issues sees `loading`
true and `error` null, and the run ends with `loading` false, whatever the
client answers. -/
theorem exportExcel_phase (reportId : JsVal) (c : HttpClient) (s : State) (l : List (Request × State)) :
    (exportExcel reportId c s l).state.loading = false ∧
    ∃ q st, (exportExcel reportId c s l).log = l ++ [(q, st)] ∧ st.loading = true ∧ st.error = .null := by
  simp only [exportExcel, analyticsService.exportReportExcel, setLoading, setError,
    tryFinally, MonadFinally.tryFinally', tryCatch, tryCatchThe,
    MonadExcept.tryCatch, bind, Functor.map, pure, throw, throwThe, MonadExcept.throw,
    Async.prop_run, Async.bind, Async.pure, Async.tryCatch, Async.tryFinally, Async.modify, Async.send,
    Async.throw, Async.consoleError, browserDownload, httpClient.get, httpClient.post, httpClient.put,
    httpClient.patch, httpClient.delete, arg_cons_zero, arg_cons_succ, arg_nil]
  generalize c l.length _ = out
  cases out with
  | normal r =>
    cases h1 : r.isNullish <;> cases h2 : (r.field "data").isNullish <;> simp [h1, h2, Async.pure] <;>
      exact ⟨_, _, ⟨rfl, rfl⟩, rfl, rfl⟩
  | thrown e => cases h1 : e.isNullish <;> simp [h1, Async.pure] <;> exact ⟨_, _, ⟨rfl, rfl⟩, rfl, rfl⟩

end useExportReport

namespace useExportReport

/-- The operation `exportCSV` along its run: the request it issues sees `loading`
true and `error` null, and the run ends with `loading` false, whatever the
client answers. -/
theorem exportCSV_phase (reportId : JsVal) (c : HttpClient) (s : State) (l : List (Request × State)) :
    (exportCSV reportId c s l).state.loading = false ∧
    ∃ q st, (exportCSV reportId c s l).log = l ++ [(q, st)] ∧ st.loading = true ∧ st.error = .null := by
  simp only [exportCSV, analyticsService.exportReportCSV, setLoading, setError,
    tryFinally, MonadFinally.tryFinally', tryCatch, tryCatchThe,
    MonadExcept.tryCatch, bind, Functor.map, pure, throw, throwThe, MonadExcept.throw,
    Async.prop_run, Async.bind, Async.pure, Async.tryCatch, Async.tryFinally, Async.modify, Async.send,
    Async.throw, Async.consoleError, browserDownload, httpClient.get, httpClient.post, httpClient.put,
    httpClient.patch, httpClient.delete, arg_cons_zero, arg_cons_succ, arg_nil]
  generalize c l.length _ = out
  cases out with
  | normal r =>
    cases h1 : r.isNullish <;> cases h2 : (r.field "data").isNullish <;> simp [h1, h2, Async.pure] <;>
      exact ⟨_, _, ⟨rfl, rfl⟩, rfl, rfl⟩
  | thrown e => cases h1 : e.isNullish <;> simp [h1, Async.pure] <;> exact ⟨_, _, ⟨rfl, rfl⟩, rfl, rfl⟩

end useExportReport

namespace useCompareReports

/-- The operation `compareReports` along its run: the request it issues sees `loading`
true and `error` null, and the run ends with `loading` false, whatever the
client answers. -/
theorem compareReports_phase (reportId1 reportId2 : JsVal) (c : HttpClient) (s : State) (l : List (Request × State)) :
    (compareReports reportId1 reportId2 c s l).state.loading = false ∧
    ∃ q st, (compareReports reportId1 reportId2 c s l).log = l ++ [(q, st)] ∧ st.loading = true ∧ st.error = .null := by
  simp only [compareReports, analyticsService.compareReports, setLoading, setError, setComparison,
    tryFinally, MonadFinally.tryFinally', tryCatch, tryCatchThe,
    MonadExcept.tryCatch, bind, Functor.map, pure, throw, throwThe, MonadExcept.throw,
    Async.prop_run, Async.bind, Async.pure, Async.tryCatch, Async.tryFinally, Async.modify, Async.send,
    Async.throw, Async.consoleError, browserDownload, httpClient.get, httpClient.post, httpClient.put,
    httpClient.patch, httpClient.delete, arg_cons_zero, arg_cons_succ, arg_nil]
  generalize c l.length _ = out
  cases out with
  | normal r =>
    cases h1 : r.isNullish <;> cases h2 : (r.field "data").isNullish <;> simp [h1, h2, Async.pure] <;>
      exact ⟨_, _, ⟨rfl, rfl⟩, rfl, rfl⟩
  | thrown e => cases h1 : e.isNullish <;> simp [h1, Async.pure] <;> exact ⟨_, _, ⟨rfl, rfl⟩, rfl, rfl⟩

end useCompareReports

namespace useScheduleManagement

/-- The operation `loadSchedules` along its run: the request it issues sees `loading`
true and `error` null, and the run ends with `loading` false, whatever the
client answers. -/
theorem loadSchedules_phase (c : HttpClient) (s : State) (l : List (Request × State)) :
    (loadSchedules c s l).state.loading = false ∧
    ∃ q st, (loadSchedules c s l).log = l ++ [(q, st)] ∧ st.loading = true ∧ st.error = .null := by
  simp only [loadSchedules, analyticsService.getMySchedules, setLoading, setError, setSchedules,
    tryFinally, MonadFinally.tryFinally', tryCatch, tryCatchThe,
    MonadExcept.tryCatch, bind, Functor.map, pure, throw, throwThe, MonadExcept.throw,
    Async.prop_run, Async.bind, Async.pure, Async.tryCatch, Async.tryFinally, Async.modify, Async.send,
    Async.throw, Async.consoleError, browserDownload, httpClient.get, httpClient.post, httpClient.put,
    httpClient.patch, httpClient.delete, arg_cons_zero, arg_cons_succ, arg_nil]
  generalize c l.length _ = out
  cases out with
  | normal r =>
    cases h1 : r.isNullish <;> cases h2 : (r.field "data").isNullish <;> simp [h1, h2, Async.pure] <;>
      exact ⟨_, _, ⟨rfl, rfl⟩, rfl, rfl⟩
  | thrown e => cases h1 : e.isNullish <;> simp [h1, Async.pure] <;> exact ⟨_, _, ⟨rfl, rfl⟩, rfl, rfl⟩

end useScheduleManagement

namespace useTrendingInsights

/-- The operation `loadTrending` along its run: the request it issues sees `loading`
true and `error` null, and the run ends with `loading` false, whatever the
client answers. -/
theorem loadTrending_phase (hookArgs : List JsVal) (c : HttpClient) (s : State) (l : List (Request × State)) :
    (loadTrending hookArgs c s l).state.loading = false ∧
    ∃ q st, (loadTrending hookArgs c s l).log = l ++ [(q, st)] ∧ st.loading = true ∧ st.error = .null := by
  simp only [loadTrending, analyticsService.getTrendingInsights, setLoading, setError, setInsights, setTotalPages,
    tryFinally, MonadFinally.tryFinally', tryCatch, tryCatchThe,
    MonadExcept.tryCatch, bind, Functor.map, pure, throw, throwThe, MonadExcept.throw,
    Async.prop_run, Async.bind, Async.pure, Async.tryCatch, Async.tryFinally, Async.modify, Async.send,
    Async.throw, Async.consoleError, browserDownload, httpClient.get, httpClient.post, httpClient.put,
    httpClient.patch, httpClient.delete, arg_cons_zero, arg_cons_succ, arg_nil]
  generalize c l.length _ = out
  cases out with
  | normal r =>
    cases h1 : r.isNullish <;> cases h2 : (r.field "data").isNullish <;> simp [h1, h2, Async.pure] <;>
      exact ⟨_, _, ⟨rfl, rfl⟩, rfl, rfl⟩
  | thrown e => cases h1 : e.isNullish <;> simp [h1, Async.pure] <;> exact ⟨_, _, ⟨rfl, rfl⟩, rfl, rfl⟩

end useTrendingInsights

namespace usePerformanceBenchmarks

/-- The operation `loadBenchmarks` along its run: the request it issues sees `loading`
true and `error` null, and the run ends with `loading` false, whatever the
client answers. -/
theorem loadBenchmarks_phase (hookArgs : List JsVal) (c : HttpClient) (s : State) (l : List (Request × State)) :
    (loadBenchmarks hookArgs c s l).state.loading = false ∧
    ∃ q st, (loadBenchmarks hookArgs c s l).log = l ++ [(q, st)] ∧ st.loading = true ∧ st.error = .null := by
  simp only [loadBenchmarks, analyticsService.getPerformanceBenchmarks, setLoading, setError, setBenchmarks,
    tryFinally, MonadFinally.tryFinally', tryCatch, tryCatchThe,
    MonadExcept.tryCatch, bind, Functor.map, pure, throw, throwThe, MonadExcept.throw,
    Async.prop_run, Async.bind, Async.pure, Async.tryCatch, Async.tryFinally, Async.modify, Async.send,
    Async.throw, Async.consoleError, browserDownload, httpClient.get, httpClient.post, httpClient.put,
    httpClient.patch, httpClient.delete, arg_cons_zero, arg_cons_succ, arg_nil]
  generalize c l.length _ = out
  cases out with
  | normal r =>
    cases h1 : r.isNullish <;> cases h2 : (r.field "data").isNullish <;> simp [h1, h2, Async.pure] <;>
      exact ⟨_, _, ⟨rfl, rfl⟩, rfl, rfl⟩
  | thrown e => cases h1 : e.isNullish <;> simp [h1, Async.pure] <;> exact ⟨_, _, ⟨rfl, rfl⟩, rfl, rfl⟩

end usePerformanceBenchmarks

namespace useScheduleManagement

/-- The operation `createSchedule` along its run: every request it issues (the mutation
and, after it, the reload) sees `loading` true and `error` null, and the run
ends with `loading` false, whatever the client answers. -/
theorem createSchedule_phase (scheduleData : JsVal) (c : HttpClient) (s : State) (l : List (Request × State)) :
    (createSchedule scheduleData c s l).state.loading = false ∧
    ∃ new, (createSchedule scheduleData c s l).log = l ++ new ∧ new ≠ [] ∧
      ∀ entry ∈ new, entry.2.loading = true ∧ entry.2.error = .null := by
  simp only [createSchedule, loadSchedules, analyticsService.scheduleAnalysis, analyticsService.getMySchedules,
    setLoading, setError, setSchedules,
    tryFinally, MonadFinally.tryFinally', tryCatch, tryCatchThe,
    MonadExcept.tryCatch, bind, Functor.map, pure, throw, throwThe, MonadExcept.throw,
    Async.prop_run, Async.bind, Async.pure, Async.tryCatch, Async.tryFinally, Async.modify, Async.send,
    Async.throw, Async.consoleError, browserDownload, httpClient.get, httpClient.post, httpClient.put,
    httpClient.patch, httpClient.delete, arg_cons_zero, arg_cons_succ, arg_nil]
  generalize c l.length _ = out
  cases out with
  | thrown e =>
    refine ⟨?_, [(⟨.post, [.lit BASE_URL, .lit "/advanced/schedule"], [scheduleData]⟩,
      { s with loading := true, error := .null })], ?_, by simp, by simp⟩ <;>
      cases h1 : e.isNullish <;> simp [h1, Async.pure]
  | normal r =>
    simp only [List.length_append, List.length_singleton]
    generalize c (l.length + 1) _ = out2
    refine ⟨?_, [(⟨.post, [.lit BASE_URL, .lit "/advanced/schedule"], [scheduleData]⟩,
        { s with loading := true, error := .null }),
      (⟨.get, [.lit BASE_URL, .lit "/advanced/schedule/my-schedules"], []⟩,
        { s with loading := true, error := .null })], ?_, by simp, by simp⟩ <;>
      cases out2 with
      | normal r2 => cases h1 : r.isNullish <;> cases h2 : r2.isNullish <;> simp [h1, h2, Async.pure]
      | thrown e2 => cases h1 : r.isNullish <;> cases h2 : e2.isNullish <;> simp [h1, h2, Async.pure]

end useScheduleManagement

namespace useScheduleManagement

/-- The operation `updateSchedule` along its run: every request it issues (the mutation
and, after it, the reload) sees `loading` true and `error` null, and the run
ends with `loading` false, whatever the client answers. -/
theorem updateSchedule_phase (scheduleId updateData : JsVal) (c : HttpClient) (s : State) (l : List (Request × State)) :
    (updateSchedule scheduleId updateData c s l).state.loading = false ∧
    ∃ new, (updateSchedule scheduleId updateData c s l).log = l ++ new ∧ new ≠ [] ∧
      ∀ entry ∈ new, entry.2.loading = true ∧ entry.2.error = .null := by
  simp only [updateSchedule, loadSchedules, analyticsService.updateSchedule, analyticsService.getMySchedules,
    setLoading, setError, setSchedules,
    tryFinally, MonadFinally.tryFinally', tryCatch, tryCatchThe,
    MonadExcept.tryCatch, bind, Functor.map, pure, throw, throwThe, MonadExcept.throw,
    Async.prop_run, Async.bind, Async.pure, Async.tryCatch, Async.tryFinally, Async.modify, Async.send,
    Async.throw, Async.consoleError, browserDownload, httpClient.get, httpClient.post, httpClient.put,
    httpClient.patch, httpClient.delete, arg_cons_zero, arg_cons_succ, arg_nil]
  generalize c l.length _ = out
  cases out with
  | thrown e =>
    refine ⟨?_, [(⟨.put, [.lit BASE_URL, .lit "/advanced/schedule/", .sub scheduleId], [updateData]⟩,
      { s with loading := true, error := .null })], ?_, by simp, by simp⟩ <;>
      cases h1 : e.isNullish <;> simp [h1, Async.pure]
  | normal r =>
    simp only [List.length_append, List.length_singleton]
    generalize c (l.length + 1) _ = out2
    refine ⟨?_, [(⟨.put, [.lit BASE_URL, .lit "/advanced/schedule/", .sub scheduleId], [updateData]⟩,
        { s with loading := true, error := .null }),
      (⟨.get, [.lit BASE_URL, .lit "/advanced/schedule/my-schedules"], []⟩,
        { s with loading := true, error := .null })], ?_, by simp, by simp⟩ <;>
      cases out2 with
      | normal r2 => cases h1 : r.isNullish <;> cases h2 : r2.isNullish <;> simp [h1, h2, Async.pure]
      | thrown e2 => cases h1 : r.isNullish <;> cases h2 : e2.isNullish <;> simp [h1, h2, Async.pure]

end useScheduleManagement

namespace useScheduleManagement

/-- The operation `toggleSchedule` along its run: every request it issues (the mutation
and, after it, the reload) sees `loading` true and `error` null, and the run
ends with `loading` false, whatever the client answers. -/
theorem toggleSchedule_phase (scheduleId : JsVal) (c : HttpClient) (s : State) (l : List (Request × State)) :
    (toggleSchedule scheduleId c s l).state.loading = false ∧
    ∃ new, (toggleSchedule scheduleId c s l).log = l ++ new ∧ new ≠ [] ∧
      ∀ entry ∈ new, entry.2.loading = true ∧ entry.2.error = .null := by
  simp only [toggleSchedule, loadSchedules, analyticsService.toggleSchedule, analyticsService.getMySchedules,
    setLoading, setError, setSchedules,
    tryFinally, MonadFinally.tryFinally', tryCatch, tryCatchThe,
    MonadExcept.tryCatch, bind, Functor.map, pure, throw, throwThe, MonadExcept.throw,
    Async.prop_run, Async.bind, Async.pure, Async.tryCatch, Async.tryFinally, Async.modify, Async.send,
    Async.throw, Async.consoleError, browserDownload, httpClient.get, httpClient.post, httpClient.put,
    httpClient.patch, httpClient.delete, arg_cons_zero, arg_cons_succ, arg_nil]
  generalize c l.length _ = out
  cases out with
  | thrown e =>
    refine ⟨?_, [(⟨.patch, [.lit BASE_URL, .lit "/advanced/schedule/", .sub scheduleId, .lit "/toggle"], []⟩,
      { s with loading := true, error := .null })], ?_, by simp, by simp⟩ <;>
      cases h1 : e.isNullish <;> simp [h1, Async.pure]
  | normal r =>
    simp only [List.length_append, List.length_singleton]
    generalize c (l.length + 1) _ = out2
    refine ⟨?_, [(⟨.patch, [.lit BASE_URL, .lit "/advanced/schedule/", .sub scheduleId, .lit "/toggle"], []⟩,
        { s with loading := true, error := .null }),
      (⟨.get, [.lit BASE_URL, .lit "/advanced/schedule/my-schedules"], []⟩,
        { s with loading := true, error := .null })], ?_, by simp, by simp⟩ <;>
      cases out2 with
      | normal r2 => cases h1 : r.isNullish <;> cases h2 : r2.isNullish <;> simp [h1, h2, Async.pure]
      | thrown e2 => cases h1 : r.isNullish <;> cases h2 : e2.isNullish <;> simp [h1, h2, Async.pure]

end useScheduleManagement

namespace useScheduleManagement

/-- The operation `deleteSchedule` along its run: every request it issues (the mutation
and, after it, the reload) sees `loading` true and `error` null, and the run
ends with `loading` false, whatever the client answers. -/
theorem deleteSchedule_phase (scheduleId : JsVal) (c : HttpClient) (s : State) (l : List (Request × State)) :
    (deleteSchedule scheduleId c s l).state.loading = false ∧
    ∃ new, (deleteSchedule scheduleId c s l).log = l ++ new ∧ new ≠ [] ∧
      ∀ entry ∈ new, entry.2.loading = true ∧ entry.2.error = .null := by
  simp only [deleteSchedule, loadSchedules, analyticsService.deleteSchedule, analyticsService.getMySchedules,
    setLoading, setError, setSchedules,
    tryFinally, MonadFinally.tryFinally', tryCatch, tryCatchThe,
    MonadExcept.tryCatch, bind, Functor.map, pure, throw, throwThe, MonadExcept.throw,
    Async.prop_run, Async.bind, Async.pure, Async.tryCatch, Async.tryFinally, Async.modify, Async.send,
    Async.throw, Async.consoleError, browserDownload, httpClient.get, httpClient.post, httpClient.put,
    httpClient.patch, httpClient.delete, arg_cons_zero, arg_cons_succ, arg_nil]
  generalize c l.length _ = out
  cases out with
  | thrown e =>
    refine ⟨?_, [(⟨.delete, [.lit BASE_URL, .lit "/advanced/schedule/", .sub scheduleId], []⟩,
      { s with loading := true, error := .null })], ?_, by simp, by simp⟩ <;>
      cases h1 : e.isNullish <;> simp [h1, Async.pure]
  | normal r =>
    simp only [List.length_append, List.length_singleton]
    generalize c (l.length + 1) _ = out2
    refine ⟨?_, [(⟨.delete, [.lit BASE_URL, .lit "/advanced/schedule/", .sub scheduleId], []⟩,
        { s with loading := true, error := .null }),
      (⟨.get, [.lit BASE_URL, .lit "/advanced/schedule/my-schedules"], []⟩,
        { s with loading := true, error := .null })], ?_, by simp, by simp⟩ <;>
      cases out2 with
      | normal r2 => cases h1 : r.isNullish <;> cases h2 : r2.isNullish <;> simp [h1, h2, Async.pure]
      | thrown e2 => cases h1 : r.isNullish <;> cases h2 : e2.isNullish <;> simp [h1, h2, Async.pure]

end useScheduleManagement

/-! ## The schedule mutations and the reload of the list -/

/-- C22: for each schedule mutation of `useScheduleManagement`: when the
mutation request resolves, the requests of the run are the mutation request
followed by exactly one `getMySchedules` request, both issued within the run of
the mutation; when the mutation request rejects with an error value, the
mutation request is the only request (no `getMySchedules`), `schedules` is what
it was and the mutation rejects with that same error. -/
theorem mutation_reloads_once (c : HttpClient) (s : useScheduleManagement.State)
    (l : List (Request × useScheduleManagement.State)) (err : JsVal)
    (herr : err.isNullish = false) :
    (∀ scheduleData,
      (∀ r, (∀ q, c l.length q = .normal r) →
        (useScheduleManagement.createSchedule scheduleData c s l).log =
          l ++ [(⟨.post, [.lit BASE_URL, .lit "/advanced/schedule"], [scheduleData]⟩,
              { s with loading := true, error := .null }),
            (⟨.get, [.lit BASE_URL, .lit "/advanced/schedule/my-schedules"], []⟩,
              { s with loading := true, error := .null })]) ∧
      ((∀ q, c l.length q = .thrown err) →
        (useScheduleManagement.createSchedule scheduleData c s l).log =
          l ++ [(⟨.post, [.lit BASE_URL, .lit "/advanced/schedule"], [scheduleData]⟩,
              { s with loading := true, error := .null })] ∧
        (useScheduleManagement.createSchedule scheduleData c s l).state.schedules = s.schedules ∧
        (useScheduleManagement.createSchedule scheduleData c s l).result = .thrown err)) ∧
    (∀ scheduleId updateData,
      (∀ r, (∀ q, c l.length q = .normal r) →
        (useScheduleManagement.updateSchedule scheduleId updateData c s l).log =
          l ++ [(⟨.put, [.lit BASE_URL, .lit "/advanced/schedule/", .sub scheduleId], [updateData]⟩,
              { s with loading := true, error := .null }),
            (⟨.get, [.lit BASE_URL, .lit "/advanced/schedule/my-schedules"], []⟩,
              { s with loading := true, error := .null })]) ∧
      ((∀ q, c l.length q = .thrown err) →
        (useScheduleManagement.updateSchedule scheduleId updateData c s l).log =
          l ++ [(⟨.put, [.lit BASE_URL, .lit "/advanced/schedule/", .sub scheduleId], [updateData]⟩,
              { s with loading := true, error := .null })] ∧
        (useScheduleManagement.updateSchedule scheduleId updateData c s l).state.schedules = s.schedules ∧
        (useScheduleManagement.updateSchedule scheduleId updateData c s l).result = .thrown err)) ∧
    (∀ scheduleId,
      (∀ r, (∀ q, c l.length q = .normal r) →
        (useScheduleManagement.toggleSchedule scheduleId c s l).log =
          l ++ [(⟨.patch, [.lit BASE_URL, .lit "/advanced/schedule/", .sub scheduleId, .lit "/toggle"], []⟩,
              { s with loading := true, error := .null }),
            (⟨.get, [.lit BASE_URL, .lit "/advanced/schedule/my-schedules"], []⟩,
              { s with loading := true, error := .null })]) ∧
      ((∀ q, c l.length q = .thrown err) →
        (useScheduleManagement.toggleSchedule scheduleId c s l).log =
          l ++ [(⟨.patch, [.lit BASE_URL, .lit "/advanced/schedule/", .sub scheduleId, .lit "/toggle"], []⟩,
              { s with loading := true, error := .null })] ∧
        (useScheduleManagement.toggleSchedule scheduleId c s l).state.schedules = s.schedules ∧
        (useScheduleManagement.toggleSchedule scheduleId c s l).result = .thrown err)) ∧
    (∀ scheduleId,
      (∀ r, (∀ q, c l.length q = .normal r) →
        (useScheduleManagement.deleteSchedule scheduleId c s l).log =
          l ++ [(⟨.delete, [.lit BASE_URL, .lit "/advanced/schedule/", .sub scheduleId], []⟩,
              { s with loading := true, error := .null }),
            (⟨.get, [.lit BASE_URL, .lit "/advanced/schedule/my-schedules"], []⟩,
              { s with loading := true, error := .null })]) ∧
      ((∀ q, c l.length q = .thrown err) →
        (useScheduleManagement.deleteSchedule scheduleId c s l).log =
          l ++ [(⟨.delete, [.lit BASE_URL, .lit "/advanced/schedule/", .sub scheduleId], []⟩,
              { s with loading := true, error := .null })] ∧
        (useScheduleManagement.deleteSchedule scheduleId c s l).state.schedules = s.schedules ∧
        (useScheduleManagement.deleteSchedule scheduleId c s l).result = .thrown err)) := by
  refine ⟨?_, ?_, ?_, ?_⟩
  · intro scheduleData
    refine ⟨fun r h => useScheduleManagement.createSchedule_resolve_log scheduleData c s l r h, fun h => ?_⟩
    rw [useScheduleManagement.createSchedule_reject_log scheduleData c s l err h, (useScheduleManagement.createSchedule_reject scheduleData c s l err h herr).1,
      (useScheduleManagement.createSchedule_reject scheduleData c s l err h herr).2]
    exact ⟨rfl, rfl, rfl⟩
  · intro scheduleId updateData
    refine ⟨fun r h => useScheduleManagement.updateSchedule_resolve_log scheduleId updateData c s l r h, fun h => ?_⟩
    rw [useScheduleManagement.updateSchedule_reject_log scheduleId updateData c s l err h, (useScheduleManagement.updateSchedule_reject scheduleId updateData c s l err h herr).1,
      (useScheduleManagement.updateSchedule_reject scheduleId updateData c s l err h herr).2]
    exact ⟨rfl, rfl, rfl⟩
  · intro scheduleId
    refine ⟨fun r h => useScheduleManagement.toggleSchedule_resolve_log scheduleId c s l r h, fun h => ?_⟩
    rw [useScheduleManagement.toggleSchedule_reject_log scheduleId c s l err h, (useScheduleManagement.toggleSchedule_reject scheduleId c s l err h herr).1,
      (useScheduleManagement.toggleSchedule_reject scheduleId c s l err h herr).2]
    exact ⟨rfl, rfl, rfl⟩
  · intro scheduleId
    refine ⟨fun r h => useScheduleManagement.deleteSchedule_resolve_log scheduleId c s l r h, fun h => ?_⟩
    rw [useScheduleManagement.deleteSchedule_reject_log scheduleId c s l err h, (useScheduleManagement.deleteSchedule_reject scheduleId c s l err h herr).1,
      (useScheduleManagement.deleteSchedule_reject scheduleId c s l err h herr).2]
    exact ⟨rfl, rfl, rfl⟩

/-- Witness of C22: `deleteSchedule(5)` with every request resolving, and with
the deletion refused. -/
theorem mutation_reloads_once_witness :
    (useScheduleManagement.deleteSchedule (.num 5) (fun _ _ => .normal (.obj [("data", .arr [])]))
      useScheduleManagement.init []).log.length = 2 ∧
    (useScheduleManagement.deleteSchedule (.num 5)
      (fun _ _ => .thrown (.obj [("message", .str "Forbidden")]))
      useScheduleManagement.init []).result = .thrown (.obj [("message", .str "Forbidden")]) :=
  ⟨by
      rw [((mutation_reloads_once (fun _ _ => .normal (.obj [("data", .arr [])]))
        useScheduleManagement.init [] (.obj []) rfl).2.2.2 (.num 5)).1
        (.obj [("data", .arr [])]) (fun _ => rfl)]
      rfl,
   (((mutation_reloads_once (fun _ _ => .thrown (.obj [("message", .str "Forbidden")]))
      useScheduleManagement.init [] (.obj [("message", .str "Forbidden")]) rfl).2.2.2 (.num 5)).2
      (fun _ => rfl)).2.2⟩

/-- C26, counterexample: `deleteSchedule(5)` whose request resolves with the
payload `{ deleted: true }` and whose reload rejects: the operation completes
without a value, not with the payload of the response. -/
theorem reload_failure_counterexample :
    (useScheduleManagement.deleteSchedule (.num 5)
      (fun k _ => if k = 0 then .normal (.obj [("data", .obj [("deleted", .bool true)])])
        else .thrown (.obj [("message", .str "Network Error")]))
      useScheduleManagement.init []).result = .normal () ∧
    (JsVal.obj [("data", .obj [("deleted", .bool true)])]).field "data" ≠ .undefined := by
  refine ⟨?_, by simp [JsVal.field, JsVal.lookup]⟩
  exact (useScheduleManagement.deleteSchedule_reload_reject (.num 5) _ _ _
    (.obj [("data", .obj [("deleted", .bool true)])]) (.obj [("message", .str "Network Error")])
    (fun _ => rfl) (fun _ => rfl) rfl).2

/-- C26 as amended: in `useScheduleManagement`, when the request of a mutation
resolves with a response object and the reload of the list that follows rejects
with an error value, the mutation does not reject: `createSchedule`,
`updateSchedule` and `toggleSchedule` resolve with the payload of the mutation's
response and `deleteSchedule` resolves without a value; `schedules` keeps its
previous value, `error` is left non-null with the message of the reload's error
(or "Failed to load schedules" when it has none), and `loading` is false. -/
theorem reload_failure_after_mutation (c : HttpClient) (s : useScheduleManagement.State)
    (l : List (Request × useScheduleManagement.State)) (r e : JsVal)
    (h : ∀ q, c l.length q = .normal r) (h2 : ∀ q, c (l.length + 1) q = .thrown e)
    (hr : r.isNullish = false) (he : e.isNullish = false) :
    (∀ scheduleData,
      (useScheduleManagement.createSchedule scheduleData c s l).result = .normal (r.field "data") ∧
      (useScheduleManagement.createSchedule scheduleData c s l).state.schedules = s.schedules ∧
      (useScheduleManagement.createSchedule scheduleData c s l).state.error = (transportMessage e).or (.str "Failed to load schedules") ∧
      (useScheduleManagement.createSchedule scheduleData c s l).state.error ≠ .null ∧
      (useScheduleManagement.createSchedule scheduleData c s l).state.loading = false) ∧
    (∀ scheduleId updateData,
      (useScheduleManagement.updateSchedule scheduleId updateData c s l).result = .normal (r.field "data") ∧
      (useScheduleManagement.updateSchedule scheduleId updateData c s l).state.schedules = s.schedules ∧
      (useScheduleManagement.updateSchedule scheduleId updateData c s l).state.error = (transportMessage e).or (.str "Failed to load schedules") ∧
      (useScheduleManagement.updateSchedule scheduleId updateData c s l).state.error ≠ .null ∧
      (useScheduleManagement.updateSchedule scheduleId updateData c s l).state.loading = false) ∧
    (∀ scheduleId,
      (useScheduleManagement.toggleSchedule scheduleId c s l).result = .normal (r.field "data") ∧
      (useScheduleManagement.toggleSchedule scheduleId c s l).state.schedules = s.schedules ∧
      (useScheduleManagement.toggleSchedule scheduleId c s l).state.error = (transportMessage e).or (.str "Failed to load schedules") ∧
      (useScheduleManagement.toggleSchedule scheduleId c s l).state.error ≠ .null ∧
      (useScheduleManagement.toggleSchedule scheduleId c s l).state.loading = false) ∧
    (∀ scheduleId,
      (useScheduleManagement.deleteSchedule scheduleId c s l).result = .normal () ∧
      (useScheduleManagement.deleteSchedule scheduleId c s l).state.schedules = s.schedules ∧
      (useScheduleManagement.deleteSchedule scheduleId c s l).state.error = (transportMessage e).or (.str "Failed to load schedules") ∧
      (useScheduleManagement.deleteSchedule scheduleId c s l).state.error ≠ .null ∧
      (useScheduleManagement.deleteSchedule scheduleId c s l).state.loading = false) := by
  refine ⟨?_, ?_, ?_, ?_⟩
  · intro scheduleData
    rw [(useScheduleManagement.createSchedule_reload_reject scheduleData c s l r e h h2 hr he).1,
      (useScheduleManagement.createSchedule_reload_reject scheduleData c s l r e h h2 hr he).2]
    exact ⟨rfl, rfl, rfl, or_str_ne_null _ _, rfl⟩
  · intro scheduleId updateData
    rw [(useScheduleManagement.updateSchedule_reload_reject scheduleId updateData c s l r e h h2 hr he).1,
      (useScheduleManagement.updateSchedule_reload_reject scheduleId updateData c s l r e h h2 hr he).2]
    exact ⟨rfl, rfl, rfl, or_str_ne_null _ _, rfl⟩
  · intro scheduleId
    rw [(useScheduleManagement.toggleSchedule_reload_reject scheduleId c s l r e h h2 hr he).1,
      (useScheduleManagement.toggleSchedule_reload_reject scheduleId c s l r e h h2 hr he).2]
    exact ⟨rfl, rfl, rfl, or_str_ne_null _ _, rfl⟩
  · intro scheduleId
    rw [(useScheduleManagement.deleteSchedule_reload_reject scheduleId c s l r e h h2 he).1,
      (useScheduleManagement.deleteSchedule_reload_reject scheduleId c s l r e h h2 he).2]
    exact ⟨rfl, rfl, rfl, or_str_ne_null _ _, rfl⟩

/-- Witness of C26 as amended: `createSchedule` accepted, the reload failing. -/
theorem reload_failure_after_mutation_witness :
    (useScheduleManagement.createSchedule (.obj [])
      (fun k _ => if k = 0 then .normal (.obj [("data", .obj [("id", .num 9)])])
        else .thrown (.obj [("message", .str "Network Error")]))
      useScheduleManagement.init []).result = .normal (.obj [("id", .num 9)]) :=
  ((reload_failure_after_mutation
    (fun k _ => if k = 0 then .normal (.obj [("data", .obj [("id", .num 9)])])
      else .thrown (.obj [("message", .str "Network Error")]))
    useScheduleManagement.init [] (.obj [("data", .obj [("id", .num 9)])])
    (.obj [("message", .str "Network Error")]) (fun _ => rfl) (fun _ => rfl) rfl rfl).1 (.obj [])).1

/-! ## The loading flag as phase marker -/

/-- C23: for every operation of the hooks of `useMetrics.js` and
`useAdvancedAnalytics.js`, run alone: `loading` is false in the initial state;
from any state before, whatever error it holds, every wrapper call of the
operation is issued with `loading` true and `error` null, the state in which the
call stays until it settles; and the operation ends with `loading` false,
whatever the client answers, success or failure. -/
theorem loading_marks_the_phase (c : HttpClient) :
    (useRecordMetric.init.loading = false ∧
      useMetricsByEntity.init.loading = false ∧
      useMetricsByPeriod.init.loading = false ∧
      useAverageMetric.init.loading = false ∧
      useMetricsSummary.init.loading = false ∧
      useMetricsByType.init.loading = false ∧
      useExportReport.init.loading = false ∧
      useCompareReports.init.loading = false ∧
      useScheduleManagement.init.loading = false ∧
      useTrendingInsights.init.loading = false ∧
      usePerformanceBenchmarks.init.loading = false) ∧
    (∀ metricData s l, (useRecordMetric.recordMetric metricData c s l).state.loading = false ∧
      ∃ q st, (useRecordMetric.recordMetric metricData c s l).log = l ++ [(q, st)] ∧ st.loading = true ∧ st.error = .null) ∧
    (∀ metricsList s l, (useRecordMetric.recordBatch metricsList c s l).state.loading = false ∧
      ∃ q st, (useRecordMetric.recordBatch metricsList c s l).log = l ++ [(q, st)] ∧ st.loading = true ∧ st.error = .null) ∧
    (∀ hookArgs s l, (useMetricsByEntity.loadMetrics hookArgs c s l).state.loading = false ∧
      ∃ q st, (useMetricsByEntity.loadMetrics hookArgs c s l).log = l ++ [(q, st)] ∧ st.loading = true ∧ st.error = .null) ∧
    (∀ hookArgs s l, (useMetricsByPeriod.loadMetrics hookArgs c s l).state.loading = false ∧
      ∃ q st, (useMetricsByPeriod.loadMetrics hookArgs c s l).log = l ++ [(q, st)] ∧ st.loading = true ∧ st.error = .null) ∧
    (∀ hookArgs s l, (useAverageMetric.loadAverage hookArgs c s l).state.loading = false ∧
      ∃ q st, (useAverageMetric.loadAverage hookArgs c s l).log = l ++ [(q, st)] ∧ st.loading = true ∧ st.error = .null) ∧
    (∀ hookArgs s l, (useMetricsSummary.loadSummary hookArgs c s l).state.loading = false ∧
      ∃ q st, (useMetricsSummary.loadSummary hookArgs c s l).log = l ++ [(q, st)] ∧ st.loading = true ∧ st.error = .null) ∧
    (∀ hookArgs s l, (useMetricsByType.loadMetrics hookArgs c s l).state.loading = false ∧
      ∃ q st, (useMetricsByType.loadMetrics hookArgs c s l).log = l ++ [(q, st)] ∧ st.loading = true ∧ st.error = .null) ∧
    (∀ reportId s l, (useExportReport.exportPDF reportId c s l).state.loading = false ∧
      ∃ q st, (useExportReport.exportPDF reportId c s l).log = l ++ [(q, st)] ∧ st.loading = true ∧ st.error = .null) ∧
    (∀ reportId s l, (useExportReport.exportExcel reportId c s l).state.loading = false ∧
      ∃ q st, (useExportReport.exportExcel reportId c s l).log = l ++ [(q, st)] ∧ st.loading = true ∧ st.error = .null) ∧
    (∀ reportId s l, (useExportReport.exportCSV reportId c s l).state.loading = false ∧
      ∃ q st, (useExportReport.exportCSV reportId c s l).log = l ++ [(q, st)] ∧ st.loading = true ∧ st.error = .null) ∧
    (∀ reportId1 reportId2 s l, (useCompareReports.compareReports reportId1 reportId2 c s l).state.loading = false ∧
      ∃ q st, (useCompareReports.compareReports reportId1 reportId2 c s l).log = l ++ [(q, st)] ∧ st.loading = true ∧ st.error = .null) ∧
    (∀ s l, (useScheduleManagement.loadSchedules c s l).state.loading = false ∧
      ∃ q st, (useScheduleManagement.loadSchedules c s l).log = l ++ [(q, st)] ∧ st.loading = true ∧ st.error = .null) ∧
    (∀ hookArgs s l, (useTrendingInsights.loadTrending hookArgs c s l).state.loading = false ∧
      ∃ q st, (useTrendingInsights.loadTrending hookArgs c s l).log = l ++ [(q, st)] ∧ st.loading = true ∧ st.error = .null) ∧
    (∀ hookArgs s l, (usePerformanceBenchmarks.loadBenchmarks hookArgs c s l).state.loading = false ∧
      ∃ q st, (usePerformanceBenchmarks.loadBenchmarks hookArgs c s l).log = l ++ [(q, st)] ∧ st.loading = true ∧ st.error = .null) ∧
    (∀ scheduleData s l, (useScheduleManagement.createSchedule scheduleData c s l).state.loading = false ∧
      ∃ new, (useScheduleManagement.createSchedule scheduleData c s l).log = l ++ new ∧ new ≠ [] ∧
        ∀ entry ∈ new, entry.2.loading = true ∧ entry.2.error = .null) ∧
    (∀ scheduleId updateData s l, (useScheduleManagement.updateSchedule scheduleId updateData c s l).state.loading = false ∧
      ∃ new, (useScheduleManagement.updateSchedule scheduleId updateData c s l).log = l ++ new ∧ new ≠ [] ∧
        ∀ entry ∈ new, entry.2.loading = true ∧ entry.2.error = .null) ∧
    (∀ scheduleId s l, (useScheduleManagement.toggleSchedule scheduleId c s l).state.loading = false ∧
      ∃ new, (useScheduleManagement.toggleSchedule scheduleId c s l).log = l ++ new ∧ new ≠ [] ∧
        ∀ entry ∈ new, entry.2.loading = true ∧ entry.2.error = .null) ∧
    (∀ scheduleId s l, (useScheduleManagement.deleteSchedule scheduleId c s l).state.loading = false ∧
      ∃ new, (useScheduleManagement.deleteSchedule scheduleId c s l).log = l ++ new ∧ new ≠ [] ∧
        ∀ entry ∈ new, entry.2.loading = true ∧ entry.2.error = .null) := by
  refine ⟨?_, ?_, ?_, ?_, ?_, ?_, ?_, ?_, ?_, ?_, ?_, ?_, ?_, ?_, ?_, ?_, ?_, ?_, ?_⟩
  · exact ⟨rfl, rfl, rfl, rfl, rfl, rfl, rfl, rfl, rfl, rfl, rfl⟩
  · exact fun metricData s l => useRecordMetric.recordMetric_phase metricData c s l
  · exact fun metricsList s l => useRecordMetric.recordBatch_phase metricsList c s l
  · exact fun hookArgs s l => useMetricsByEntity.loadMetrics_byEntity_phase hookArgs c s l
  · exact fun hookArgs s l => useMetricsByPeriod.loadMetrics_byPeriod_phase hookArgs c s l
  · exact fun hookArgs s l => useAverageMetric.loadAverage_phase hookArgs c s l
  · exact fun hookArgs s l => useMetricsSummary.loadSummary_phase hookArgs c s l
  · exact fun hookArgs s l => useMetricsByType.loadMetrics_byType_phase hookArgs c s l
  · exact fun reportId s l => useExportReport.exportPDF_phase reportId c s l
  · exact fun reportId s l => useExportReport.exportExcel_phase reportId c s l
  · exact fun reportId s l => useExportReport.exportCSV_phase reportId c s l
  · exact fun reportId1 reportId2 s l => useCompareReports.compareReports_phase reportId1 reportId2 c s l
  · exact fun s l => useScheduleManagement.loadSchedules_phase c s l
  · exact fun hookArgs s l => useTrendingInsights.loadTrending_phase hookArgs c s l
  · exact fun hookArgs s l => usePerformanceBenchmarks.loadBenchmarks_phase hookArgs c s l
  · exact fun scheduleData s l => useScheduleManagement.createSchedule_phase scheduleData c s l
  · exact fun scheduleId updateData s l => useScheduleManagement.updateSchedule_phase scheduleId updateData c s l
  · exact fun scheduleId s l => useScheduleManagement.toggleSchedule_phase scheduleId c s l
  · exact fun scheduleId s l => useScheduleManagement.deleteSchedule_phase scheduleId c s l


/-! ## Overlapping loads of the read hooks -/

namespace useMetricsByEntity

/-- Run alone, the split `loadMetrics` is the function `loadMetrics`. -/
theorem loadMetrics_byEntity_split (hookArgs : List JsVal) (c : HttpClient) (s : State) (l : List (Request × State)) :
    (loadMetricsSplit hookArgs).run c s l = loadMetrics hookArgs c s l := by
  simp only [loadMetricsSplit, AwaitSplit.run, Async.call, Async.settled, loadMetrics, analyticsService.getMetricsByEntity,
    setLoading, setError, setMetrics, setTotalPages, tryFinally, MonadFinally.tryFinally', tryCatch, tryCatchThe,
    MonadExcept.tryCatch, bind, Functor.map, pure, throw, throwThe, MonadExcept.throw,
    Async.prop_run, Async.bind, Async.pure, Async.tryCatch, Async.tryFinally, Async.modify, Async.send,
    Async.throw, Async.consoleError, browserDownload, httpClient.get, httpClient.post, httpClient.put,
    httpClient.patch, httpClient.delete, arg_cons_zero, arg_cons_succ, arg_nil]
  generalize c l.length _ = out
  cases out with
  | normal r => cases h1 : r.isNullish <;> cases h2 : (r.field "data").isNullish <;> simp [h1, h2, Async.pure, Async.throw]
  | thrown e => cases h1 : e.isNullish <;> simp [h1, Async.pure, Async.throw]

/-- Two overlapping runs of `loadMetrics` whose requests both resolve: the data left is
the one of the response that settles last, both runs complete, and both requests
are issued, each as in a run alone. -/
theorem loadMetrics_byEntity_overlap (argsA argsB : List JsVal) (c : HttpClient) (s : State)
    (l : List (Request × State)) (rA rB : JsVal) (aSettlesLast : Bool)
    (hA : ∀ q, c l.length q = .normal rA) (hB : ∀ q, c (l.length + 1) q = .normal rB)
    (hrA : rA.isNullish = false) (hrB : rB.isNullish = false)
    (hdA : (rA.field "data").isNullish = false) (hdB : (rB.field "data").isNullish = false) :
    ((loadMetricsSplit argsA).overlap (loadMetricsSplit argsB) aSettlesLast c s l).state.metrics =
        (((if aSettlesLast then rA else rB).field "data").field "content").or (.arr []) ∧
      ((loadMetricsSplit argsA).overlap (loadMetricsSplit argsB) aSettlesLast c s l).result =
        .normal (.normal (), .normal ()) ∧
      ∃ eA eB, (loadMetrics argsA c s l).log = l ++ [eA] ∧ (loadMetrics argsB c s l).log = l ++ [eB] ∧
        ((loadMetricsSplit argsA).overlap (loadMetricsSplit argsB) aSettlesLast c s l).log = l ++ [eA, eB] := by
  simp only [loadMetrics_byEntity_log]
  cases aSettlesLast <;>
  simp [loadMetricsSplit, AwaitSplit.overlap, AwaitSplit.finish, Async.call, Async.settled,
    analyticsService.getMetricsByEntity, setLoading, setError, setMetrics, setTotalPages, tryFinally, MonadFinally.tryFinally', tryCatch, tryCatchThe,
    MonadExcept.tryCatch, bind, Functor.map, pure, throw, throwThe, MonadExcept.throw,
    Async.prop_run, Async.bind, Async.pure, Async.tryCatch, Async.tryFinally, Async.modify, Async.send,
    Async.throw, Async.consoleError, browserDownload, httpClient.get, httpClient.post, httpClient.put,
    httpClient.patch, httpClient.delete, arg_cons_zero, arg_cons_succ, arg_nil,
    hA, hB, hrA, hrB, hdA, hdB]

end useMetricsByEntity

namespace useMetricsByPeriod

/-- Run alone, the split `loadMetrics` is the function `loadMetrics`. -/
theorem loadMetrics_byPeriod_split (hookArgs : List JsVal) (c : HttpClient) (s : State) (l : List (Request × State)) :
    (loadMetricsSplit hookArgs).run c s l = loadMetrics hookArgs c s l := by
  simp only [loadMetricsSplit, AwaitSplit.run, Async.call, Async.settled, loadMetrics, analyticsService.getMetricsByPeriod,
    setLoading, setError, setMetrics, setTotalPages, tryFinally, MonadFinally.tryFinally', tryCatch, tryCatchThe,
    MonadExcept.tryCatch, bind, Functor.map, pure, throw, throwThe, MonadExcept.throw,
    Async.prop_run, Async.bind, Async.pure, Async.tryCatch, Async.tryFinally, Async.modify, Async.send,
    Async.throw, Async.consoleError, browserDownload, httpClient.get, httpClient.post, httpClient.put,
    httpClient.patch, httpClient.delete, arg_cons_zero, arg_cons_succ, arg_nil]
  generalize c l.length _ = out
  cases out with
  | normal r => cases h1 : r.isNullish <;> cases h2 : (r.field "data").isNullish <;> simp [h1, h2, Async.pure, Async.throw]
  | thrown e => cases h1 : e.isNullish <;> simp [h1, Async.pure, Async.throw]

/-- Two overlapping runs of `loadMetrics` whose requests both resolve: the data left is
the one of the response that settles last, both runs complete, and both requests
are issued, each as in a run alone. -/
theorem loadMetrics_byPeriod_overlap (argsA argsB : List JsVal) (c : HttpClient) (s : State)
    (l : List (Request × State)) (rA rB : JsVal) (aSettlesLast : Bool)
    (hA : ∀ q, c l.length q = .normal rA) (hB : ∀ q, c (l.length + 1) q = .normal rB)
    (hrA : rA.isNullish = false) (hrB : rB.isNullish = false)
    (hdA : (rA.field "data").isNullish = false) (hdB : (rB.field "data").isNullish = false) :
    ((loadMetricsSplit argsA).overlap (loadMetricsSplit argsB) aSettlesLast c s l).state.metrics =
        (((if aSettlesLast then rA else rB).field "data").field "content").or (.arr []) ∧
      ((loadMetricsSplit argsA).overlap (loadMetricsSplit argsB) aSettlesLast c s l).result =
        .normal (.normal (), .normal ()) ∧
      ∃ eA eB, (loadMetrics argsA c s l).log = l ++ [eA] ∧ (loadMetrics argsB c s l).log = l ++ [eB] ∧
        ((loadMetricsSplit argsA).overlap (loadMetricsSplit argsB) aSettlesLast c s l).log = l ++ [eA, eB] := by
  simp only [loadMetrics_byPeriod_log]
  cases aSettlesLast <;>
  simp [loadMetricsSplit, AwaitSplit.overlap, AwaitSplit.finish, Async.call, Async.settled,
    analyticsService.getMetricsByPeriod, setLoading, setError, setMetrics, setTotalPages, tryFinally, MonadFinally.tryFinally', tryCatch, tryCatchThe,
    MonadExcept.tryCatch, bind, Functor.map, pure, throw, throwThe, MonadExcept.throw,
    Async.prop_run, Async.bind, Async.pure, Async.tryCatch, Async.tryFinally, Async.modify, Async.send,
    Async.throw, Async.consoleError, browserDownload, httpClient.get, httpClient.post, httpClient.put,
    httpClient.patch, httpClient.delete, arg_cons_zero, arg_cons_succ, arg_nil,
    hA, hB, hrA, hrB, hdA, hdB]

end useMetricsByPeriod

namespace useMetricsByType

/-- Run alone, the split `loadMetrics` is the function `loadMetrics`. -/
theorem loadMetrics_byType_split (hookArgs : List JsVal) (c : HttpClient) (s : State) (l : List (Request × State)) :
    (loadMetricsSplit hookArgs).run c s l = loadMetrics hookArgs c s l := by
  simp only [loadMetricsSplit, AwaitSplit.run, Async.call, Async.settled, loadMetrics, analyticsService.getMetricsByType,
    setLoading, setError, setMetrics, setTotalPages, tryFinally, MonadFinally.tryFinally', tryCatch, tryCatchThe,
    MonadExcept.tryCatch, bind, Functor.map, pure, throw, throwThe, MonadExcept.throw,
    Async.prop_run, Async.bind, Async.pure, Async.tryCatch, Async.tryFinally, Async.modify, Async.send,
    Async.throw, Async.consoleError, browserDownload, httpClient.get, httpClient.post, httpClient.put,
    httpClient.patch, httpClient.delete, arg_cons_zero, arg_cons_succ, arg_nil]
  generalize c l.length _ = out
  cases out with
  | normal r => cases h1 : r.isNullish <;> cases h2 : (r.field "data").isNullish <;> simp [h1, h2, Async.pure, Async.throw]
  | thrown e => cases h1 : e.isNullish <;> simp [h1, Async.pure, Async.throw]

/-- Two overlapping runs of `loadMetrics` whose requests both resolve: the data left is
the one of the response that settles last, both runs complete, and both requests
are issued, each as in a run alone. -/
theorem loadMetrics_byType_overlap (argsA argsB : List JsVal) (c : HttpClient) (s : State)
    (l : List (Request × State)) (rA rB : JsVal) (aSettlesLast : Bool)
    (hA : ∀ q, c l.length q = .normal rA) (hB : ∀ q, c (l.length + 1) q = .normal rB)
    (hrA : rA.isNullish = false) (hrB : rB.isNullish = false)
    (hdA : (rA.field "data").isNullish = false) (hdB : (rB.field "data").isNullish = false) :
    ((loadMetricsSplit argsA).overlap (loadMetricsSplit argsB) aSettlesLast c s l).state.metrics =
        (((if aSettlesLast then rA else rB).field "data").field "content").or (.arr []) ∧
      ((loadMetricsSplit argsA).overlap (loadMetricsSplit argsB) aSettlesLast c s l).result =
        .normal (.normal (), .normal ()) ∧
      ∃ eA eB, (loadMetrics argsA c s l).log = l ++ [eA] ∧ (loadMetrics argsB c s l).log = l ++ [eB] ∧
        ((loadMetricsSplit argsA).overlap (loadMetricsSplit argsB) aSettlesLast c s l).log = l ++ [eA, eB] := by
  simp only [loadMetrics_byType_log]
  cases aSettlesLast <;>
  simp [loadMetricsSplit, AwaitSplit.overlap, AwaitSplit.finish, Async.call, Async.settled,
    analyticsService.getMetricsByType, setLoading, setError, setMetrics, setTotalPages, tryFinally, MonadFinally.tryFinally', tryCatch, tryCatchThe,
    MonadExcept.tryCatch, bind, Functor.map, pure, throw, throwThe, MonadExcept.throw,
    Async.prop_run, Async.bind, Async.pure, Async.tryCatch, Async.tryFinally, Async.modify, Async.send,
    Async.throw, Async.consoleError, browserDownload, httpClient.get, httpClient.post, httpClient.put,
    httpClient.patch, httpClient.delete, arg_cons_zero, arg_cons_succ, arg_nil,
    hA, hB, hrA, hrB, hdA, hdB]

end useMetricsByType

namespace useTrendingInsights

/-- Run alone, the split `loadTrending` is the function `loadTrending`. -/
theorem loadTrending_split (hookArgs : List JsVal) (c : HttpClient) (s : State) (l : List (Request × State)) :
    (loadTrendingSplit hookArgs).run c s l = loadTrending hookArgs c s l := by
  simp only [loadTrendingSplit, AwaitSplit.run, Async.call, Async.settled, loadTrending, analyticsService.getTrendingInsights,
    setLoading, setError, setInsights, setTotalPages, tryFinally, MonadFinally.tryFinally', tryCatch, tryCatchThe,
    MonadExcept.tryCatch, bind, Functor.map, pure, throw, throwThe, MonadExcept.throw,
    Async.prop_run, Async.bind, Async.pure, Async.tryCatch, Async.tryFinally, Async.modify, Async.send,
    Async.throw, Async.consoleError, browserDownload, httpClient.get, httpClient.post, httpClient.put,
    httpClient.patch, httpClient.delete, arg_cons_zero, arg_cons_succ, arg_nil]
  generalize c l.length _ = out
  cases out with
  | normal r => cases h1 : r.isNullish <;> cases h2 : (r.field "data").isNullish <;> simp [h1, h2, Async.pure, Async.throw]
  | thrown e => cases h1 : e.isNullish <;> simp [h1, Async.pure, Async.throw]

/-- Two overlapping runs of `loadTrending` whose requests both resolve: the data left is
the one of the response that settles last, both runs complete, and both requests
are issued, each as in a run alone. -/
theorem loadTrending_overlap (argsA argsB : List JsVal) (c : HttpClient) (s : State)
    (l : List (Request × State)) (rA rB : JsVal) (aSettlesLast : Bool)
    (hA : ∀ q, c l.length q = .normal rA) (hB : ∀ q, c (l.length + 1) q = .normal rB)
    (hrA : rA.isNullish = false) (hrB : rB.isNullish = false)
    (hdA : (rA.field "data").isNullish = false) (hdB : (rB.field "data").isNullish = false) :
    ((loadTrendingSplit argsA).overlap (loadTrendingSplit argsB) aSettlesLast c s l).state.insights =
        (((if aSettlesLast then rA else rB).field "data").field "content").or (.arr []) ∧
      ((loadTrendingSplit argsA).overlap (loadTrendingSplit argsB) aSettlesLast c s l).result =
        .normal (.normal (), .normal ()) ∧
      ∃ eA eB, (loadTrending argsA c s l).log = l ++ [eA] ∧ (loadTrending argsB c s l).log = l ++ [eB] ∧
        ((loadTrendingSplit argsA).overlap (loadTrendingSplit argsB) aSettlesLast c s l).log = l ++ [eA, eB] := by
  simp only [loadTrending_log]
  cases aSettlesLast <;>
  simp [loadTrendingSplit, AwaitSplit.overlap, AwaitSplit.finish, Async.call, Async.settled,
    analyticsService.getTrendingInsights, setLoading, setError, setInsights, setTotalPages, tryFinally, MonadFinally.tryFinally', tryCatch, tryCatchThe,
    MonadExcept.tryCatch, bind, Functor.map, pure, throw, throwThe, MonadExcept.throw,
    Async.prop_run, Async.bind, Async.pure, Async.tryCatch, Async.tryFinally, Async.modify, Async.send,
    Async.throw, Async.consoleError, browserDownload, httpClient.get, httpClient.post, httpClient.put,
    httpClient.patch, httpClient.delete, arg_cons_zero, arg_cons_succ, arg_nil,
    hA, hB, hrA, hrB, hdA, hdB, argOr_argOr _ _ _ (rfl : (JsVal.num 7).isNullish = false)]

end useTrendingInsights

namespace useAverageMetric

/-- Run alone, the split `loadAverage` is the function `loadAverage`. -/
theorem loadAverage_split (hookArgs : List JsVal) (c : HttpClient) (s : State) (l : List (Request × State)) :
    (loadAverageSplit hookArgs).run c s l = loadAverage hookArgs c s l := by
  simp only [loadAverageSplit, AwaitSplit.run, Async.call, Async.settled, loadAverage, analyticsService.getAverageMetric,
    setLoading, setError, setAverage, tryFinally, MonadFinally.tryFinally', tryCatch, tryCatchThe,
    MonadExcept.tryCatch, bind, Functor.map, pure, throw, throwThe, MonadExcept.throw,
    Async.prop_run, Async.bind, Async.pure, Async.tryCatch, Async.tryFinally, Async.modify, Async.send,
    Async.throw, Async.consoleError, browserDownload, httpClient.get, httpClient.post, httpClient.put,
    httpClient.patch, httpClient.delete, arg_cons_zero, arg_cons_succ, arg_nil]
  generalize c l.length _ = out
  cases out with
  | normal r => cases h1 : r.isNullish <;> simp [h1, Async.pure, Async.throw]
  | thrown e => cases h1 : e.isNullish <;> simp [h1, Async.pure, Async.throw]

/-- Two overlapping runs of `loadAverage` whose requests both resolve: the data left is
the one of the response that settles last, both runs complete, and both requests
are issued, each as in a run alone. -/
theorem loadAverage_overlap (argsA argsB : List JsVal) (c : HttpClient) (s : State)
    (l : List (Request × State)) (rA rB : JsVal) (aSettlesLast : Bool)
    (hA : ∀ q, c l.length q = .normal rA) (hB : ∀ q, c (l.length + 1) q = .normal rB)
    (hrA : rA.isNullish = false) (hrB : rB.isNullish = false) :
    ((loadAverageSplit argsA).overlap (loadAverageSplit argsB) aSettlesLast c s l).state.average =
        (if aSettlesLast then rA else rB).field "data" ∧
      ((loadAverageSplit argsA).overlap (loadAverageSplit argsB) aSettlesLast c s l).result =
        .normal (.normal (), .normal ()) ∧
      ∃ eA eB, (loadAverage argsA c s l).log = l ++ [eA] ∧ (loadAverage argsB c s l).log = l ++ [eB] ∧
        ((loadAverageSplit argsA).overlap (loadAverageSplit argsB) aSettlesLast c s l).log = l ++ [eA, eB] := by
  simp only [loadAverage_log]
  cases aSettlesLast <;>
  simp [loadAverageSplit, AwaitSplit.overlap, AwaitSplit.finish, Async.call, Async.settled,
    analyticsService.getAverageMetric, setLoading, setError, setAverage, tryFinally, MonadFinally.tryFinally', tryCatch, tryCatchThe,
    MonadExcept.tryCatch, bind, Functor.map, pure, throw, throwThe, MonadExcept.throw,
    Async.prop_run, Async.bind, Async.pure, Async.tryCatch, Async.tryFinally, Async.modify, Async.send,
    Async.throw, Async.consoleError, browserDownload, httpClient.get, httpClient.post, httpClient.put,
    httpClient.patch, httpClient.delete, arg_cons_zero, arg_cons_succ, arg_nil,
    hA, hB, hrA, hrB]

end useAverageMetric

namespace useMetricsSummary

/-- Run alone, the split `loadSummary` is the function `loadSummary`. -/
theorem loadSummary_split (hookArgs : List JsVal) (c : HttpClient) (s : State) (l : List (Request × State)) :
    (loadSummarySplit hookArgs).run c s l = loadSummary hookArgs c s l := by
  simp only [loadSummarySplit, AwaitSplit.run, Async.call, Async.settled, loadSummary, analyticsService.getMetricsSummary,
    setLoading, setError, setSummary, tryFinally, MonadFinally.tryFinally', tryCatch, tryCatchThe,
    MonadExcept.tryCatch, bind, Functor.map, pure, throw, throwThe, MonadExcept.throw,
    Async.prop_run, Async.bind, Async.pure, Async.tryCatch, Async.tryFinally, Async.modify, Async.send,
    Async.throw, Async.consoleError, browserDownload, httpClient.get, httpClient.post, httpClient.put,
    httpClient.patch, httpClient.delete, arg_cons_zero, arg_cons_succ, arg_nil]
  generalize c l.length _ = out
  cases out with
  | normal r => cases h1 : r.isNullish <;> simp [h1, Async.pure, Async.throw]
  | thrown e => cases h1 : e.isNullish <;> simp [h1, Async.pure, Async.throw]

/-- Two overlapping runs of `loadSummary` whose requests both resolve: the data left is
the one of the response that settles last, both runs complete, and both requests
are issued, each as in a run alone. -/
theorem loadSummary_overlap (argsA argsB : List JsVal) (c : HttpClient) (s : State)
    (l : List (Request × State)) (rA rB : JsVal) (aSettlesLast : Bool)
    (hA : ∀ q, c l.length q = .normal rA) (hB : ∀ q, c (l.length + 1) q = .normal rB)
    (hrA : rA.isNullish = false) (hrB : rB.isNullish = false) :
    ((loadSummarySplit argsA).overlap (loadSummarySplit argsB) aSettlesLast c s l).state.summary =
        (if aSettlesLast then rA else rB).field "data" ∧
      ((loadSummarySplit argsA).overlap (loadSummarySplit argsB) aSettlesLast c s l).result =
        .normal (.normal (), .normal ()) ∧
      ∃ eA eB, (loadSummary argsA c s l).log = l ++ [eA] ∧ (loadSummary argsB c s l).log = l ++ [eB] ∧
        ((loadSummarySplit argsA).overlap (loadSummarySplit argsB) aSettlesLast c s l).log = l ++ [eA, eB] := by
  simp only [loadSummary_log]
  cases aSettlesLast <;>
  simp [loadSummarySplit, AwaitSplit.overlap, AwaitSplit.finish, Async.call, Async.settled,
    analyticsService.getMetricsSummary, setLoading, setError, setSummary, tryFinally, MonadFinally.tryFinally', tryCatch, tryCatchThe,
    MonadExcept.tryCatch, bind, Functor.map, pure, throw, throwThe, MonadExcept.throw,
    Async.prop_run, Async.bind, Async.pure, Async.tryCatch, Async.tryFinally, Async.modify, Async.send,
    Async.throw, Async.consoleError, browserDownload, httpClient.get, httpClient.post, httpClient.put,
    httpClient.patch, httpClient.delete, arg_cons_zero, arg_cons_succ, arg_nil,
    hA, hB, hrA, hrB]

end useMetricsSummary

namespace usePerformanceBenchmarks

/-- Run alone, the split `loadBenchmarks` is the function `loadBenchmarks`. -/
theorem loadBenchmarks_split (hookArgs : List JsVal) (c : HttpClient) (s : State) (l : List (Request × State)) :
    (loadBenchmarksSplit hookArgs).run c s l = loadBenchmarks hookArgs c s l := by
  simp only [loadBenchmarksSplit, AwaitSplit.run, Async.call, Async.settled, loadBenchmarks, analyticsService.getPerformanceBenchmarks,
    setLoading, setError, setBenchmarks, tryFinally, MonadFinally.tryFinally', tryCatch, tryCatchThe,
    MonadExcept.tryCatch, bind, Functor.map, pure, throw, throwThe, MonadExcept.throw,
    Async.prop_run, Async.bind, Async.pure, Async.tryCatch, Async.tryFinally, Async.modify, Async.send,
    Async.throw, Async.consoleError, browserDownload, httpClient.get, httpClient.post, httpClient.put,
    httpClient.patch, httpClient.delete, arg_cons_zero, arg_cons_succ, arg_nil]
  generalize c l.length _ = out
  cases out with
  | normal r => cases h1 : r.isNullish <;> simp [h1, Async.pure, Async.throw]
  | thrown e => cases h1 : e.isNullish <;> simp [h1, Async.pure, Async.throw]

/-- Two overlapping runs of `loadBenchmarks` whose requests both resolve: the data left is
the one of the response that settles last, both runs complete, and both requests
are issued, each as in a run alone. -/
theorem loadBenchmarks_overlap (argsA argsB : List JsVal) (c : HttpClient) (s : State)
    (l : List (Request × State)) (rA rB : JsVal) (aSettlesLast : Bool)
    (hA : ∀ q, c l.length q = .normal rA) (hB : ∀ q, c (l.length + 1) q = .normal rB)
    (hrA : rA.isNullish = false) (hrB : rB.isNullish = false) :
    ((loadBenchmarksSplit argsA).overlap (loadBenchmarksSplit argsB) aSettlesLast c s l).state.benchmarks =
        (if aSettlesLast then rA else rB).field "data" ∧
      ((loadBenchmarksSplit argsA).overlap (loadBenchmarksSplit argsB) aSettlesLast c s l).result =
        .normal (.normal (), .normal ()) ∧
      ∃ eA eB, (loadBenchmarks argsA c s l).log = l ++ [eA] ∧ (loadBenchmarks argsB c s l).log = l ++ [eB] ∧
        ((loadBenchmarksSplit argsA).overlap (loadBenchmarksSplit argsB) aSettlesLast c s l).log = l ++ [eA, eB] := by
  simp only [loadBenchmarks_log]
  cases aSettlesLast <;>
  simp [loadBenchmarksSplit, AwaitSplit.overlap, AwaitSplit.finish, Async.call, Async.settled,
    analyticsService.getPerformanceBenchmarks, setLoading, setError, setBenchmarks, tryFinally, MonadFinally.tryFinally', tryCatch, tryCatchThe,
    MonadExcept.tryCatch, bind, Functor.map, pure, throw, throwThe, MonadExcept.throw,
    Async.prop_run, Async.bind, Async.pure, Async.tryCatch, Async.tryFinally, Async.modify, Async.send,
    Async.throw, Async.consoleError, browserDownload, httpClient.get, httpClient.post, httpClient.put,
    httpClient.patch, httpClient.delete, arg_cons_zero, arg_cons_succ, arg_nil,
    hA, hB, hrA, hrB]

end usePerformanceBenchmarks

namespace useScheduleManagement

/-- Run alone, the split `loadSchedules` is the function `loadSchedules`. -/
theorem loadSchedules_split (c : HttpClient) (s : State) (l : List (Request × State)) :
    (loadSchedulesSplit).run c s l = loadSchedules c s l := by
  simp only [loadSchedulesSplit, AwaitSplit.run, Async.call, Async.settled, loadSchedules, analyticsService.getMySchedules,
    setLoading, setError, setSchedules, tryFinally, MonadFinally.tryFinally', tryCatch, tryCatchThe,
    MonadExcept.tryCatch, bind, Functor.map, pure, throw, throwThe, MonadExcept.throw,
    Async.prop_run, Async.bind, Async.pure, Async.tryCatch, Async.tryFinally, Async.modify, Async.send,
    Async.throw, Async.consoleError, browserDownload, httpClient.get, httpClient.post, httpClient.put,
    httpClient.patch, httpClient.delete, arg_cons_zero, arg_cons_succ, arg_nil]
  generalize c l.length _ = out
  cases out with
  | normal r => cases h1 : r.isNullish <;> simp [h1, Async.pure, Async.throw]
  | thrown e => cases h1 : e.isNullish <;> simp [h1, Async.pure, Async.throw]

/-- Two overlapping runs of `loadSchedules` whose requests both resolve: the data left is
the one of the response that settles last, both runs complete, and both requests
are issued, each as in a run alone. -/
theorem loadSchedules_overlap (c : HttpClient) (s : State)
    (l : List (Request × State)) (rA rB : JsVal) (aSettlesLast : Bool)
    (hA : ∀ q, c l.length q = .normal rA) (hB : ∀ q, c (l.length + 1) q = .normal rB)
    (hrA : rA.isNullish = false) (hrB : rB.isNullish = false) :
    ((loadSchedulesSplit).overlap (loadSchedulesSplit) aSettlesLast c s l).state.schedules =
        ((if aSettlesLast then rA else rB).field "data").or (.arr []) ∧
      ((loadSchedulesSplit).overlap (loadSchedulesSplit) aSettlesLast c s l).result =
        .normal (.normal (), .normal ()) ∧
      ∃ eA eB, (loadSchedules c s l).log = l ++ [eA] ∧ (loadSchedules c s l).log = l ++ [eB] ∧
        ((loadSchedulesSplit).overlap (loadSchedulesSplit) aSettlesLast c s l).log = l ++ [eA, eB] := by
  simp only [loadSchedules_log]
  cases aSettlesLast <;>
  simp [loadSchedulesSplit, AwaitSplit.overlap, AwaitSplit.finish, Async.call, Async.settled,
    analyticsService.getMySchedules, setLoading, setError, setSchedules, tryFinally, MonadFinally.tryFinally', tryCatch, tryCatchThe,
    MonadExcept.tryCatch, bind, Functor.map, pure, throw, throwThe, MonadExcept.throw,
    Async.prop_run, Async.bind, Async.pure, Async.tryCatch, Async.tryFinally, Async.modify, Async.send,
    Async.throw, Async.consoleError, browserDownload, httpClient.get, httpClient.post, httpClient.put,
    httpClient.patch, httpClient.delete, arg_cons_zero, arg_cons_succ, arg_nil,
    hA, hB, hrA, hrB]

end useScheduleManagement


/-- C30: for every read load and two overlapping runs of it, `A` called first
and `B` called while the request of `A` is in flight, whose requests both
resolve with response objects: when the response of `A` settles after the one of
`B`, the data left is the unwrapped payload of `A`, and when the response of `B`
settles after the one of `A`, it is the unwrapped payload of `B`; in both orders
both runs complete and both requests are issued, each as in a run alone, so the
call of `B` cancels nothing. -/
theorem last_response_wins (c : HttpClient) (rA rB : JsVal) (argsA argsB : List JsVal)
    (hrA : rA.isNullish = false) (hrB : rB.isNullish = false) :
    (∀ s l, (∀ q, c l.length q = .normal rA) → (∀ q, c (l.length + 1) q = .normal rB) →
      (rA.field "data").isNullish = false → (rB.field "data").isNullish = false →
      ((rA.field "data").field "content").isListPayload = true →
      ((rB.field "data").field "content").isListPayload = true →
      ((useMetricsByEntity.loadMetricsSplit argsA).overlap (useMetricsByEntity.loadMetricsSplit argsB) true c s l).state.metrics
          = unwrapList ((rA.field "data").field "content") ∧
      ((useMetricsByEntity.loadMetricsSplit argsA).overlap (useMetricsByEntity.loadMetricsSplit argsB) false c s l).state.metrics
          = unwrapList ((rB.field "data").field "content") ∧
      ∀ settlesLast,
        ((useMetricsByEntity.loadMetricsSplit argsA).overlap (useMetricsByEntity.loadMetricsSplit argsB) settlesLast c s l).result
            = .normal (.normal (), .normal ()) ∧
        ∃ eA eB, (useMetricsByEntity.loadMetrics argsA c s l).log = l ++ [eA] ∧
          (useMetricsByEntity.loadMetrics argsB c s l).log = l ++ [eB] ∧
          ((useMetricsByEntity.loadMetricsSplit argsA).overlap (useMetricsByEntity.loadMetricsSplit argsB) settlesLast c s l).log
            = l ++ [eA, eB]) ∧
    (∀ s l, (∀ q, c l.length q = .normal rA) → (∀ q, c (l.length + 1) q = .normal rB) →
      (rA.field "data").isNullish = false → (rB.field "data").isNullish = false →
      ((rA.field "data").field "content").isListPayload = true →
      ((rB.field "data").field "content").isListPayload = true →
      ((useMetricsByPeriod.loadMetricsSplit argsA).overlap (useMetricsByPeriod.loadMetricsSplit argsB) true c s l).state.metrics
          = unwrapList ((rA.field "data").field "content") ∧
      ((useMetricsByPeriod.loadMetricsSplit argsA).overlap (useMetricsByPeriod.loadMetricsSplit argsB) false c s l).state.metrics
          = unwrapList ((rB.field "data").field "content") ∧
      ∀ settlesLast,
        ((useMetricsByPeriod.loadMetricsSplit argsA).overlap (useMetricsByPeriod.loadMetricsSplit argsB) settlesLast c s l).result
            = .normal (.normal (), .normal ()) ∧
        ∃ eA eB, (useMetricsByPeriod.loadMetrics argsA c s l).log = l ++ [eA] ∧
          (useMetricsByPeriod.loadMetrics argsB c s l).log = l ++ [eB] ∧
          ((useMetricsByPeriod.loadMetricsSplit argsA).overlap (useMetricsByPeriod.loadMetricsSplit argsB) settlesLast c s l).log
            = l ++ [eA, eB]) ∧
    (∀ s l, (∀ q, c l.length q = .normal rA) → (∀ q, c (l.length + 1) q = .normal rB) →
      (rA.field "data").isNullish = false → (rB.field "data").isNullish = false →
      ((rA.field "data").field "content").isListPayload = true →
      ((rB.field "data").field "content").isListPayload = true →
      ((useMetricsByType.loadMetricsSplit argsA).overlap (useMetricsByType.loadMetricsSplit argsB) true c s l).state.metrics
          = unwrapList ((rA.field "data").field "content") ∧
      ((useMetricsByType.loadMetricsSplit argsA).overlap (useMetricsByType.loadMetricsSplit argsB) false c s l).state.metrics
          = unwrapList ((rB.field "data").field "content") ∧
      ∀ settlesLast,
        ((useMetricsByType.loadMetricsSplit argsA).overlap (useMetricsByType.loadMetricsSplit argsB) settlesLast c s l).result
            = .normal (.normal (), .normal ()) ∧
        ∃ eA eB, (useMetricsByType.loadMetrics argsA c s l).log = l ++ [eA] ∧
          (useMetricsByType.loadMetrics argsB c s l).log = l ++ [eB] ∧
          ((useMetricsByType.loadMetricsSplit argsA).overlap (useMetricsByType.loadMetricsSplit argsB) settlesLast c s l).log
            = l ++ [eA, eB]) ∧
    (∀ s l, (∀ q, c l.length q = .normal rA) → (∀ q, c (l.length + 1) q = .normal rB) →
      (rA.field "data").isNullish = false → (rB.field "data").isNullish = false →
      ((rA.field "data").field "content").isListPayload = true →
      ((rB.field "data").field "content").isListPayload = true →
      ((useTrendingInsights.loadTrendingSplit argsA).overlap (useTrendingInsights.loadTrendingSplit argsB) true c s l).state.insights
          = unwrapList ((rA.field "data").field "content") ∧
      ((useTrendingInsights.loadTrendingSplit argsA).overlap (useTrendingInsights.loadTrendingSplit argsB) false c s l).state.insights
          = unwrapList ((rB.field "data").field "content") ∧
      ∀ settlesLast,
        ((useTrendingInsights.loadTrendingSplit argsA).overlap (useTrendingInsights.loadTrendingSplit argsB) settlesLast c s l).result
            = .normal (.normal (), .normal ()) ∧
        ∃ eA eB, (useTrendingInsights.loadTrending argsA c s l).log = l ++ [eA] ∧
          (useTrendingInsights.loadTrending argsB c s l).log = l ++ [eB] ∧
          ((useTrendingInsights.loadTrendingSplit argsA).overlap (useTrendingInsights.loadTrendingSplit argsB) settlesLast c s l).log
            = l ++ [eA, eB]) ∧
    (∀ s l, (∀ q, c l.length q = .normal rA) → (∀ q, c (l.length + 1) q = .normal rB) →
      ((useAverageMetric.loadAverageSplit argsA).overlap (useAverageMetric.loadAverageSplit argsB) true c s l).state.average
          = rA.field "data" ∧
      ((useAverageMetric.loadAverageSplit argsA).overlap (useAverageMetric.loadAverageSplit argsB) false c s l).state.average
          = rB.field "data" ∧
      ∀ settlesLast,
        ((useAverageMetric.loadAverageSplit argsA).overlap (useAverageMetric.loadAverageSplit argsB) settlesLast c s l).result
            = .normal (.normal (), .normal ()) ∧
        ∃ eA eB, (useAverageMetric.loadAverage argsA c s l).log = l ++ [eA] ∧
          (useAverageMetric.loadAverage argsB c s l).log = l ++ [eB] ∧
          ((useAverageMetric.loadAverageSplit argsA).overlap (useAverageMetric.loadAverageSplit argsB) settlesLast c s l).log
            = l ++ [eA, eB]) ∧
    (∀ s l, (∀ q, c l.length q = .normal rA) → (∀ q, c (l.length + 1) q = .normal rB) →
      ((useMetricsSummary.loadSummarySplit argsA).overlap (useMetricsSummary.loadSummarySplit argsB) true c s l).state.summary
          = rA.field "data" ∧
      ((useMetricsSummary.loadSummarySplit argsA).overlap (useMetricsSummary.loadSummarySplit argsB) false c s l).state.summary
          = rB.field "data" ∧
      ∀ settlesLast,
        ((useMetricsSummary.loadSummarySplit argsA).overlap (useMetricsSummary.loadSummarySplit argsB) settlesLast c s l).result
            = .normal (.normal (), .normal ()) ∧
        ∃ eA eB, (useMetricsSummary.loadSummary argsA c s l).log = l ++ [eA] ∧
          (useMetricsSummary.loadSummary argsB c s l).log = l ++ [eB] ∧
          ((useMetricsSummary.loadSummarySplit argsA).overlap (useMetricsSummary.loadSummarySplit argsB) settlesLast c s l).log
            = l ++ [eA, eB]) ∧
    (∀ s l, (∀ q, c l.length q = .normal rA) → (∀ q, c (l.length + 1) q = .normal rB) →
      ((usePerformanceBenchmarks.loadBenchmarksSplit argsA).overlap (usePerformanceBenchmarks.loadBenchmarksSplit argsB) true c s l).state.benchmarks
          = rA.field "data" ∧
      ((usePerformanceBenchmarks.loadBenchmarksSplit argsA).overlap (usePerformanceBenchmarks.loadBenchmarksSplit argsB) false c s l).state.benchmarks
          = rB.field "data" ∧
      ∀ settlesLast,
        ((usePerformanceBenchmarks.loadBenchmarksSplit argsA).overlap (usePerformanceBenchmarks.loadBenchmarksSplit argsB) settlesLast c s l).result
            = .normal (.normal (), .normal ()) ∧
        ∃ eA eB, (usePerformanceBenchmarks.loadBenchmarks argsA c s l).log = l ++ [eA] ∧
          (usePerformanceBenchmarks.loadBenchmarks argsB c s l).log = l ++ [eB] ∧
          ((usePerformanceBenchmarks.loadBenchmarksSplit argsA).overlap (usePerformanceBenchmarks.loadBenchmarksSplit argsB) settlesLast c s l).log
            = l ++ [eA, eB]) ∧
    (∀ s l, (∀ q, c l.length q = .normal rA) → (∀ q, c (l.length + 1) q = .normal rB) →
      (rA.field "data").isListPayload = true →
      (rB.field "data").isListPayload = true →
      ((useScheduleManagement.loadSchedulesSplit).overlap (useScheduleManagement.loadSchedulesSplit) true c s l).state.schedules
          = unwrapList (rA.field "data") ∧
      ((useScheduleManagement.loadSchedulesSplit).overlap (useScheduleManagement.loadSchedulesSplit) false c s l).state.schedules
          = unwrapList (rB.field "data") ∧
      ∀ settlesLast,
        ((useScheduleManagement.loadSchedulesSplit).overlap (useScheduleManagement.loadSchedulesSplit) settlesLast c s l).result
            = .normal (.normal (), .normal ()) ∧
        ∃ eA eB, (useScheduleManagement.loadSchedules c s l).log = l ++ [eA] ∧
          (useScheduleManagement.loadSchedules c s l).log = l ++ [eB] ∧
          ((useScheduleManagement.loadSchedulesSplit).overlap (useScheduleManagement.loadSchedulesSplit) settlesLast c s l).log
            = l ++ [eA, eB]) := by
  refine ⟨?_, ?_, ?_, ?_, ?_, ?_, ?_, ?_⟩
  · intro s l hA hB hdA hdB hpA hpB
    refine ⟨?_, ?_, fun settlesLast => ?_⟩
    · exact by rw [(useMetricsByEntity.loadMetrics_byEntity_overlap argsA argsB c s l rA rB true hA hB hrA hrB hdA hdB).1]; exact or_empty_eq_unwrapList _ hpA
    · exact by rw [(useMetricsByEntity.loadMetrics_byEntity_overlap argsA argsB c s l rA rB false hA hB hrA hrB hdA hdB).1]; exact or_empty_eq_unwrapList _ hpB
    · exact (useMetricsByEntity.loadMetrics_byEntity_overlap argsA argsB c s l rA rB settlesLast hA hB hrA hrB hdA hdB).2
  · intro s l hA hB hdA hdB hpA hpB
    refine ⟨?_, ?_, fun settlesLast => ?_⟩
    · exact by rw [(useMetricsByPeriod.loadMetrics_byPeriod_overlap argsA argsB c s l rA rB true hA hB hrA hrB hdA hdB).1]; exact or_empty_eq_unwrapList _ hpA
    · exact by rw [(useMetricsByPeriod.loadMetrics_byPeriod_overlap argsA argsB c s l rA rB false hA hB hrA hrB hdA hdB).1]; exact or_empty_eq_unwrapList _ hpB
    · exact (useMetricsByPeriod.loadMetrics_byPeriod_overlap argsA argsB c s l rA rB settlesLast hA hB hrA hrB hdA hdB).2
  · intro s l hA hB hdA hdB hpA hpB
    refine ⟨?_, ?_, fun settlesLast => ?_⟩
    · exact by rw [(useMetricsByType.loadMetrics_byType_overlap argsA argsB c s l rA rB true hA hB hrA hrB hdA hdB).1]; exact or_empty_eq_unwrapList _ hpA
    · exact by rw [(useMetricsByType.loadMetrics_byType_overlap argsA argsB c s l rA rB false hA hB hrA hrB hdA hdB).1]; exact or_empty_eq_unwrapList _ hpB
    · exact (useMetricsByType.loadMetrics_byType_overlap argsA argsB c s l rA rB settlesLast hA hB hrA hrB hdA hdB).2
  · intro s l hA hB hdA hdB hpA hpB
    refine ⟨?_, ?_, fun settlesLast => ?_⟩
    · exact by rw [(useTrendingInsights.loadTrending_overlap argsA argsB c s l rA rB true hA hB hrA hrB hdA hdB).1]; exact or_empty_eq_unwrapList _ hpA
    · exact by rw [(useTrendingInsights.loadTrending_overlap argsA argsB c s l rA rB false hA hB hrA hrB hdA hdB).1]; exact or_empty_eq_unwrapList _ hpB
    · exact (useTrendingInsights.loadTrending_overlap argsA argsB c s l rA rB settlesLast hA hB hrA hrB hdA hdB).2
  · intro s l hA hB
    refine ⟨?_, ?_, fun settlesLast => ?_⟩
    · exact (useAverageMetric.loadAverage_overlap argsA argsB c s l rA rB true hA hB hrA hrB).1
    · exact (useAverageMetric.loadAverage_overlap argsA argsB c s l rA rB false hA hB hrA hrB).1
    · exact (useAverageMetric.loadAverage_overlap argsA argsB c s l rA rB settlesLast hA hB hrA hrB).2
  · intro s l hA hB
    refine ⟨?_, ?_, fun settlesLast => ?_⟩
    · exact (useMetricsSummary.loadSummary_overlap argsA argsB c s l rA rB true hA hB hrA hrB).1
    · exact (useMetricsSummary.loadSummary_overlap argsA argsB c s l rA rB false hA hB hrA hrB).1
    · exact (useMetricsSummary.loadSummary_overlap argsA argsB c s l rA rB settlesLast hA hB hrA hrB).2
  · intro s l hA hB
    refine ⟨?_, ?_, fun settlesLast => ?_⟩
    · exact (usePerformanceBenchmarks.loadBenchmarks_overlap argsA argsB c s l rA rB true hA hB hrA hrB).1
    · exact (usePerformanceBenchmarks.loadBenchmarks_overlap argsA argsB c s l rA rB false hA hB hrA hrB).1
    · exact (usePerformanceBenchmarks.loadBenchmarks_overlap argsA argsB c s l rA rB settlesLast hA hB hrA hrB).2
  · intro s l hA hB hpA hpB
    refine ⟨?_, ?_, fun settlesLast => ?_⟩
    · exact by rw [(useScheduleManagement.loadSchedules_overlap c s l rA rB true hA hB hrA hrB).1]; exact or_empty_eq_unwrapList _ hpA
    · exact by rw [(useScheduleManagement.loadSchedules_overlap c s l rA rB false hA hB hrA hrB).1]; exact or_empty_eq_unwrapList _ hpB
    · exact (useScheduleManagement.loadSchedules_overlap c s l rA rB settlesLast hA hB hrA hrB).2

/-- Witness of C30: two overlapping loads of `useMetricsByEntity` from the
initial state, the first answered with the page `["a"]`, the second with the
page `["b"]`: the metrics left are `["a"]` when the first response settles last
and `["b"]` when the second does. -/
theorem last_response_wins_witness :
    ((useMetricsByEntity.loadMetricsSplit [.str "VEHICLE", .num 1]).overlap
        (useMetricsByEntity.loadMetricsSplit [.str "VEHICLE", .num 2]) true
        (fun k _ => match k with
          | 0 => .normal (.obj [("data", .obj [("content", .arr [.str "a"])])])
          | _ => .normal (.obj [("data", .obj [("content", .arr [.str "b"])])]))
        useMetricsByEntity.init []).state.metrics = .arr [.str "a"] ∧
    ((useMetricsByEntity.loadMetricsSplit [.str "VEHICLE", .num 1]).overlap
        (useMetricsByEntity.loadMetricsSplit [.str "VEHICLE", .num 2]) false
        (fun k _ => match k with
          | 0 => .normal (.obj [("data", .obj [("content", .arr [.str "a"])])])
          | _ => .normal (.obj [("data", .obj [("content", .arr [.str "b"])])]))
        useMetricsByEntity.init []).state.metrics = .arr [.str "b"] :=
  ⟨((last_response_wins
      (fun k _ => match k with
        | 0 => .normal (.obj [("data", .obj [("content", .arr [.str "a"])])])
        | _ => .normal (.obj [("data", .obj [("content", .arr [.str "b"])])]))
      (.obj [("data", .obj [("content", .arr [.str "a"])])])
      (.obj [("data", .obj [("content", .arr [.str "b"])])])
      [.str "VEHICLE", .num 1] [.str "VEHICLE", .num 2] rfl rfl).1
      useMetricsByEntity.init [] (fun _ => rfl) (fun _ => rfl) rfl rfl rfl rfl).1,
   ((last_response_wins
      (fun k _ => match k with
        | 0 => .normal (.obj [("data", .obj [("content", .arr [.str "a"])])])
        | _ => .normal (.obj [("data", .obj [("content", .arr [.str "b"])])]))
      (.obj [("data", .obj [("content", .arr [.str "a"])])])
      (.obj [("data", .obj [("content", .arr [.str "b"])])])
      [.str "VEHICLE", .num 1] [.str "VEHICLE", .num 2] rfl rfl).1
      useMetricsByEntity.init [] (fun _ => rfl) (fun _ => rfl) rfl rfl rfl rfl).2.1⟩

end Analytics
